import Mathlib

/-!
# E-commerce API gateway: handlers over three stores

A shallow embedding of the request handlers of the gateway (`handlers/*.go`), of the
schema it bootstraps (`config/database.go`) and of the route table (`main.go`).

Conventions of the embedding:

* a handler is a function from the store state and the decoded request to the response
  and the new store state; a request body arrives decoded, or as the decoder's error;
* `Faults` gives, for the k-th store call a handler issues, the error the store
  reports for reasons outside the tables (connection loss, a value beyond the capacity
  of its column); `healthy` is the environment without such errors;
* what the schema declares about rows (keys, uniqueness, references, defaults,
  NULL-able columns, the scale of `DECIMAL(10, 2)`) is part of the store's statements,
  and so is what the connection string decides (`RowsAffected()` of the analytics
  store counts changed rows);
* rows are kept in insertion order and queries without `ORDER BY` return them so;
  strings are compared as given;
* time is a parameter: `now` is the value of `CURRENT_TIMESTAMP` / `NOW()` while the
  request runs, at the granularity of the store; `today` is the date of `time.Now()`;
* a document of the document store is the list of its fields, a collection the list of
  its documents in insertion order, and the identifier the driver generates for an
  insert is a parameter (`newID`); a handler that panics gives no response;
* the process environment that `config` reads is a parameter (`Environ`).
-/

namespace Shop

/-! ## Shared vocabulary -/

/-- A point in time at the granularity at which the store keeps it. -/
abbrev Time := Nat

/-- Amounts of money. A decoded `float64` is identified with the decimal number the
driver transmits for it. -/
abbrev Money := ℚ

/-- The error reported for the k-th store call of a request (`none`: no error). -/
abbrev Faults := Nat → Option String

/-- The environment in which no store call fails for outside reasons. -/
def healthy : Faults := fun _ => none

/-- What a handler writes: `http.Error(w, text, code)`, or a JSON value with a status. -/
inductive Response (α : Type) where
  | error (code : Nat) (text : String)
  | json (code : Nat) (value : α)
  deriving DecidableEq, Repr

/-- The HTTP status of a response. -/
def Response.status {α : Type} : Response α → Nat
  | .error code _ => code
  | .json code _ => code

/-- The body of `map[string]string{"message": text}`. -/
structure Message where
  message : String
  deriving DecidableEq, Repr

/-! ## models/models.go -/

/-- The Go struct `models.OrderItem`. -/
structure OrderItem where
  ID : Int
  OrderID : Int
  ProductID : String
  Quantity : Int
  Price : Money
  deriving DecidableEq, Repr

/-- The Go struct `models.Order`. -/
structure Order where
  ID : Int
  UserID : Int
  TotalAmount : Money
  Status : String
  PaymentMethod : String
  ShippingAddress : String
  CreatedAt : Time
  UpdatedAt : Time
  Items : List OrderItem
  deriving DecidableEq, Repr

/-- The Go struct `models.CartItem`. -/
structure CartItem where
  ID : Int
  UserID : Int
  ProductID : String
  Quantity : Int
  CreatedAt : Time
  UpdatedAt : Time
  deriving DecidableEq, Repr

/-- The Go struct `models.Inventory`. -/
structure Inventory where
  ID : Int
  ProductID : String
  Quantity : Int
  WarehouseLocation : String
  LastRestocked : Time
  LowStockThreshold : Int
  CreatedAt : Time
  UpdatedAt : Time
  deriving DecidableEq, Repr

/-! ## The transactional store (PostgreSQL), schema of `createPostgresTables` -/

/-- A row of `users`. -/
structure UserRow where
  id : Int
  name : String
  email : String
  password : String
  address : Option String
  phone : Option String
  created_at : Option Time
  updated_at : Option Time
  deriving DecidableEq, Repr

/-- A row of `orders`; columns without `NOT NULL` may hold NULL (`none`). -/
structure OrderRow where
  id : Int
  user_id : Option Int
  total_amount : Money
  status : Option String
  payment_method : Option String
  shipping_address : Option String
  created_at : Option Time
  updated_at : Option Time
  deriving DecidableEq, Repr

/-- A row of `order_items`. -/
structure OrderItemRow where
  id : Int
  order_id : Option Int
  product_id : String
  quantity : Int
  price : Money
  created_at : Option Time
  deriving DecidableEq, Repr

/-- A row of `cart`. -/
structure CartRow where
  id : Int
  user_id : Option Int
  product_id : String
  quantity : Int
  created_at : Option Time
  updated_at : Option Time
  deriving DecidableEq, Repr

/-- The transactional store: its four tables, the last value issued by each `SERIAL`
sequence, and whether an operator has added a unique constraint on
`cart (user_id, product_id)` (the bootstrapped schema has none). -/
structure Postgres where
  users : List UserRow
  orders : List OrderRow
  order_items : List OrderItemRow
  cart : List CartRow
  users_id_seq : Int
  orders_id_seq : Int
  order_items_id_seq : Int
  cart_id_seq : Int
  cart_user_product_key : Bool
  deriving DecidableEq, Repr

/-- Assignment to a `DECIMAL(10, 2)` column: the value is rounded to two fractional
digits, halves away from zero. -/
def numeric_10_2 (x : Money) : Money :=
  if 0 ≤ x then ((⌊x * 100 + 1 / 2⌋ : Int) : Money) / 100
  else -(((⌊-x * 100 + 1 / 2⌋ : Int) : Money) / 100)

/-- Whether `users` has a row with this id (the target of the `REFERENCES users(id)`
columns). -/
def Postgres.hasUser (db : Postgres) (id : Int) : Bool :=
  db.users.any (fun u => u.id == id)

/-- The text of a primary-key violation. -/
def pqDuplicateKey (table : String) : String :=
  "pq: duplicate key value violates unique constraint " ++ table ++ "_pkey"

/-- The text of a foreign-key violation. -/
def pqForeignKey (table : String) : String :=
  "pq: insert or update on table " ++ table ++ " violates foreign key constraint"

/-- The statement
`INSERT INTO orders (user_id, total_amount, status, payment_method, shipping_address)
 VALUES ($1, $2, $3, $4, $5) RETURNING id, created_at, updated_at`.
The id comes from the sequence, which stays advanced when the statement fails on a
constraint. -/
def Postgres.insertOrder (fault : Option String) (now : Time) (o : Order) (db : Postgres) :
    Except String (Int × Time × Time) × Postgres :=
  match fault with
  | some e => (.error e, db)
  | none =>
    let id := db.orders_id_seq + 1
    let db1 := { db with orders_id_seq := id }
    if db.orders.any (fun r => r.id == id) then (.error (pqDuplicateKey "orders"), db1)
    else if !db.hasUser o.UserID then (.error (pqForeignKey "orders"), db1)
    else
      let row : OrderRow :=
        { id := id, user_id := some o.UserID, total_amount := numeric_10_2 o.TotalAmount,
          status := some o.Status, payment_method := some o.PaymentMethod,
          shipping_address := some o.ShippingAddress,
          created_at := some now, updated_at := some now }
      (.ok (id, now, now), { db1 with orders := db.orders ++ [row] })

/-- The statement
`INSERT INTO order_items (order_id, product_id, quantity, price) VALUES ($1, $2, $3, $4)`. -/
def Postgres.insertOrderItem (fault : Option String) (now : Time) (orderID : Int)
    (item : OrderItem) (db : Postgres) : Except String Unit × Postgres :=
  match fault with
  | some e => (.error e, db)
  | none =>
    let id := db.order_items_id_seq + 1
    let db1 := { db with order_items_id_seq := id }
    if db.order_items.any (fun r => r.id == id) then
      (.error (pqDuplicateKey "order_items"), db1)
    else if !db.orders.any (fun r => r.id == orderID) then
      (.error (pqForeignKey "order_items"), db1)
    else
      let row : OrderItemRow :=
        { id := id, order_id := some orderID, product_id := item.ProductID,
          quantity := item.Quantity, price := numeric_10_2 item.Price,
          created_at := some now }
      (.ok (), { db1 with order_items := db.order_items ++ [row] })

/-! ### Transactions (`database/sql`) -/

/-- A transaction handle `*sql.Tx`: the tables as the transaction sees them, and
whether it has already been committed or rolled back. -/
structure Tx where
  view : Postgres
  done : Bool
  deriving DecidableEq, Repr

/-- The error `sql.ErrTxDone`. -/
def ErrTxDone : String := "sql: transaction has already been committed or rolled back"

/-- What is left in the store of a transaction that does not commit: the tables are
as before, sequence values that were handed out stay handed out. -/
def Postgres.discard (db : Postgres) (view : Postgres) : Postgres :=
  { db with
      users_id_seq := view.users_id_seq, orders_id_seq := view.orders_id_seq,
      order_items_id_seq := view.order_items_id_seq, cart_id_seq := view.cart_id_seq }

/-- The call `config.PostgresDB.Begin()`. -/
def Begin (fault : Option String) (db : Postgres) : Except String Tx :=
  match fault with
  | some e => .error e
  | none => .ok { view := db, done := false }

/-- The call `tx.Commit()`: a finished transaction answers `ErrTxDone`; otherwise the
handle is finished, and the view becomes the store unless the commit fails. -/
def Tx.Commit (fault : Option String) (tx : Tx) (db : Postgres) :
    Except String Unit × Tx × Postgres :=
  if tx.done then (.error ErrTxDone, tx, db)
  else
    match fault with
    | some e => (.error e, { tx with done := true }, db.discard tx.view)
    | none => (.ok (), { tx with done := true }, tx.view)

/-- The call `tx.Rollback()`: a finished transaction answers `ErrTxDone` and nothing
happens; otherwise the view is dropped. -/
def Tx.Rollback (tx : Tx) (db : Postgres) : Except String Unit × Tx × Postgres :=
  if tx.done then (.error ErrTxDone, tx, db)
  else (.ok (), { tx with done := true }, db.discard tx.view)

/-! ## handlers/order_handlers.go -/

/-- The loop `for _, item := range order.Items { tx.Exec(itemQuery, ...) }` of
`CreateOrder`, leaving at the first error; `k` numbers the store call. -/
def insertItems (faults : Faults) (now : Time) (orderID : Int) :
    Nat → List OrderItem → Tx → Except String Unit × Tx
  | _, [], tx => (.ok (), tx)
  | k, item :: rest, tx =>
    match tx.view.insertOrderItem (faults k) now orderID item with
    | (.error e, view1) => (.error e, { tx with view := view1 })
    | (.ok _, view1) => insertItems faults now orderID (k + 1) rest { tx with view := view1 }

/-- The part of `CreateOrder` that runs between `defer tx.Rollback()` and the return. -/
def CreateOrder.body (faults : Faults) (now : Time) (db : Postgres) (order : Order)
    (tx : Tx) : Response Order × Tx × Postgres :=
  match tx.view.insertOrder (faults 1) now order with
  | (.error e, view1) => (.error 500 e, { tx with view := view1 }, db)
  | (.ok (id, created, updated), view1) =>
    let order1 := { order with ID := id, CreatedAt := created, UpdatedAt := updated }
    match insertItems faults now id 2 order.Items { tx with view := view1 } with
    | (.error e, tx2) => (.error 500 e, tx2, db)
    | (.ok _, tx2) =>
      match tx2.Commit (faults (2 + order.Items.length)) db with
      | (.error e, tx3, db3) => (.error 500 e, tx3, db3)
      | (.ok _, tx3, db3) => (.json 201 order1, tx3, db3)

/-- The handler `CreateOrder`. The request body arrives decoded (`.error` carries the
decoder's message). Store calls: 0 begin, 1 the order insert, 2.. the item inserts,
then the commit. -/
def CreateOrder (faults : Faults) (now : Time) (db : Postgres)
    (body : Except String Order) : Response Order × Postgres :=
  match body with
  | .error e => (.error 400 e, db)
  | .ok order =>
    match Begin (faults 0) db with
    | .error e => (.error 500 e, db)
    | .ok tx =>
      let out := CreateOrder.body faults now db order tx
      -- defer tx.Rollback()
      (out.1, (out.2.1.Rollback out.2.2).2.2)

/-- Reading a result row of `orders` into a `models.Order` with `Scan`: a NULL cannot
be read into an `int`, `string` or `time.Time` field. -/
def scanOrder (r : OrderRow) : Option Order :=
  match r.user_id, r.status, r.payment_method, r.shipping_address, r.created_at,
    r.updated_at with
  | some userID, some status, some payment, some address, some created, some updated =>
    some { ID := r.id, UserID := userID, TotalAmount := r.total_amount, Status := status,
           PaymentMethod := payment, ShippingAddress := address, CreatedAt := created,
           UpdatedAt := updated, Items := [] }
  | _, _, _, _, _, _ => none

/-- Reading a result row of `order_items` into a `models.OrderItem`. -/
def scanOrderItem (r : OrderItemRow) : Option OrderItem :=
  match r.order_id with
  | some orderID =>
    some { ID := r.id, OrderID := orderID, ProductID := r.product_id,
           Quantity := r.quantity, Price := r.price }
  | none => none

/-- The value of a decimal digit. -/
def digitValue (c : Char) : Option Nat :=
  if '0' ≤ c ∧ c ≤ '9' then some (c.toNat - '0'.toNat) else none

/-- The number written by a string of decimal digits, after the digits read so far. -/
def readDigits : List Char → Nat → Option Nat
  | [], acc => some acc
  | c :: cs, acc =>
    match digitValue c with
    | some d => readDigits cs (acc * 10 + d)
    | none => none

/-- A signed decimal numeral: an optional sign and at least one digit. -/
def readSigned : List Char → Option Int
  | [] => none
  | '-' :: ds => if ds.isEmpty then none else (readDigits ds 0).map (fun n => -(n : Int))
  | '+' :: ds => if ds.isEmpty then none else (readDigits ds 0).map (fun n => (n : Int))
  | ds => (readDigits ds 0).map (fun n => (n : Int))

/-- How the store reads a text parameter compared with an `INTEGER` column: blanks
around a signed decimal numeral that fits 32 bits; anything else is an error. -/
def int4in (s : String) : Option Int :=
  let body := ((s.data.dropWhile Char.isWhitespace).reverse.dropWhile
    Char.isWhitespace).reverse
  match readSigned body with
  | some n => if -2147483648 ≤ n ∧ n ≤ 2147483647 then some n else none
  | none => none

/-- The query `SELECT ... FROM orders WHERE id = $1`, the id given as the text of the
path segment; `QueryRow` keeps the first row. -/
def Postgres.selectOrderByID (fault : Option String) (id : String) (db : Postgres) :
    Except String (Option OrderRow) :=
  match fault with
  | some e => .error e
  | none =>
    match int4in id with
    | none => .error "pq: invalid input syntax for type integer"
    | some n => .ok (db.orders.find? (fun r => r.id == n))

/-- The query `SELECT ... FROM order_items WHERE order_id = $1`. -/
def Postgres.selectOrderItems (fault : Option String) (orderID : Int) (db : Postgres) :
    Except String (List OrderItemRow) :=
  match fault with
  | some e => .error e
  | none => .ok (db.order_items.filter (fun r => r.order_id == some orderID))

/-- The loop `for itemRows.Next() { if Scan(...) == nil { append } }` of `GetOrderByID`. -/
def appendScannedItems : List OrderItemRow → List OrderItem → List OrderItem
  | [], items => items
  | r :: rest, items =>
    match scanOrderItem r with
    | some item => appendScannedItems rest (items ++ [item])
    | none => appendScannedItems rest items

/-- The handler `GetOrderByID`; `id` is the path segment. Store calls: 0 the order
query, 1 the items query (whose error is dropped). -/
def GetOrderByID (faults : Faults) (db : Postgres) (id : String) : Response Order :=
  match db.selectOrderByID (faults 0) id with
  | .error e => .error 500 e
  | .ok none => .error 404 "Order not found"
  | .ok (some row) =>
    match scanOrder row with
    | none => .error 500 "sql: Scan error: converting NULL is unsupported"
    | some order =>
      match db.selectOrderItems (faults 1) order.ID with
      | .error _ => .json 200 order
      | .ok itemRows =>
        .json 200 { order with Items := appendScannedItems itemRows order.Items }

/-! ## handlers/user_handlers.go: the cart -/

/-- The Go function `strconv.Atoi`: the value and the error. An ill-formed numeral
gives 0, a numeral outside 64 bits gives the nearest bound, both with an error. -/
def Atoi (s : String) : Int × Option String :=
  match readSigned s.data with
  | none => (0, some "strconv.Atoi: invalid syntax")
  | some n =>
    if n < -9223372036854775808 then (-9223372036854775808, some "strconv.Atoi: value out of range")
    else if 9223372036854775807 < n then (9223372036854775807, some "strconv.Atoi: value out of range")
    else (n, none)

/-- The text of a violation of the unique constraint on `cart (user_id, product_id)`. -/
def pqCartConflict : String :=
  "pq: duplicate key value violates unique constraint cart_user_id_product_id_key"

/-- Reading `RETURNING id, created_at, updated_at` of a cart row with `Scan`. -/
def scanCartReturning (r : CartRow) : Except String (Int × Time × Time) :=
  match r.created_at, r.updated_at with
  | some created, some updated => .ok (r.id, created, updated)
  | _, _ => .error "sql: Scan error: converting NULL to time.Time is unsupported"

/-- Replaces the first row that satisfies `p` by its image under `f`. -/
def updateFirst {α : Type} (p : α → Bool) (f : α → α) : List α → List α
  | [] => []
  | r :: rest => if p r then f r :: rest else r :: updateFirst p f rest

/-- The statement
`INSERT INTO cart (user_id, product_id, quantity) VALUES ($1, $2, $3)
 ON CONFLICT (user_id, product_id) DO UPDATE SET quantity = cart.quantity + $3,
 updated_at = CURRENT_TIMESTAMP RETURNING id, created_at, updated_at`.
Without a unique constraint on the two columns the statement is rejected. With one,
a sequence value is drawn, and either the row of the pair is updated or a new row is
inserted. -/
def Postgres.upsertCart (fault : Option String) (now : Time) (userID : Int)
    (productID : String) (quantity : Int) (db : Postgres) :
    Except String (Int × Time × Time) × Postgres :=
  match fault with
  | some e => (.error e, db)
  | none =>
    if !db.cart_user_product_key then
      (.error ("pq: there is no unique or exclusion constraint matching the " ++
        "ON CONFLICT specification"), db)
    else
      let id := db.cart_id_seq + 1
      let db1 := { db with cart_id_seq := id }
      let samePair := fun (r : CartRow) => r.user_id == some userID && r.product_id == productID
      match db.cart.find? samePair with
      | some r =>
        let r1 := { r with quantity := r.quantity + quantity, updated_at := some now }
        (scanCartReturning r1,
          { db1 with cart := updateFirst samePair (fun _ => r1) db.cart })
      | none =>
        if db.cart.any (fun r => r.id == id) then (.error (pqDuplicateKey "cart"), db1)
        else if !db.hasUser userID then (.error (pqForeignKey "cart"), db1)
        else
          let row : CartRow :=
            { id := id, user_id := some userID, product_id := productID,
              quantity := quantity, created_at := some now, updated_at := some now }
          (.ok (id, now, now), { db1 with cart := db.cart ++ [row] })

/-- The statement
`INSERT INTO cart (user_id, product_id, quantity) VALUES ($1, $2, $3)
 RETURNING id, created_at, updated_at`. -/
def Postgres.insertCart (fault : Option String) (now : Time) (userID : Int)
    (productID : String) (quantity : Int) (db : Postgres) :
    Except String (Int × Time × Time) × Postgres :=
  match fault with
  | some e => (.error e, db)
  | none =>
    let id := db.cart_id_seq + 1
    let db1 := { db with cart_id_seq := id }
    if db.cart.any (fun r => r.id == id) then (.error (pqDuplicateKey "cart"), db1)
    else if db.cart_user_product_key &&
        db.cart.any (fun r => r.user_id == some userID && r.product_id == productID) then
      (.error pqCartConflict, db1)
    else if !db.hasUser userID then (.error (pqForeignKey "cart"), db1)
    else
      let row : CartRow :=
        { id := id, user_id := some userID, product_id := productID,
          quantity := quantity, created_at := some now, updated_at := some now }
      (.ok (id, now, now), { db1 with cart := db.cart ++ [row] })

/-- The handler `AddToCart`; `userID` is the path segment. Store calls: 0 the upsert,
1 the plain insert tried when the upsert fails. -/
def AddToCart (faults : Faults) (now : Time) (db : Postgres) (userID : String)
    (body : Except String CartItem) : Response CartItem × Postgres :=
  match body with
  | .error e => (.error 400 e, db)
  | .ok decoded =>
    let userIDInt := (Atoi userID).1
    let item := { decoded with UserID := userIDInt }
    match db.upsertCart (faults 0) now item.UserID item.ProductID item.Quantity with
    | (.ok (id, created, updated), db1) =>
      (.json 201 { item with ID := id, CreatedAt := created, UpdatedAt := updated }, db1)
    | (.error _, db1) =>
      -- Fallback to simple insert if constraint doesn't exist
      match db1.insertCart (faults 1) now item.UserID item.ProductID item.Quantity with
      | (.ok (id, created, updated), db2) =>
        (.json 201 { item with ID := id, CreatedAt := created, UpdatedAt := updated }, db2)
      | (.error e, db2) => (.error 500 e, db2)

/-! ## The analytics store (MySQL), schema of `createMySQLTables` -/

/-- A row of `inventory`; columns without `NOT NULL` may hold NULL (`none`). -/
structure InventoryRow where
  id : Int
  product_id : String
  quantity : Int
  warehouse_location : Option String
  last_restocked : Option Time
  low_stock_threshold : Option Int
  created_at : Option Time
  updated_at : Option Time
  deriving DecidableEq, Repr

/-- A calendar date: the value of a `DATE` column, and the date part of `time.Now()`. -/
structure Date where
  year : Nat
  month : Nat
  day : Nat
  deriving DecidableEq, Repr

/-- A row of `sales_analytics`. -/
structure SalesRow where
  id : Int
  product_id : String
  quantity_sold : Int
  revenue : Money
  sale_date : Date
  created_at : Option Time
  deriving DecidableEq, Repr

/-- The analytics store: the `inventory` table with the next `AUTO_INCREMENT` value of
its id, and the `sales_analytics` table. Timestamps are kept to the second. -/
structure MySQL where
  inventory : List InventoryRow
  inventory_auto_increment : Int
  sales_analytics : List SalesRow := []
  deriving DecidableEq, Repr

/-- The text of a violation of `product_id VARCHAR(100) UNIQUE`. -/
def mysqlDuplicateEntry : String :=
  "Error 1062 (23000): Duplicate entry for key inventory.product_id"

/-- The assignments of
`UPDATE inventory SET quantity = ?, warehouse_location = ?, updated_at = NOW()`. -/
def InventoryRow.setStock (now : Time) (quantity : Int) (location : String)
    (r : InventoryRow) : InventoryRow :=
  { r with quantity := quantity, warehouse_location := some location,
           updated_at := some now }

/-- The assignments of
`UPDATE inventory SET quantity = quantity + ?, last_restocked = NOW(), updated_at = NOW()`. -/
def InventoryRow.addStock (now : Time) (quantity : Int) (r : InventoryRow) :
    InventoryRow :=
  { r with quantity := r.quantity + quantity, last_restocked := some now,
           updated_at := some now }

/-- An `UPDATE inventory SET ... WHERE product_id = ?` and the count that
`RowsAffected()` gives for it. The connection string of `initMySQL` sets only
`parseTime=true`, so the server counts the rows it changed: a row of the product whose
new values equal its old ones is not counted. -/
def MySQL.update (fault : Option String) (set : InventoryRow → InventoryRow)
    (productID : String) (db : MySQL) : Except String Int × MySQL :=
  match fault with
  | some e => (.error e, db)
  | none =>
    let changed := db.inventory.filter (fun r => r.product_id == productID && set r != r)
    (.ok (changed.length : Int),
      { db with inventory :=
          db.inventory.map (fun r => if r.product_id == productID then set r else r) })

/-- The id that `AUTO_INCREMENT` gives the next row: the counter, which the engine
keeps above every stored id. -/
def MySQL.nextInventoryID (db : MySQL) : Int :=
  db.inventory.foldl (fun next r => max next (r.id + 1)) db.inventory_auto_increment

/-- The statement
`INSERT INTO inventory (product_id, quantity, warehouse_location, last_restocked)
 VALUES (?, ?, ?, NOW())`: the other columns take their defaults, among them
`low_stock_threshold INT DEFAULT 10`; a second row for a product is refused by
`product_id VARCHAR(100) UNIQUE`. -/
def MySQL.insertInventory (fault : Option String) (now : Time) (productID : String)
    (quantity : Int) (location : String) (db : MySQL) : Except String Unit × MySQL :=
  match fault with
  | some e => (.error e, db)
  | none =>
    let id := db.nextInventoryID
    let db1 := { db with inventory_auto_increment := id + 1 }
    if db.inventory.any (fun r => r.product_id == productID) then
      (.error mysqlDuplicateEntry, db1)
    else
      let row : InventoryRow :=
        { id := id, product_id := productID, quantity := quantity,
          warehouse_location := some location, last_restocked := some now,
          low_stock_threshold := some 10, created_at := some now,
          updated_at := some now }
      (.ok (), { db1 with inventory := db.inventory ++ [row] })

/-- The query
`SELECT ... FROM inventory WHERE quantity <= low_stock_threshold`: a comparison with
NULL is not true. -/
def MySQL.selectLowStock (fault : Option String) (db : MySQL) :
    Except String (List InventoryRow) :=
  match fault with
  | some e => .error e
  | none =>
    .ok (db.inventory.filter (fun r =>
      match r.low_stock_threshold with
      | some threshold => decide (r.quantity ≤ threshold)
      | none => false))

/-! ## handlers/inventory_handlers.go -/

/-- Reading a result row of `inventory` into a `models.Inventory` with `Scan`: a NULL
cannot be read into a `string`, `int` or `time.Time` field. -/
def scanInventory (r : InventoryRow) : Option Inventory :=
  match r.warehouse_location, r.last_restocked, r.low_stock_threshold, r.created_at,
    r.updated_at with
  | some location, some restocked, some threshold, some created, some updated =>
    some { ID := r.id, ProductID := r.product_id, Quantity := r.quantity,
           WarehouseLocation := location, LastRestocked := restocked,
           LowStockThreshold := threshold, CreatedAt := created, UpdatedAt := updated }
  | _, _, _, _, _ => none

/-- The loop `for rows.Next() { if Scan(...) != nil { continue }; append }` of the
inventory lists. -/
def appendScannedInventory : List InventoryRow → List Inventory → List Inventory
  | [], inventory => inventory
  | r :: rest, inventory =>
    match scanInventory r with
    | some item => appendScannedInventory rest (inventory ++ [item])
    | none => appendScannedInventory rest inventory

/-- The handler `UpdateInventory`; `productID` is the path segment. Store calls: 0 the
update, 1 the insert issued when the update reports no affected row. -/
def UpdateInventory (faults : Faults) (now : Time) (db : MySQL) (productID : String)
    (body : Except String Inventory) : Response Message × MySQL :=
  match body with
  | .error e => (.error 400 e, db)
  | .ok item =>
    match db.update (faults 0) (InventoryRow.setStock now item.Quantity
        item.WarehouseLocation) productID with
    | (.error e, db1) => (.error 500 e, db1)
    | (.ok rows, db1) =>
      if rows = 0 then
        -- Insert if not exists
        match db1.insertInventory (faults 1) now productID item.Quantity
            item.WarehouseLocation with
        | (.error e, db2) => (.error 500 e, db2)
        | (.ok _, db2) => (.json 200 ⟨"Inventory updated successfully"⟩, db2)
      else (.json 200 ⟨"Inventory updated successfully"⟩, db1)

/-- The handler `RestockInventory`; the body is a decoded `map[string]int`, a missing
key reads as 0. -/
def RestockInventory (faults : Faults) (now : Time) (db : MySQL) (productID : String)
    (body : Except String (List (String × Int))) : Response Message × MySQL :=
  match body with
  | .error e => (.error 400 e, db)
  | .ok data =>
    let quantity := (data.lookup "quantity").getD 0
    match db.update (faults 0) (InventoryRow.addStock now quantity) productID with
    | (.error e, db1) => (.error 500 e, db1)
    | (.ok rows, db1) =>
      if rows = 0 then (.error 404 "Inventory not found", db1)
      else (.json 200 ⟨"Inventory restocked successfully"⟩, db1)

/-- The handler `GetLowStockItems`. -/
def GetLowStockItems (faults : Faults) (db : MySQL) : Response (List Inventory) :=
  match db.selectLowStock (faults 0) with
  | .error e => .error 500 e
  | .ok rows => .json 200 (appendScannedInventory rows [])

/-! ## main.go: the route table -/

/-- The handlers that `main` registers. -/
inductive Handler where
  | HealthCheck
  | CreateUser | GetAllUsers | GetUserByID | UpdateUser | DeleteUser | GetUserOrders
  | SearchProducts | GetProductsByCategory | CreateProduct | GetAllProducts
  | GetProductByID | UpdateProduct | DeleteProduct
  | CreateOrder | GetAllOrders | GetOrderByID | UpdateOrderStatus | CancelOrder
  | GetAllInventory | GetInventoryByProduct | UpdateInventory | RestockInventory
  | GetLowStockItems
  | CreateReview | GetProductReviews | DeleteReview | MarkReviewHelpful
  | CreateCategory | GetAllCategories | GetCategoryByID | UpdateCategory | DeleteCategory
  | GetCart | AddToCart | RemoveFromCart | ClearCart
  | GetSalesAnalytics | GetPopularProducts | GetRevenueStats
  | GetWishlist | AddToWishlist | RemoveFromWishlist
  deriving DecidableEq, Repr

/-- One `router.HandleFunc(template, handler).Methods(method)`. -/
structure Route where
  template : String
  handler : Handler
  method : String
  deriving DecidableEq, Repr

/-- The routes in the order in which `main` registers them. -/
def routes : List Route :=
  [ ⟨"/health", .HealthCheck, "GET"⟩,
    ⟨"/api/users", .CreateUser, "POST"⟩,
    ⟨"/api/users", .GetAllUsers, "GET"⟩,
    ⟨"/api/users/{id}", .GetUserByID, "GET"⟩,
    ⟨"/api/users/{id}", .UpdateUser, "PUT"⟩,
    ⟨"/api/users/{id}", .DeleteUser, "DELETE"⟩,
    ⟨"/api/users/{id}/orders", .GetUserOrders, "GET"⟩,
    ⟨"/api/products/search", .SearchProducts, "GET"⟩,
    ⟨"/api/products/category/{category}", .GetProductsByCategory, "GET"⟩,
    ⟨"/api/products", .CreateProduct, "POST"⟩,
    ⟨"/api/products", .GetAllProducts, "GET"⟩,
    ⟨"/api/products/{id}", .GetProductByID, "GET"⟩,
    ⟨"/api/products/{id}", .UpdateProduct, "PUT"⟩,
    ⟨"/api/products/{id}", .DeleteProduct, "DELETE"⟩,
    ⟨"/api/orders", .CreateOrder, "POST"⟩,
    ⟨"/api/orders", .GetAllOrders, "GET"⟩,
    ⟨"/api/orders/{id}", .GetOrderByID, "GET"⟩,
    ⟨"/api/orders/{id}/status", .UpdateOrderStatus, "PATCH"⟩,
    ⟨"/api/orders/{id}/cancel", .CancelOrder, "POST"⟩,
    ⟨"/api/inventory", .GetAllInventory, "GET"⟩,
    ⟨"/api/inventory/{product_id}", .GetInventoryByProduct, "GET"⟩,
    ⟨"/api/inventory/{product_id}", .UpdateInventory, "PUT"⟩,
    ⟨"/api/inventory/{product_id}/restock", .RestockInventory, "POST"⟩,
    ⟨"/api/inventory/low-stock", .GetLowStockItems, "GET"⟩,
    ⟨"/api/reviews", .CreateReview, "POST"⟩,
    ⟨"/api/reviews/product/{product_id}", .GetProductReviews, "GET"⟩,
    ⟨"/api/reviews/{id}", .DeleteReview, "DELETE"⟩,
    ⟨"/api/reviews/{id}/helpful", .MarkReviewHelpful, "POST"⟩,
    ⟨"/api/categories", .CreateCategory, "POST"⟩,
    ⟨"/api/categories", .GetAllCategories, "GET"⟩,
    ⟨"/api/categories/{id}", .GetCategoryByID, "GET"⟩,
    ⟨"/api/categories/{id}", .UpdateCategory, "PUT"⟩,
    ⟨"/api/categories/{id}", .DeleteCategory, "DELETE"⟩,
    ⟨"/api/cart/{user_id}", .GetCart, "GET"⟩,
    ⟨"/api/cart/{user_id}/items", .AddToCart, "POST"⟩,
    ⟨"/api/cart/{user_id}/items/{item_id}", .RemoveFromCart, "DELETE"⟩,
    ⟨"/api/cart/{user_id}/clear", .ClearCart, "DELETE"⟩,
    ⟨"/api/analytics/sales", .GetSalesAnalytics, "GET"⟩,
    ⟨"/api/analytics/popular-products", .GetPopularProducts, "GET"⟩,
    ⟨"/api/analytics/revenue", .GetRevenueStats, "GET"⟩,
    ⟨"/api/wishlist/{user_id}", .GetWishlist, "GET"⟩,
    ⟨"/api/wishlist/{user_id}/items", .AddToWishlist, "POST"⟩,
    ⟨"/api/wishlist/{user_id}/items/{product_id}", .RemoveFromWishlist, "DELETE"⟩ ]

/-- The segments of a path between its slashes; `current` holds, reversed, the
characters of the segment being read. -/
def splitSlash : List Char → List Char → List (List Char)
  | [], current => [current.reverse]
  | c :: cs, current =>
    if c = '/' then current.reverse :: splitSlash cs [] else splitSlash cs (c :: current)

/-- The name of the variable when a template segment is a variable in braces. -/
def variableName (segment : List Char) : Option String :=
  match segment with
  | '\x7b' :: rest =>
    if rest.getLast? = some '\x7d' then some (String.mk rest.dropLast) else none
  | _ => none

/-- Matching a template against a path, segment by segment: a variable takes any
non-empty segment (the router compiles it to `[^/]+`), other segments must be equal. -/
def matchSegments : List (List Char) → List (List Char) → Option (List (String × String))
  | [], [] => some []
  | t :: ts, p :: ps =>
    match variableName t with
    | some name =>
      if p.isEmpty then none
      else (matchSegments ts ps).map (fun vars => (name, String.mk p) :: vars)
    | none => if t = p then matchSegments ts ps else none
  | _, _ => none

/-- Whether a route matches a request, and with which path variables. -/
def Route.matches (r : Route) (method path : String) : Option (List (String × String)) :=
  if r.method = method then
    matchSegments (splitSlash r.template.data []) (splitSlash path.data [])
  else none

/-- The router: the first registered route that matches method and path serves the
request. -/
def dispatch (method path : String) : Option (Handler × List (String × String)) :=
  routes.findSome? (fun r => (r.matches method path).map (fun vars => (r.handler, vars)))

/-! ## handlers/user_handlers.go: users, and the lists of the transactional store -/

/-- The Go struct `models.User`; `Password` carries the tag `json:"password,omitempty"`. -/
structure User where
  ID : Int
  Name : String
  Email : String
  Password : String
  Address : String
  Phone : String
  CreatedAt : Time
  UpdatedAt : Time
  deriving DecidableEq, Repr

/-- The loop `for rows.Next() { if Scan(...) != nil { continue }; append }` of the list
handlers, for any kind of row. -/
def appendScanned {ρ α : Type} (scan : ρ → Option α) : List ρ → List α → List α
  | [], records => records
  | r :: rest, records =>
    match scan r with
    | some record => appendScanned scan rest (records ++ [record])
    | none => appendScanned scan rest records

/-- Reading `id, name, email, address, phone, created_at, updated_at` of a `users` row
into a `models.User`: the password is not selected, and a NULL cannot be read into a
`string` or `time.Time` field. -/
def scanUser (r : UserRow) : Option User :=
  match r.address, r.phone, r.created_at, r.updated_at with
  | some address, some phone, some created, some updated =>
    some { ID := r.id, Name := r.name, Email := r.email, Password := "",
           Address := address, Phone := phone, CreatedAt := created, UpdatedAt := updated }
  | _, _, _, _ => none

/-- Reading a result row of `cart` into a `models.CartItem`. -/
def scanCartItem (r : CartRow) : Option CartItem :=
  match r.user_id, r.created_at, r.updated_at with
  | some userID, some created, some updated =>
    some { ID := r.id, UserID := userID, ProductID := r.product_id,
           Quantity := r.quantity, CreatedAt := created, UpdatedAt := updated }
  | _, _, _ => none

/-- The text of a violation of `email VARCHAR(255) UNIQUE`. -/
def pqEmailConflict : String :=
  "pq: duplicate key value violates unique constraint users_email_key"

/-- The text of the refusal to delete a row that other rows reference. -/
def pqStillReferenced (table : String) : String :=
  "pq: update or delete on table " ++ table ++ " violates foreign key constraint"

/-- The statement
`INSERT INTO users (name, email, password, address, phone) VALUES ($1, $2, $3, $4, $5)
 RETURNING id, created_at, updated_at`. -/
def Postgres.insertUser (fault : Option String) (now : Time) (u : User) (db : Postgres) :
    Except String (Int × Time × Time) × Postgres :=
  match fault with
  | some e => (.error e, db)
  | none =>
    let id := db.users_id_seq + 1
    let db1 := { db with users_id_seq := id }
    if db.users.any (fun r => r.id == id) then (.error (pqDuplicateKey "users"), db1)
    else if db.users.any (fun r => r.email == u.Email) then (.error pqEmailConflict, db1)
    else
      let row : UserRow :=
        { id := id, name := u.Name, email := u.Email, password := u.Password,
          address := some u.Address, phone := some u.Phone, created_at := some now,
          updated_at := some now }
      (.ok (id, now, now), { db1 with users := db.users ++ [row] })

/-- The handler `CreateUser`. -/
def CreateUser (faults : Faults) (now : Time) (db : Postgres)
    (body : Except String User) : Response User × Postgres :=
  match body with
  | .error e => (.error 400 e, db)
  | .ok user =>
    match db.insertUser (faults 0) now user with
    | (.error e, db1) => (.error 500 e, db1)
    | (.ok (id, created, updated), db1) =>
      -- Don't return password
      (.json 201 { user with ID := id, CreatedAt := created, UpdatedAt := updated,
                             Password := "" }, db1)

/-- The query `SELECT id, name, email, address, phone, created_at, updated_at FROM users
LIMIT 100`. -/
def Postgres.selectUsers (fault : Option String) (db : Postgres) :
    Except String (List UserRow) :=
  match fault with
  | some e => .error e
  | none => .ok (db.users.take 100)

/-- The handler `GetAllUsers`. -/
def GetAllUsers (faults : Faults) (db : Postgres) : Response (List User) :=
  match db.selectUsers (faults 0) with
  | .error e => .error 500 e
  | .ok rows => .json 200 (appendScanned scanUser rows [])

/-- The query `SELECT ... FROM users WHERE id = $1`, the id given as the text of the
path segment; `QueryRow` keeps the first row. -/
def Postgres.selectUserByID (fault : Option String) (id : String) (db : Postgres) :
    Except String (Option UserRow) :=
  match fault with
  | some e => .error e
  | none =>
    match int4in id with
    | none => .error "pq: invalid input syntax for type integer"
    | some n => .ok (db.users.find? (fun r => r.id == n))

/-- The handler `GetUserByID`; `id` is the path segment. -/
def GetUserByID (faults : Faults) (db : Postgres) (id : String) : Response User :=
  match db.selectUserByID (faults 0) id with
  | .error e => .error 500 e
  | .ok none => .error 404 "User not found"
  | .ok (some row) =>
    match scanUser row with
    | none => .error 500 "sql: Scan error: converting NULL is unsupported"
    | some user => .json 200 user

/-- The statement `DELETE FROM users WHERE id = $1` and its count of deleted rows. The
columns `orders.user_id` and `cart.user_id` are declared `REFERENCES users(id)` with
no `ON DELETE` action, so a user that a row of them names cannot be deleted. -/
def Postgres.deleteUser (fault : Option String) (id : String) (db : Postgres) :
    Except String Int × Postgres :=
  match fault with
  | some e => (.error e, db)
  | none =>
    match int4in id with
    | none => (.error "pq: invalid input syntax for type integer", db)
    | some n =>
      let hit := db.users.filter (fun r => r.id == n)
      if hit.isEmpty then (.ok 0, db)
      else if db.orders.any (fun r => r.user_id == some n) ||
          db.cart.any (fun r => r.user_id == some n) then
        (.error (pqStillReferenced "users"), db)
      else (.ok (hit.length : Int), { db with users := db.users.filter (fun r => r.id != n) })

/-- The handler `DeleteUser`; `id` is the path segment. -/
def DeleteUser (faults : Faults) (db : Postgres) (id : String) :
    Response Message × Postgres :=
  match db.deleteUser (faults 0) id with
  | (.error e, db1) => (.error 500 e, db1)
  | (.ok rows, db1) =>
    if rows = 0 then (.error 404 "User not found", db1)
    else (.json 200 ⟨"User deleted successfully"⟩, db1)

/-- The query `SELECT ... FROM orders WHERE user_id = $1`, the user id given as the
text of the path segment; the statement carries no `LIMIT`. -/
def Postgres.selectOrdersOfUser (fault : Option String) (userID : String) (db : Postgres) :
    Except String (List OrderRow) :=
  match fault with
  | some e => .error e
  | none =>
    match int4in userID with
    | none => .error "pq: invalid input syntax for type integer"
    | some n => .ok (db.orders.filter (fun r => r.user_id == some n))

/-- The handler `GetUserOrders`; `userID` is the path segment. -/
def GetUserOrders (faults : Faults) (db : Postgres) (userID : String) :
    Response (List Order) :=
  match db.selectOrdersOfUser (faults 0) userID with
  | .error e => .error 500 e
  | .ok rows => .json 200 (appendScanned scanOrder rows [])

/-- The query `SELECT ... FROM cart WHERE user_id = $1`, the user id given as the text
of the path segment; the statement carries no `LIMIT`. -/
def Postgres.selectCart (fault : Option String) (userID : String) (db : Postgres) :
    Except String (List CartRow) :=
  match fault with
  | some e => .error e
  | none =>
    match int4in userID with
    | none => .error "pq: invalid input syntax for type integer"
    | some n => .ok (db.cart.filter (fun r => r.user_id == some n))

/-- The handler `GetCart`; `userID` is the path segment. -/
def GetCart (faults : Faults) (db : Postgres) (userID : String) :
    Response (List CartItem) :=
  match db.selectCart (faults 0) userID with
  | .error e => .error 500 e
  | .ok rows => .json 200 (appendScanned scanCartItem rows [])

/-! ## handlers/order_handlers.go: the list and the status changes -/

/-- The query `SELECT ... FROM orders LIMIT 100`. -/
def Postgres.selectOrders (fault : Option String) (db : Postgres) :
    Except String (List OrderRow) :=
  match fault with
  | some e => .error e
  | none => .ok (db.orders.take 100)

/-- The handler `GetAllOrders`. -/
def GetAllOrders (faults : Faults) (db : Postgres) : Response (List Order) :=
  match db.selectOrders (faults 0) with
  | .error e => .error 500 e
  | .ok rows => .json 200 (appendScanned scanOrder rows [])

/-- The statement
`UPDATE orders SET status = $1, updated_at = CURRENT_TIMESTAMP WHERE id = $2` (with
`'cancelled'` for `$1` in `CancelOrder`) and its count of updated rows: this store
counts every row that the `WHERE` clause selects. -/
def Postgres.setOrderStatus (fault : Option String) (now : Time) (status : String)
    (id : String) (db : Postgres) : Except String Int × Postgres :=
  match fault with
  | some e => (.error e, db)
  | none =>
    match int4in id with
    | none => (.error "pq: invalid input syntax for type integer", db)
    | some n =>
      (.ok ((db.orders.filter (fun r => r.id == n)).length : Int),
        { db with orders := db.orders.map (fun r =>
            if r.id == n then { r with status := some status, updated_at := some now }
            else r) })

/-- The handler `CancelOrder`; `id` is the path segment. -/
def CancelOrder (faults : Faults) (now : Time) (db : Postgres) (id : String) :
    Response Message × Postgres :=
  match db.setOrderStatus (faults 0) now "cancelled" id with
  | (.error e, db1) => (.error 500 e, db1)
  | (.ok rows, db1) =>
    if rows = 0 then (.error 404 "Order not found", db1)
    else (.json 200 ⟨"Order cancelled successfully"⟩, db1)

/-! ## handlers/inventory_handlers.go: the inventory list and the sales list -/

/-- The query `SELECT ... FROM inventory LIMIT 100`. -/
def MySQL.selectInventory (fault : Option String) (db : MySQL) :
    Except String (List InventoryRow) :=
  match fault with
  | some e => .error e
  | none => .ok (db.inventory.take 100)

/-- The handler `GetAllInventory`. -/
def GetAllInventory (faults : Faults) (db : MySQL) : Response (List Inventory) :=
  match db.selectInventory (faults 0) with
  | .error e => .error 500 e
  | .ok rows => .json 200 (appendScannedInventory rows [])

/-- The Go struct `models.SalesAnalytics`. -/
structure SalesAnalytics where
  ID : Int
  ProductID : String
  QuantitySold : Int
  Revenue : Money
  SaleDate : Date
  CreatedAt : Time
  deriving DecidableEq, Repr

/-- Reading a result row of `sales_analytics` into a `models.SalesAnalytics`. -/
def scanSales (r : SalesRow) : Option SalesAnalytics :=
  match r.created_at with
  | some created =>
    some { ID := r.id, ProductID := r.product_id, QuantitySold := r.quantity_sold,
           Revenue := r.revenue, SaleDate := r.sale_date, CreatedAt := created }
  | none => none

/-- Whether a year is a leap year. -/
def isLeap (year : Nat) : Bool :=
  year % 4 == 0 && (year % 100 != 0 || year % 400 == 0)

/-- The number of days of a month. -/
def daysIn (year month : Nat) : Nat :=
  match month with
  | 2 => if isLeap year then 29 else 28
  | 4 => 30
  | 6 => 30
  | 9 => 30
  | 11 => 30
  | _ => 31

/-- The day after a date. -/
def Date.next (d : Date) : Date :=
  if d.day < daysIn d.year d.month then { d with day := d.day + 1 }
  else if d.month < 12 then { year := d.year, month := d.month + 1, day := 1 }
  else { year := d.year + 1, month := 1, day := 1 }

/-- The Go function `time.Date` on the date part, for a month number that may be 0:
the month is normalized first (month 0 is December of the year before), and the day
counts on from the first of that month, past its end if need be. -/
def goDate (year month day : Nat) : Date :=
  let first : Date :=
    if month = 0 then { year := year - 1, month := 12, day := 1 }
    else { year := year, month := month, day := 1 }
  Nat.iterate Date.next (day - 1) first

/-- The call `t.AddDate(0, -1, 0)` on the date part: `Date(year, month - 1, day)`. -/
def Date.monthEarlier (d : Date) : Date :=
  goDate d.year (d.month - 1) d.day

/-- A number in decimal, filled with zeros on the left up to a width. -/
def zeroPadded (width n : Nat) : String :=
  String.mk (List.replicate (width - (toString n).length) '0') ++ toString n

/-- The call `t.Format("2006-01-02")`. -/
def Date.format (d : Date) : String :=
  zeroPadded 4 d.year ++ "-" ++ zeroPadded 2 d.month ++ "-" ++ zeroPadded 2 d.day

/-- The bounds that `GetSalesAnalytics` passes to its query: the query parameters
`start_date` and `end_date` (empty when absent), each replaced when empty. -/
def salesRange (today : Date) (startDate endDate : String) : String × String :=
  let startDate := if startDate = "" then today.monthEarlier.format else startDate
  let endDate := if endDate = "" then today.format else endDate
  (startDate, endDate)

/-- The query `SELECT ... FROM sales_analytics WHERE sale_date BETWEEN ? AND ? LIMIT
1000`; `between` is the store's reading of the `DATE` column against two text
bounds. -/
def MySQL.selectSales (fault : Option String) (between : String → String → Date → Bool)
    (startDate endDate : String) (db : MySQL) : Except String (List SalesRow) :=
  match fault with
  | some e => .error e
  | none =>
    .ok ((db.sales_analytics.filter (fun r => between startDate endDate r.sale_date)).take
      1000)

/-- The handler `GetSalesAnalytics`; `startDate` and `endDate` are the query
parameters, `today` is the date of `time.Now()`. -/
def GetSalesAnalytics (faults : Faults) (today : Date)
    (between : String → String → Date → Bool) (db : MySQL) (startDate endDate : String) :
    Response (List SalesAnalytics) :=
  let range := salesRange today startDate endDate
  match db.selectSales (faults 0) between range.1 range.2 with
  | .error e => .error 500 e
  | .ok rows => .json 200 (appendScanned scanSales rows [])

/-! ## The document store (MongoDB) -/

/-- A document identifier `primitive.ObjectID`: twelve bytes, kept as their 24
hexadecimal digits. -/
structure ObjectID where
  nibbles : List (Fin 16)
  size : nibbles.length = 24
  deriving DecidableEq, Repr

/-- The character of a hexadecimal digit, in lower case. -/
def hexDigit (n : Fin 16) : Char :=
  if n.val < 10 then Char.ofNat ('0'.toNat + n.val) else Char.ofNat ('a'.toNat + (n.val - 10))

/-- The hexadecimal digit that a character writes, in either case. -/
def nibbleOf (c : Char) : Option (Fin 16) :=
  if '0' ≤ c ∧ c ≤ '9' then some (Fin.ofNat (c.toNat - '0'.toNat))
  else if 'a' ≤ c ∧ c ≤ 'f' then some (Fin.ofNat (c.toNat - 'a'.toNat + 10))
  else if 'A' ≤ c ∧ c ≤ 'F' then some (Fin.ofNat (c.toNat - 'A'.toNat + 10))
  else none

/-- The digits that a string of hexadecimal characters writes. -/
def readNibbles : List Char → Option (List (Fin 16))
  | [] => some []
  | c :: cs =>
    match nibbleOf c, readNibbles cs with
    | some n, some ns => some (n :: ns)
    | _, _ => none

/-- The method `ObjectID.Hex`. -/
def ObjectID.Hex (id : ObjectID) : String :=
  String.mk (id.nibbles.map hexDigit)

/-- The function `primitive.ObjectIDFromHex`: the string must be 24 hexadecimal
characters. -/
def ObjectIDFromHex (s : String) : Option ObjectID :=
  match readNibbles s.data with
  | some ns => if h : ns.length = 24 then some ⟨ns, h⟩ else none
  | none => none

/-- A value in a stored document. -/
inductive Bson where
  | int (n : Int)
  | str (s : String)
  | objectID (id : ObjectID)
  | time (t : Time)
  deriving DecidableEq, Repr

/-- A stored document, and a filter: fields with their values. -/
abbrev Doc := List (String × Bson)

/-- The document store: the collections `reviews` and `wishlist`. -/
structure Mongo where
  reviews : List Doc
  wishlist : List Doc
  deriving DecidableEq, Repr

/-- Whether a document satisfies a filter `bson.M`: each field of the filter is in the
document with that value. -/
def Doc.satisfies (filter : Doc) (d : Doc) : Bool :=
  filter.all (fun field => d.lookup field.1 == some field.2)

/-- The text of a violation of the unique index on `_id`. -/
def mongoDuplicateKey : String := "E11000 duplicate key error collection"

/-- The call `collection.InsertOne`: a document without `_id` gets the fresh identifier
of the driver in front; the result is the `InsertedID`. -/
def insertOne (fault : Option String) (newID : ObjectID) (doc : Doc) (collection : List Doc) :
    Except String Bson × List Doc :=
  match fault with
  | some e => (.error e, collection)
  | none =>
    let stored : Doc :=
      match doc.lookup "_id" with
      | some _ => doc
      | none => ("_id", .objectID newID) :: doc
    let id : Bson := (stored.lookup "_id").getD (.objectID newID)
    if collection.any (fun d => d.lookup "_id" == some id) then
      (.error mongoDuplicateKey, collection)
    else (.ok id, collection ++ [stored])

/-- The call `collection.DeleteOne`: the first document that satisfies the filter is
removed; the result is the `DeletedCount`. -/
def deleteOne (fault : Option String) (filter : Doc) (collection : List Doc) :
    Except String Nat × List Doc :=
  match fault with
  | some e => (.error e, collection)
  | none =>
    if collection.any filter.satisfies then (.ok 1, collection.eraseP filter.satisfies)
    else (.ok 0, collection)

/-- The operator `$inc` on one field of a document: a number is raised, a missing
field is set, another kind of value is refused. -/
def Doc.inc (field : String) (amount : Int) (d : Doc) : Except String Doc :=
  match d.lookup field with
  | none => .ok (d ++ [(field, .int amount)])
  | some (.int n) =>
    .ok (d.map (fun kv => if kv.1 == field then (field, .int (n + amount)) else kv))
  | some _ => .error "Cannot apply $inc to a value of non-numeric type"

/-- Applies a change to the first document that satisfies a filter. -/
def updateFirstDoc (filter : Doc) (change : Doc → Except String Doc) :
    List Doc → Except String (List Doc)
  | [] => .ok []
  | d :: rest =>
    if filter.satisfies d then
      match change d with
      | .ok d1 => .ok (d1 :: rest)
      | .error e => .error e
    else
      match updateFirstDoc filter change rest with
      | .ok rest1 => .ok (d :: rest1)
      | .error e => .error e

/-- The call `collection.UpdateOne` with `$inc` on one field; the result is the
`MatchedCount`. -/
def updateOneInc (fault : Option String) (filter : Doc) (field : String) (amount : Int)
    (collection : List Doc) : Except String Nat × List Doc :=
  match fault with
  | some e => (.error e, collection)
  | none =>
    match updateFirstDoc filter (Doc.inc field amount) collection with
    | .error e => (.error e, collection)
    | .ok updated =>
      (.ok (if collection.any filter.satisfies then 1 else 0), updated)

/-- The call `collection.Find`: the documents that satisfy the filter, in the order
of the collection. -/
def find (fault : Option String) (filter : Doc) (collection : List Doc) :
    Except String (List Doc) :=
  match fault with
  | some e => .error e
  | none => .ok (collection.filter filter.satisfies)

/-- Decoding a field into a Go `string`: a missing field leaves the zero value, an
identifier is read as its hexadecimal form. -/
def decodeString : Option Bson → Except String String
  | none => .ok ""
  | some (.str s) => .ok s
  | some (.objectID id) => .ok id.Hex
  | some _ => .error "cannot decode into a string type"

/-- Decoding a field into a Go `int`. -/
def decodeInt : Option Bson → Except String Int
  | none => .ok 0
  | some (.int n) => .ok n
  | some _ => .error "cannot decode into an integer type"

/-- Decoding a field into a Go `time.Time`. -/
def decodeTime : Option Bson → Except String Time
  | none => .ok 0
  | some (.time t) => .ok t
  | some _ => .error "cannot decode into a time.Time"

/-- The call `cursor.All`: every document is decoded, and the first one that cannot be
decoded ends the call with its error. -/
def decodeAll {α : Type} (decode : Doc → Except String α) : List Doc → Except String (List α)
  | [] => .ok []
  | d :: rest =>
    match decode d with
    | .error e => .error e
    | .ok record =>
      match decodeAll decode rest with
      | .error e => .error e
      | .ok records => .ok (record :: records)

/-! ## handlers/review_handlers.go -/

/-- The Go struct `models.Review`; `ID` carries the tag `bson:"_id,omitempty"`. -/
structure Review where
  ID : String
  ProductID : String
  UserID : Int
  Rating : Int
  Comment : String
  Helpful : Int
  CreatedAt : Time
  deriving DecidableEq, Repr

/-- The Go struct `models.Wishlist`; `ID` carries the tag `bson:"_id,omitempty"`. -/
structure Wishlist where
  ID : String
  UserID : Int
  ProductID : String
  AddedAt : Time
  deriving DecidableEq, Repr

/-- The document that the driver writes for a `models.Review`. -/
def Review.toDoc (r : Review) : Doc :=
  (if r.ID = "" then [] else [("_id", Bson.str r.ID)]) ++
    [("product_id", .str r.ProductID), ("user_id", .int r.UserID),
     ("rating", .int r.Rating), ("comment", .str r.Comment),
     ("helpful", .int r.Helpful), ("created_at", .time r.CreatedAt)]

/-- The document that the driver writes for a `models.Wishlist`. -/
def Wishlist.toDoc (w : Wishlist) : Doc :=
  (if w.ID = "" then [] else [("_id", Bson.str w.ID)]) ++
    [("user_id", .int w.UserID), ("product_id", .str w.ProductID),
     ("added_at", .time w.AddedAt)]

/-- Decoding a document into a `models.Review`. -/
def decodeReview (d : Doc) : Except String Review :=
  match decodeString (d.lookup "_id"), decodeString (d.lookup "product_id"),
    decodeInt (d.lookup "user_id"), decodeInt (d.lookup "rating"),
    decodeString (d.lookup "comment"), decodeInt (d.lookup "helpful"),
    decodeTime (d.lookup "created_at") with
  | .ok id, .ok product, .ok user, .ok rating, .ok comment, .ok helpful, .ok created =>
    .ok { ID := id, ProductID := product, UserID := user, Rating := rating,
          Comment := comment, Helpful := helpful, CreatedAt := created }
  | _, _, _, _, _, _, _ => .error "error decoding document into models.Review"

/-- Decoding a document into a `models.Wishlist`. -/
def decodeWishlist (d : Doc) : Except String Wishlist :=
  match decodeString (d.lookup "_id"), decodeInt (d.lookup "user_id"),
    decodeString (d.lookup "product_id"), decodeTime (d.lookup "added_at") with
  | .ok id, .ok user, .ok product, .ok added =>
    .ok { ID := id, UserID := user, ProductID := product, AddedAt := added }
  | _, _, _, _ => .error "error decoding document into models.Wishlist"

/-- The handler `CreateReview`; `newID` is the identifier the driver generates. The
answer is `none` when the handler panics: `result.InsertedID.(primitive.ObjectID)`
on an `InsertedID` that is the string the body gave as `id`. -/
def CreateReview (faults : Faults) (now : Time) (newID : ObjectID) (db : Mongo)
    (body : Except String Review) : Option (Response Review) × Mongo :=
  match body with
  | .error e => (some (.error 400 e), db)
  | .ok decoded =>
    let review := { decoded with CreatedAt := now, Helpful := 0 }
    match insertOne (faults 0) newID review.toDoc db.reviews with
    | (.error e, _) => (some (.error 500 e), db)
    | (.ok (.objectID id), reviews) =>
      (some (.json 201 { review with ID := id.Hex }), { db with reviews := reviews })
    | (.ok _, reviews) => (none, { db with reviews := reviews })

/-- The handler `GetProductReviews`; `productID` is the path segment. Store calls: 0
`Find`, 1 `cursor.All`. -/
def GetProductReviews (faults : Faults) (db : Mongo) (productID : String) :
    Response (List Review) :=
  match find (faults 0) [("product_id", .str productID)] db.reviews with
  | .error e => .error 500 e
  | .ok docs =>
    match faults 1 with
    | some e => .error 500 e
    | none =>
      match decodeAll decodeReview docs with
      | .error e => .error 500 e
      | .ok reviews => .json 200 reviews

/-- The handler `DeleteReview`; `id` is the path segment. -/
def DeleteReview (faults : Faults) (db : Mongo) (id : String) : Response Message × Mongo :=
  match ObjectIDFromHex id with
  | none => (.error 400 "Invalid review ID", db)
  | some objectID =>
    match deleteOne (faults 0) [("_id", .objectID objectID)] db.reviews with
    | (.error e, _) => (.error 500 e, db)
    | (.ok deleted, reviews) =>
      if deleted = 0 then (.error 404 "Review not found", { db with reviews := reviews })
      else (.json 200 ⟨"Review deleted successfully"⟩, { db with reviews := reviews })

/-- The handler `MarkReviewHelpful`; `id` is the path segment. -/
def MarkReviewHelpful (faults : Faults) (db : Mongo) (id : String) :
    Response Message × Mongo :=
  match ObjectIDFromHex id with
  | none => (.error 400 "Invalid review ID", db)
  | some objectID =>
    match updateOneInc (faults 0) [("_id", .objectID objectID)] "helpful" 1 db.reviews with
    | (.error e, _) => (.error 500 e, db)
    | (.ok matched, reviews) =>
      if matched = 0 then (.error 404 "Review not found", { db with reviews := reviews })
      else (.json 200 ⟨"Review marked as helpful"⟩, { db with reviews := reviews })

/-- The handler `GetWishlist`; `userID` is the path segment. Store calls: 0 `Find`, 1
`cursor.All`. -/
def GetWishlist (faults : Faults) (db : Mongo) (userID : String) :
    Response (List Wishlist) :=
  let userIDInt := (Atoi userID).1
  match find (faults 0) [("user_id", .int userIDInt)] db.wishlist with
  | .error e => .error 500 e
  | .ok docs =>
    match faults 1 with
    | some e => .error 500 e
    | none =>
      match decodeAll decodeWishlist docs with
      | .error e => .error 500 e
      | .ok wishlist => .json 200 wishlist

/-- The handler `AddToWishlist`; the body is a decoded `map[string]string`, a missing
key reads as the empty string. -/
def AddToWishlist (faults : Faults) (now : Time) (newID : ObjectID) (db : Mongo)
    (userID : String) (body : Except String (List (String × String))) :
    Option (Response Wishlist) × Mongo :=
  let userIDInt := (Atoi userID).1
  match body with
  | .error e => (some (.error 400 e), db)
  | .ok data =>
    let wishlistItem : Wishlist :=
      { ID := "", UserID := userIDInt, ProductID := (data.lookup "product_id").getD "",
        AddedAt := now }
    match insertOne (faults 0) newID wishlistItem.toDoc db.wishlist with
    | (.error e, _) => (some (.error 500 e), db)
    | (.ok (.objectID id), wishlist) =>
      (some (.json 201 { wishlistItem with ID := id.Hex }), { db with wishlist := wishlist })
    | (.ok _, wishlist) => (none, { db with wishlist := wishlist })

/-- The handler `RemoveFromWishlist`; `userID` and `productID` are the path segments. -/
def RemoveFromWishlist (faults : Faults) (db : Mongo) (userID productID : String) :
    Response Message × Mongo :=
  let userIDInt := (Atoi userID).1
  match deleteOne (faults 0) [("user_id", .int userIDInt), ("product_id", .str productID)]
      db.wishlist with
  | (.error e, _) => (.error 500 e, db)
  | (.ok deleted, wishlist) =>
    if deleted = 0 then (.error 404 "Wishlist item not found", { db with wishlist := wishlist })
    else (.json 200 ⟨"Item removed from wishlist"⟩, { db with wishlist := wishlist })

/-! ## handlers/user_handlers.go and handlers/order_handlers.go: the updates -/

/-- The statement
`UPDATE users SET name = $1, email = $2, address = $3, phone = $4,
 updated_at = CURRENT_TIMESTAMP WHERE id = $5` and its count of updated rows, the id
given as the text of the path segment. The column `email` is `UNIQUE`: the statement is
refused when it would leave two rows with one email. -/
def Postgres.updateUser (fault : Option String) (now : Time) (u : User) (id : String)
    (db : Postgres) : Except String Int × Postgres :=
  match fault with
  | some e => (.error e, db)
  | none =>
    match int4in id with
    | none => (.error "pq: invalid input syntax for type integer", db)
    | some n =>
      let hit := db.users.filter (fun r => r.id == n)
      if !hit.isEmpty &&
          (decide (1 < hit.length) ||
            db.users.any (fun r => r.id != n && r.email == u.Email)) then
        (.error pqEmailConflict, db)
      else
        (.ok (hit.length : Int),
          { db with users := db.users.map (fun r =>
              if r.id == n then
                { r with name := u.Name, email := u.Email, address := some u.Address,
                         phone := some u.Phone, updated_at := some now }
              else r) })

/-- The handler `UpdateUser`; `id` is the path segment. -/
def UpdateUser (faults : Faults) (now : Time) (db : Postgres) (id : String)
    (body : Except String User) : Response Message × Postgres :=
  match body with
  | .error e => (.error 400 e, db)
  | .ok user =>
    match db.updateUser (faults 0) now user id with
    | (.error e, db1) => (.error 500 e, db1)
    | (.ok rows, db1) =>
      if rows = 0 then (.error 404 "User not found", db1)
      else (.json 200 ⟨"User updated successfully"⟩, db1)

/-- The handler `UpdateOrderStatus`; `id` is the path segment, the body is a decoded
`map[string]string`, a missing key reads as the empty string. -/
def UpdateOrderStatus (faults : Faults) (now : Time) (db : Postgres) (id : String)
    (body : Except String (List (String × String))) : Response Message × Postgres :=
  match body with
  | .error e => (.error 400 e, db)
  | .ok data =>
    let status := (data.lookup "status").getD ""
    match db.setOrderStatus (faults 0) now status id with
    | (.error e, db1) => (.error 500 e, db1)
    | (.ok rows, db1) =>
      if rows = 0 then (.error 404 "Order not found", db1)
      else (.json 200 ⟨"Order status updated successfully"⟩, db1)

/-! ## config/database.go: the environment -/

/-- The process environment: the value of each variable that is set. -/
abbrev Environ := String → Option String

/-- The call `os.Getenv`: the value of the variable, or the empty string when it is
not set. -/
def Getenv (env : Environ) (key : String) : String :=
  (env key).getD ""

/-- The function `getEnv`. -/
def getEnv (env : Environ) (key defaultValue : String) : String :=
  let value := Getenv env key
  if value ≠ "" then value else defaultValue

/-- The variable `postgresPass` of `initPostgres`. -/
def initPostgres.postgresPass (env : Environ) : String :=
  getEnv env "POSTGRES_PASSWORD" "postgres"

/-- The variable `dbName` of `GetMongoDatabase`. -/
def GetMongoDatabase.dbName (env : Environ) : String :=
  getEnv env "MONGO_DB" "ecommerce"

/-! ## Specification vocabulary -/

/-- The `order_items` row that an item of a request becomes under order `orderID`. -/
def itemRow (now : Time) (orderID : Int) (id : Int) (item : OrderItem) : OrderItemRow :=
  { id := id, order_id := some orderID, product_id := item.ProductID,
    quantity := item.Quantity, price := numeric_10_2 item.Price, created_at := some now }

/-- The `orders` row that a request becomes under the generated id. -/
def orderRow (now : Time) (id : Int) (o : Order) : OrderRow :=
  { id := id, user_id := some o.UserID, total_amount := numeric_10_2 o.TotalAmount,
    status := some o.Status, payment_method := some o.PaymentMethod,
    shipping_address := some o.ShippingAddress, created_at := some now,
    updated_at := some now }

/-- The constraint violations the statements of `CreateOrder` can meet. -/
def orderConstraintTexts : List String :=
  [pqDuplicateKey "orders", pqForeignKey "orders", pqDuplicateKey "order_items",
   pqForeignKey "order_items"]

/-- What `GetOrderByID` reads back for an item of a request stored under `orderID`. -/
def storedItem (orderID : Int) (id : Int) (item : OrderItem) : OrderItem :=
  { ID := id, OrderID := orderID, ProductID := item.ProductID, Quantity := item.Quantity,
    Price := numeric_10_2 item.Price }

/-- The reference `order_items.order_id REFERENCES orders(id)` holds in the state:
every item row names no order or an order that is stored. -/
def Postgres.itemsReferenceOrders (db : Postgres) : Bool :=
  db.order_items.all (fun r =>
    match r.order_id with
    | none => true
    | some orderID => db.orders.any (fun o => o.id == orderID))

/-- The store right after the schema is bootstrapped: empty tables, fresh sequences,
no unique constraint on the cart. -/
def Postgres.empty : Postgres :=
  { users := [], orders := [], order_items := [], cart := [], users_id_seq := 0,
    orders_id_seq := 0, order_items_id_seq := 0, cart_id_seq := 0,
    cart_user_product_key := false }

/-- A store with one registered user (id 1) and nothing else. -/
def shopWithUser : Postgres :=
  { Postgres.empty with
      users := [{ id := 1, name := "Ada", email := "ada@example.com", password := "secret",
                  address := some "1 Main St", phone := none, created_at := some 0,
                  updated_at := some 0 }],
      users_id_seq := 1 }

/-- The order of the example scenario: one item `prod1`, quantity 2, price 29.99. -/
def exampleOrder : Order :=
  { ID := 0, UserID := 1, TotalAmount := 5998 / 100, Status := "pending",
    PaymentMethod := "credit_card", ShippingAddress := "1 Main St", CreatedAt := 0,
    UpdatedAt := 0,
    Items := [{ ID := 0, OrderID := 0, ProductID := "prod1", Quantity := 2,
                Price := 2999 / 100 }] }

/-- The same order with the price given to a tenth of a cent: 29.999. -/
def finePriceOrder : Order :=
  { exampleOrder with
      Items := [{ ID := 0, OrderID := 0, ProductID := "prod1", Quantity := 2,
                  Price := 29999 / 1000 }] }

/-- One `AddToCart` request of a sequence: the faults it meets, the time at which it
runs, and its decoded body. -/
structure CartCall where
  faults : Faults
  now : Time
  body : CartItem

/-- A sequence of `AddToCart` requests for the same path segment `userID`, served one
after the other: the responses and the store they leave. -/
def AddToCartAll (userID : String) : List CartCall → Postgres →
    List (Response CartItem) × Postgres
  | [], db => ([], db)
  | c :: rest, db =>
    let out := AddToCart c.faults c.now db userID (.ok c.body)
    let outRest := AddToCartAll userID rest out.2
    (out.1 :: outRest.1, outRest.2)

/-- The ids `start, start + 1, ...` that a sequence hands out for `n` rows. -/
def serialFrom (start : Int) : Nat → List Int
  | 0 => []
  | n + 1 => start :: serialFrom (start + 1) n

/-- The `cart` row that a plain insert stores for a request. -/
def cartRow (userID : Int) (id : Int) (c : CartCall) : CartRow :=
  { id := id, user_id := some userID, product_id := c.body.ProductID,
    quantity := c.body.Quantity, created_at := some c.now, updated_at := some c.now }

/-- The answer to a request whose row was inserted under `id`. -/
def cartCreated (userID : Int) (id : Int) (c : CartCall) : Response CartItem :=
  .json 201 { c.body with ID := id, UserID := userID, CreatedAt := c.now,
                          UpdatedAt := c.now }

/-- A request body for `AddToCart`: a product and a quantity. -/
def cartBody (productID : String) (quantity : Int) : CartItem :=
  { ID := 0, UserID := 0, ProductID := productID, Quantity := quantity, CreatedAt := 0,
    UpdatedAt := 0 }

/-- Two requests at times 3 and 4 that add 2 and then 5 of `prod1`, on a store that
reports no fault. -/
def twoCartCalls : List CartCall :=
  [{ faults := healthy, now := 3, body := cartBody "prod1" 2 },
   { faults := healthy, now := 4, body := cartBody "prod1" 5 }]

/-- The store with one registered user after an operator has added the unique
constraint on `cart (user_id, product_id)`. -/
def keyedShop : Postgres :=
  { shopWithUser with cart_user_product_key := true }

/-- The bootstrapped store, without users, after an operator has added the unique
constraint on `cart (user_id, product_id)`. -/
def keyedEmptyShop : Postgres :=
  { Postgres.empty with cart_user_product_key := true }

/-- The analytics store right after the schema is bootstrapped. -/
def MySQL.empty : MySQL :=
  { inventory := [], inventory_auto_increment := 1 }

/-- A decoded body of `UpdateInventory`: the two fields the handler reads. -/
def stockBody (quantity : Int) (location : String) : Inventory :=
  { ID := 0, ProductID := "", Quantity := quantity, WarehouseLocation := location,
    LastRestocked := 0, LowStockThreshold := 0, CreatedAt := 0, UpdatedAt := 0 }

/-- The analytics store after `PUT /api/inventory/prod1` with quantity 5 and location
`A1` was served at second 100 on the bootstrapped store. -/
def stockedStore : MySQL :=
  (UpdateInventory healthy 100 MySQL.empty "prod1" (.ok (stockBody 5 "A1"))).2

/-- Whether a row satisfies `quantity <= low_stock_threshold`. -/
def InventoryRow.lowStock (r : InventoryRow) : Bool :=
  match r.low_stock_threshold with
  | some threshold => decide (r.quantity ≤ threshold)
  | none => false

/-- An inventory table with one low-stock row whose `warehouse_location` is NULL, as
`INSERT INTO inventory (product_id, quantity) VALUES (...)` leaves it. -/
def storeWithUnplacedStock : MySQL :=
  { inventory := [{ id := 1, product_id := "prod9", quantity := 1,
                    warehouse_location := none, last_restocked := some 50,
                    low_stock_threshold := some 10, created_at := some 50,
                    updated_at := some 50 }],
    inventory_auto_increment := 2 }

/-- The records in the body of a list response (none in an error response). -/
def Response.records {α : Type} : Response (List α) → List α
  | .json _ records => records
  | .error _ _ => []

/-- The record in the body of a response (none in an error response). -/
def Response.record {α : Type} : Response α → List α
  | .json _ record => [record]
  | .error _ _ => []

/-- A cart row of user 1 under a given id. -/
def cartRowOfUserOne (id : Nat) : CartRow :=
  { id := (id : Int) + 1, user_id := some 1, product_id := "prod1", quantity := 1,
    created_at := some 0, updated_at := some 0 }

/-- An order row of user 1 under a given id. -/
def orderRowOfUserOne (id : Nat) : OrderRow :=
  { id := (id : Int) + 1, user_id := some 1, total_amount := 10, status := some "pending",
    payment_method := some "cash", shipping_address := some "1 Main St",
    created_at := some 0, updated_at := some 0 }

/-- A low-stock inventory row under a given id. -/
def lowStockRow (id : Nat) : InventoryRow :=
  { id := (id : Int) + 1, product_id := "prod" ++ toString id, quantity := 0,
    warehouse_location := some "A1", last_restocked := some 0,
    low_stock_threshold := some 10, created_at := some 0, updated_at := some 0 }

/-- The store with user 1 and `n` cart rows of that user (the bootstrapped schema
lets a pair repeat). -/
def shopWithCartRows (n : Nat) : Postgres :=
  { shopWithUser with
      cart := (List.range n).map cartRowOfUserOne, cart_id_seq := n }

/-- The store with user 1 and `n` orders of that user. -/
def shopWithOrders (n : Nat) : Postgres :=
  { shopWithUser with
      orders := (List.range n).map orderRowOfUserOne, orders_id_seq := n }

/-- The analytics store with `n` products, all low on stock. -/
def storeWithLowStock (n : Nat) : MySQL :=
  { inventory := (List.range n).map lowStockRow, inventory_auto_increment := (n : Int) + 1 }

/-- Whether a row of `orders` or `cart` names the user. -/
def Postgres.userReferenced (db : Postgres) (id : Int) : Bool :=
  db.orders.any (fun r => r.user_id == some id) || db.cart.any (fun r => r.user_id == some id)

/-- A store with one user (id 1, every column filled) who has one row in the cart. -/
def shopWithShopperCart : Postgres :=
  { Postgres.empty with
      users := [{ id := 1, name := "Ada", email := "ada@example.com", password := "secret",
                  address := some "1 Main St", phone := some "555-0100",
                  created_at := some 0, updated_at := some 0 }],
      users_id_seq := 1,
      cart := [cartRowOfUserOne 0],
      cart_id_seq := 1 }

/-- Whether a character is a hexadecimal digit, in either case. -/
def isHexChar (c : Char) : Bool :=
  decide (('0' ≤ c ∧ c ≤ '9') ∨ ('a' ≤ c ∧ c ≤ 'f') ∨ ('A' ≤ c ∧ c ≤ 'F'))

/-- Whether a string is exactly 24 hexadecimal characters. -/
def isHex24 (s : String) : Bool :=
  decide (s.length = 24) && s.data.all isHexChar

/-- The identifier whose 24 digits are all the same. -/
def ObjectID.ofDigit (n : Fin 16) : ObjectID :=
  ⟨List.replicate 24 n, List.length_replicate 24 n⟩

/-- The document store with no document. -/
def Mongo.empty : Mongo :=
  { reviews := [], wishlist := [] }

/-- The document kept for a review created under the identifier `id`. -/
def Review.stored (id : ObjectID) (r : Review) : Doc :=
  ("_id", .objectID id) :: ({ r with ID := "" }).toDoc

/-- A series of `MarkReviewHelpful` requests on one path identifier, one environment
per request: the answers in order, and the store after the last one. -/
def MarkReviewHelpful_each : List Faults → Mongo → String → List (Response Message) × Mongo
  | [], db, _ => ([], db)
  | faults :: later, db, id =>
    let first := MarkReviewHelpful faults db id
    let rest := MarkReviewHelpful_each later first.2 id
    (first.1 :: rest.1, rest.2)

/-- The number of answers with status 200. -/
def successes {α : Type} (answers : List (Response α)) : Nat :=
  answers.countP (fun r => r.status == 200)

/-- A review request body that carries a `helpful` value of its own. -/
def reviewBody : Review :=
  { ID := "", ProductID := "prod1", UserID := 1, Rating := 5, Comment := "Great product!",
    Helpful := 7, CreatedAt := 0 }

/-- The review that `CreateReview` answers for `reviewBody` at time 5 under the
identifier `aaaaaaaaaaaaaaaaaaaaaaaa`. -/
def createdReview : Review :=
  { reviewBody with ID := "aaaaaaaaaaaaaaaaaaaaaaaa", CreatedAt := 5, Helpful := 0 }

/-- The document kept for a wishlist item created under the identifier `id`. -/
def Wishlist.stored (id : ObjectID) (w : Wishlist) : Doc :=
  ("_id", .objectID id) :: ({ w with ID := "" }).toDoc

/-- One `AddToWishlist` request with its environment. -/
structure WishlistAdd where
  faults : Faults
  now : Time
  newID : ObjectID
  userID : String
  body : Except String (List (String × String))

/-- The store after a series of `AddToWishlist` requests. -/
def AddToWishlist_each : List WishlistAdd → Mongo → Mongo
  | [], db => db
  | a :: later, db =>
    AddToWishlist_each later (AddToWishlist a.faults a.now a.newID db a.userID a.body).2

/-- The request that puts `prod1` on the wishlist of user 1, under a given identifier. -/
def wishProdOne (newID : ObjectID) : WishlistAdd :=
  { faults := healthy, now := 0, newID := newID, userID := "1",
    body := .ok [("product_id", "prod1")] }

/-- Whether a date is a day of the calendar, in the years 1 to 9999. -/
def Date.valid (d : Date) : Bool :=
  decide (1 ≤ d.year ∧ d.year ≤ 9999 ∧ 1 ≤ d.month ∧ d.month ≤ 12 ∧ 1 ≤ d.day ∧
    d.day ≤ daysIn d.year d.month)

/-- The calendar month before the month of a date: its year and its number. -/
def Date.monthBefore (d : Date) : Nat × Nat :=
  if d.month = 1 then (d.year - 1, 12) else (d.year, d.month - 1)

/-- The records of the documents that decode, in order. -/
def decoded {α : Type} (decode : Doc → Except String α) (docs : List Doc) : List α :=
  docs.filterMap (fun d => (decode d).toOption)

/-- Whether a character is a decimal digit. -/
def isDecimalDigit (c : Char) : Bool :=
  decide ('0' ≤ c ∧ c ≤ '9')

/-- Whether a string is a decimal integer: an optional sign, then one or more digits. -/
def isDecimalInteger (s : String) : Bool :=
  match s.data with
  | [] => false
  | '-' :: ds => !ds.isEmpty && ds.all isDecimalDigit
  | '+' :: ds => !ds.isEmpty && ds.all isDecimalDigit
  | ds => ds.all isDecimalDigit

/-- The handler `AddToCart` as the plain insert alone: what the specification says it
comes to under the bootstrapped schema. -/
def AddToCart_plainInsert (fault : Option String) (now : Time) (db : Postgres)
    (userID : String) (body : Except String CartItem) : Response CartItem × Postgres :=
  match body with
  | .error e => (.error 400 e, db)
  | .ok decoded =>
    let item := { decoded with UserID := (Atoi userID).1 }
    match db.insertCart fault now item.UserID item.ProductID item.Quantity with
    | (.ok (id, created, updated), db1) =>
      (.json 201 { item with ID := id, CreatedAt := created, UpdatedAt := updated }, db1)
    | (.error e, db1) => (.error 500 e, db1)

/-- An environment in which `POSTGRES_PASSWORD` and `MONGO_DB` are set to the empty
string and `POSTGRES_HOST` to `db.internal`. -/
def emptyPasswordEnv : Environ := fun key =>
  if key = "POSTGRES_PASSWORD" then some ""
  else if key = "MONGO_DB" then some ""
  else if key = "POSTGRES_HOST" then some "db.internal"
  else none

/-! ## Order creation -/

theorem insertOrderItem_spec (fault : Option String) (now : Time) (orderID : Int)
    (item : OrderItem) (db : Postgres) :
    (db.insertOrderItem fault now orderID item).2.orders = db.orders ∧
    (db.insertOrderItem fault now orderID item).2.users = db.users ∧
    (db.insertOrderItem fault now orderID item).2.cart = db.cart ∧
    (((db.insertOrderItem fault now orderID item).1 = .ok () ∧
        ∃ id, (db.insertOrderItem fault now orderID item).2.order_items =
          db.order_items ++ [itemRow now orderID id item]) ∨
      (∃ e, (db.insertOrderItem fault now orderID item).1 = .error e ∧
        (fault = some e ∨ e ∈ orderConstraintTexts))) := by
  unfold Postgres.insertOrderItem
  cases fault with
  | some e => simp
  | none =>
    simp only
    split_ifs <;> simp [itemRow, orderConstraintTexts]

theorem insertItems_spec (faults : Faults) (now : Time) (orderID : Int) :
    ∀ (items : List OrderItem) (k : Nat) (tx : Tx),
      (insertItems faults now orderID k items tx).2.done = tx.done ∧
      (insertItems faults now orderID k items tx).2.view.orders = tx.view.orders ∧
      (insertItems faults now orderID k items tx).2.view.users = tx.view.users ∧
      (insertItems faults now orderID k items tx).2.view.cart = tx.view.cart ∧
      (((insertItems faults now orderID k items tx).1 = .ok () ∧
          ∃ ids : List Int, ids.length = items.length ∧
            (insertItems faults now orderID k items tx).2.view.order_items =
              tx.view.order_items ++ List.zipWith (itemRow now orderID) ids items) ∨
        (∃ e, (insertItems faults now orderID k items tx).1 = .error e ∧
          ((∃ j, k ≤ j ∧ j < k + items.length ∧ faults j = some e) ∨
            e ∈ orderConstraintTexts))) := by
  intro items
  induction items with
  | nil =>
    intro k tx
    simp [insertItems]
  | cons item rest ih =>
    intro k tx
    have hstep := insertOrderItem_spec (faults k) now orderID item tx.view
    rcases hres : tx.view.insertOrderItem (faults k) now orderID item with ⟨r, view1⟩
    rw [hres] at hstep
    simp only at hstep
    obtain ⟨ho, hu, hc, hcase⟩ := hstep
    cases r with
    | error e =>
      simp only [insertItems, hres]
      refine ⟨trivial, ho, hu, hc, Or.inr ⟨e, rfl, ?_⟩⟩
      rcases hcase with ⟨h, _⟩ | ⟨e1, h1, h2⟩
      · cases h
      · cases h1
        rcases h2 with h2 | h2
        · exact Or.inl ⟨k, le_refl k, by simp, h2⟩
        · exact Or.inr h2
    | ok u =>
      simp only [insertItems, hres]
      obtain ⟨hd, ho2, hu2, hc2, hcase2⟩ := ih (k + 1) { tx with view := view1 }
      refine ⟨hd, ho2.trans ho, hu2.trans hu, hc2.trans hc, ?_⟩
      rcases hcase with ⟨_, id, hid⟩ | ⟨e1, h1, _⟩
      · rcases hcase2 with ⟨hok, ids, hlen, hrows⟩ | ⟨e, he, hwhy⟩
        · refine Or.inl ⟨hok, id :: ids, by simp [hlen], ?_⟩
          rw [hrows]
          simp [hid]
        · refine Or.inr ⟨e, he, ?_⟩
          rcases hwhy with ⟨j, h1, h2, h3⟩ | h
          · exact Or.inl ⟨j, by omega, by simp at h2 ⊢; omega, h3⟩
          · exact Or.inr h
      · cases h1

theorem insertOrder_spec (fault : Option String) (now : Time) (o : Order) (db : Postgres) :
    (db.insertOrder fault now o).2.order_items = db.order_items ∧
    (db.insertOrder fault now o).2.users = db.users ∧
    (db.insertOrder fault now o).2.cart = db.cart ∧
    ((∃ id, (db.insertOrder fault now o).1 = .ok (id, now, now) ∧
        (db.insertOrder fault now o).2.orders = db.orders ++ [orderRow now id o] ∧
        (∀ x ∈ db.orders, x.id ≠ id) ∧ db.hasUser o.UserID = true) ∨
      (∃ e, (db.insertOrder fault now o).1 = .error e ∧
        (db.insertOrder fault now o).2.orders = db.orders ∧
        (fault = some e ∨ e ∈ orderConstraintTexts))) := by
  unfold Postgres.insertOrder
  cases fault with
  | some e => simp
  | none =>
    simp only
    split_ifs with h1 h2
    · simp [orderConstraintTexts]
    · simp [orderConstraintTexts]
    · refine ⟨by simp, by simp, by simp,
        Or.inl ⟨db.orders_id_seq + 1, by simp, by simp [orderRow], ?_, ?_⟩⟩
      · intro x hx hid
        apply h1
        simp only [List.any_eq_true, beq_iff_eq]
        exact ⟨x, hx, hid⟩
      · simpa using h2

/-- The two ways in which `CreateOrder` ends on a decoded request: everything is
stored and the answer is 201, or nothing is stored and the answer is 500. -/
theorem CreateOrder_shape (faults : Faults) (now : Time) (db : Postgres) (order : Order) :
    (∃ (id : Int) (ids : List Int),
        (CreateOrder faults now db (.ok order)).1 =
          .json 201 { order with ID := id, CreatedAt := now, UpdatedAt := now } ∧
        (CreateOrder faults now db (.ok order)).2.orders =
          db.orders ++ [orderRow now id order] ∧
        (CreateOrder faults now db (.ok order)).2.order_items =
          db.order_items ++ List.zipWith (itemRow now id) ids order.Items ∧
        ids.length = order.Items.length ∧
        (∀ x ∈ db.orders, x.id ≠ id) ∧ db.hasUser order.UserID = true) ∨
    (∃ e : String,
        (CreateOrder faults now db (.ok order)).1 = .error 500 e ∧
        ((∃ k, k ≤ order.Items.length + 2 ∧ faults k = some e) ∨
          e ∈ orderConstraintTexts) ∧
        (CreateOrder faults now db (.ok order)).2.orders = db.orders ∧
        (CreateOrder faults now db (.ok order)).2.order_items = db.order_items) := by
  unfold CreateOrder
  simp only
  cases hb : faults 0 with
  | some e =>
    simp only [Begin]
    exact Or.inr ⟨e, by simp, Or.inl ⟨0, by omega, hb⟩, by simp, by simp⟩
  | none =>
    simp only [Begin, CreateOrder.body]
    obtain ⟨hi, _, _, hcase⟩ := insertOrder_spec (faults 1) now order db
    rcases hres : db.insertOrder (faults 1) now order with ⟨r, view1⟩
    rw [hres] at hi hcase
    simp only at hi hcase
    rcases hcase with ⟨id, hok, horders, hfresh, huser⟩ | ⟨e, herr, horders, hwhy⟩
    · subst hok
      simp only
      obtain ⟨hd, ho2, _, _, hcase2⟩ :=
        insertItems_spec faults now id order.Items 2 { view := view1, done := false }
      rcases hres2 : insertItems faults now id 2 order.Items
        { view := view1, done := false } with ⟨r2, tx2⟩
      rw [hres2] at hd ho2 hcase2
      simp only at hd ho2 hcase2
      rcases hcase2 with ⟨hok2, ids, hlen, hrows⟩ | ⟨e, herr2, hwhy⟩
      · subst hok2
        simp only [Tx.Commit, hd]
        cases hc : faults (2 + order.Items.length) with
        | some e =>
          refine Or.inr ⟨e, by simp, Or.inl ⟨2 + order.Items.length, by omega, hc⟩, ?_, ?_⟩
          · simp [Tx.Rollback, Postgres.discard]
          · simp [Tx.Rollback, Postgres.discard]
        | none =>
          refine Or.inl ⟨id, ids, by simp, ?_, ?_, hlen, hfresh, huser⟩
          · simp [Tx.Rollback, ho2, horders]
          · simp [Tx.Rollback, hrows, hi]
      · subst herr2
        refine Or.inr ⟨e, by simp, ?_, ?_, ?_⟩
        · rcases hwhy with ⟨j, h1, h2, h3⟩ | h
          · exact Or.inl ⟨j, by omega, h3⟩
          · exact Or.inr h
        · simp [Tx.Rollback, hd, Postgres.discard]
        · simp [Tx.Rollback, hd, Postgres.discard]
    · subst herr
      refine Or.inr ⟨e, by simp, ?_, ?_, ?_⟩
      · rcases hwhy with h | h
        · exact Or.inl ⟨1, by omega, h⟩
        · exact Or.inr h
      · simp [Tx.Rollback, Postgres.discard]
      · simp [Tx.Rollback, Postgres.discard]

theorem CreateOrder_body_created_done (faults : Faults) (now : Time) (db : Postgres)
    (order : Order) (tx : Tx) (o : Order)
    (h : (CreateOrder.body faults now db order tx).1 = .json 201 o) :
    (CreateOrder.body faults now db order tx).2.1.done = true := by
  unfold CreateOrder.body at h ⊢
  rcases hres : tx.view.insertOrder (faults 1) now order with ⟨r, view1⟩
  rw [hres] at h
  cases r with
  | error e => simp at h
  | ok t =>
    obtain ⟨id, created, updated⟩ := t
    simp only at h ⊢
    rcases hres2 : insertItems faults now id 2 order.Items { tx with view := view1 }
      with ⟨r2, tx2⟩
    rw [hres2] at h
    cases r2 with
    | error e => simp at h
    | ok u =>
      simp only at h ⊢
      unfold Tx.Commit at h ⊢
      by_cases hd : tx2.done = true
      · simp [hd] at h
      · cases hc : faults (2 + order.Items.length) with
        | some e => simp [hd, hc] at h
        | none => simp [hd]

/-- C1. For every decoded order request with N items and every outcome of begin, the
order insert, each item insert and the commit, `CreateOrder` either answers 201 and
the store holds the new order row and its N item rows after the old ones, or answers
500 with the error text of the store and both tables are as before; and the deferred
rollback after a commit that succeeded reports `ErrTxDone` and changes nothing. -/
theorem CreateOrder_all_or_nothing (faults : Faults) (now : Time) (db : Postgres)
    (order : Order) :
    ((∃ (id : Int) (ids : List Int),
        (CreateOrder faults now db (.ok order)).1 =
          .json 201 { order with ID := id, CreatedAt := now, UpdatedAt := now } ∧
        (CreateOrder faults now db (.ok order)).2.orders =
          db.orders ++ [orderRow now id order] ∧
        ids.length = order.Items.length ∧
        (CreateOrder faults now db (.ok order)).2.order_items =
          db.order_items ++ List.zipWith (itemRow now id) ids order.Items) ∨
     (∃ e : String,
        (CreateOrder faults now db (.ok order)).1 = .error 500 e ∧
        ((∃ k, k ≤ order.Items.length + 2 ∧ faults k = some e) ∨
          e ∈ orderConstraintTexts) ∧
        (CreateOrder faults now db (.ok order)).2.orders = db.orders ∧
        (CreateOrder faults now db (.ok order)).2.order_items = db.order_items)) ∧
    (∀ (tx : Tx) (o : Order),
        (CreateOrder.body faults now db order tx).1 = .json 201 o →
        (CreateOrder.body faults now db order tx).2.1.Rollback
            (CreateOrder.body faults now db order tx).2.2 =
          (.error ErrTxDone, (CreateOrder.body faults now db order tx).2.1,
            (CreateOrder.body faults now db order tx).2.2)) := by
  constructor
  · rcases CreateOrder_shape faults now db order with
      ⟨id, ids, h1, h2, h3, h4, _, _⟩ | ⟨e, h1, h2, h3, h4⟩
    · exact Or.inl ⟨id, ids, h1, h2, h4, h3⟩
    · exact Or.inr ⟨e, h1, h2, h3, h4⟩
  · intro tx o h
    have hd := CreateOrder_body_created_done faults now db order tx o h
    simp [Tx.Rollback, hd]

/-! ### When order creation succeeds -/

theorem insertOrderItem_ok (now : Time) (orderID : Int) (item : OrderItem) (db : Postgres)
    (hfresh : ∀ r ∈ db.order_items, r.id ≤ db.order_items_id_seq)
    (hfk : db.orders.any (fun r => r.id == orderID) = true) :
    db.insertOrderItem none now orderID item =
      (.ok (), { db with
        order_items_id_seq := db.order_items_id_seq + 1,
        order_items := db.order_items ++
          [itemRow now orderID (db.order_items_id_seq + 1) item] }) := by
  have h1 : db.order_items.any (fun r => r.id == db.order_items_id_seq + 1) = false := by
    rw [List.any_eq_false]
    intro r hr
    have := hfresh r hr
    simp only [beq_iff_eq]
    omega
  simp [Postgres.insertOrderItem, h1, hfk, itemRow]

theorem insertItems_ok (now : Time) (orderID : Int) :
    ∀ (items : List OrderItem) (k : Nat) (tx : Tx),
      (∀ r ∈ tx.view.order_items, r.id ≤ tx.view.order_items_id_seq) →
      tx.view.orders.any (fun r => r.id == orderID) = true →
      (insertItems healthy now orderID k items tx).1 = .ok () := by
  intro items
  induction items with
  | nil => intro k tx _ _; rfl
  | cons item rest ih =>
    intro k tx hfresh hfk
    have hstep := insertOrderItem_ok now orderID item tx.view hfresh hfk
    have hk : healthy k = none := rfl
    simp only [insertItems, hk, hstep]
    apply ih
    · intro r hr
      simp only [List.mem_append, List.mem_singleton] at hr
      rcases hr with hr | hr
      · have := hfresh r hr
        simp only
        omega
      · subst hr
        simp [itemRow]
    · exact hfk

/-- Order creation succeeds on a reachable store for an existing user: no call fails,
the user exists, and the sequences are ahead of the stored ids. -/
theorem CreateOrder_created (now : Time) (db : Postgres) (order : Order)
    (huser : db.hasUser order.UserID = true)
    (horders : ∀ r ∈ db.orders, r.id ≤ db.orders_id_seq)
    (hitems : ∀ r ∈ db.order_items, r.id ≤ db.order_items_id_seq) :
    (CreateOrder healthy now db (.ok order)).1 =
      .json 201 { order with ID := db.orders_id_seq + 1, CreatedAt := now,
                             UpdatedAt := now } := by
  have h1 : db.orders.any (fun r => r.id == db.orders_id_seq + 1) = false := by
    rw [List.any_eq_false]
    intro r hr
    have := horders r hr
    simp only [beq_iff_eq]
    omega
  have hk : ∀ k, healthy k = none := fun _ => rfl
  have hins : db.insertOrder none now order =
      (.ok (db.orders_id_seq + 1, now, now),
        { db with orders_id_seq := db.orders_id_seq + 1,
                  orders := db.orders ++ [orderRow now (db.orders_id_seq + 1) order] }) := by
    simp [Postgres.insertOrder, h1, huser, orderRow]
  have hitemsOk := insertItems_ok now (db.orders_id_seq + 1) order.Items 2
    { view := { db with orders_id_seq := db.orders_id_seq + 1,
                        orders := db.orders ++ [orderRow now (db.orders_id_seq + 1) order] },
      done := false } hitems (by simp [orderRow])
  have hdone := (insertItems_spec healthy now (db.orders_id_seq + 1) order.Items 2
    { view := { db with orders_id_seq := db.orders_id_seq + 1,
                        orders := db.orders ++ [orderRow now (db.orders_id_seq + 1) order] },
      done := false }).1
  rcases hres : insertItems healthy now (db.orders_id_seq + 1) 2 order.Items
    { view := { db with orders_id_seq := db.orders_id_seq + 1,
                        orders := db.orders ++ [orderRow now (db.orders_id_seq + 1) order] },
      done := false } with ⟨r2, tx2⟩
  rw [hres] at hitemsOk hdone
  simp only at hitemsOk hdone
  subst hitemsOk
  simp [CreateOrder, Begin, CreateOrder.body, hk, hins, hres, Tx.Commit, hdone]

/-! ### Reading a created order back -/

theorem numeric_10_2_eq (x : Money) (n : Int) (h0 : 0 ≤ x)
    (hlo : (n : Money) ≤ x * 100 + 1 / 2) (hhi : x * 100 + 1 / 2 < n + 1) :
    numeric_10_2 x = n / 100 := by
  have hfloor : ⌊x * 100 + 1 / 2⌋ = n := Int.floor_eq_iff.mpr ⟨hlo, hhi⟩
  unfold numeric_10_2
  rw [if_pos h0, hfloor]

/-- An amount with at most two fractional digits is stored as it is. -/
theorem numeric_10_2_cents (n : Int) : numeric_10_2 ((n : Money) / 100) = n / 100 := by
  unfold numeric_10_2
  split_ifs with h
  · have hfloor : ⌊(n : Money) / 100 * 100 + 1 / 2⌋ = n := by
      rw [Int.floor_eq_iff]
      constructor <;> norm_num
    rw [hfloor]
  · have hfloor : ⌊-((n : Money) / 100) * 100 + 1 / 2⌋ = -n := by
      rw [Int.floor_eq_iff]
      constructor <;> norm_num
    rw [hfloor]
    push_cast
    ring

theorem appendScannedItems_eq (rows : List OrderItemRow) :
    ∀ items : List OrderItem,
      appendScannedItems rows items = items ++ rows.filterMap scanOrderItem := by
  induction rows with
  | nil => intro items; simp [appendScannedItems]
  | cons r rest ih =>
    intro items
    cases h : scanOrderItem r with
    | none => simp [appendScannedItems, h, ih]
    | some item => simp [appendScannedItems, h, ih]

theorem filterMap_scan_itemRows (now : Time) (orderID : Int) :
    ∀ (ids : List Int) (items : List OrderItem),
      (List.zipWith (itemRow now orderID) ids items).filterMap scanOrderItem =
        List.zipWith (storedItem orderID) ids items := by
  intro ids
  induction ids with
  | nil => intro items; simp
  | cons i rest ih =>
    intro items
    cases items with
    | nil => simp
    | cons item more =>
      simp [List.zipWith, ih, itemRow, storedItem, scanOrderItem]

theorem filter_itemRows (now : Time) (orderID : Int) :
    ∀ (ids : List Int) (items : List OrderItem),
      (List.zipWith (itemRow now orderID) ids items).filter
          (fun r => r.order_id == some orderID) =
        List.zipWith (itemRow now orderID) ids items := by
  intro ids items
  rw [List.filter_eq_self]
  intro r hr
  rw [List.mem_iff_get] at hr
  obtain ⟨n, hn⟩ := hr
  rw [← hn]
  simp [itemRow]

theorem filter_old_items (db : Postgres) (id : Int)
    (hfk : db.itemsReferenceOrders = true) (hfresh : ∀ x ∈ db.orders, x.id ≠ id) :
    db.order_items.filter (fun r => r.order_id == some id) = [] := by
  rw [List.filter_eq_nil_iff]
  intro r hr hid
  simp only [beq_iff_eq] at hid
  unfold Postgres.itemsReferenceOrders at hfk
  rw [List.all_eq_true] at hfk
  have h := hfk r hr
  rw [hid] at h
  simp only [List.any_eq_true, beq_iff_eq] at h
  obtain ⟨o, ho, hoid⟩ := h
  exact hfresh o ho hoid

/-- What `GetOrderByID` answers on the store that a successful `CreateOrder` left,
in full: the stored row and the stored items. -/
theorem GetOrderByID_created (faults : Faults) (now : Time) (db : Postgres)
    (order created : Order) (path : String)
    (hfk : db.itemsReferenceOrders = true)
    (hcreated : (CreateOrder faults now db (.ok order)).1 = .json 201 created)
    (hpath : int4in path = some created.ID) :
    created = { order with ID := created.ID, CreatedAt := now, UpdatedAt := now } ∧
    (CreateOrder faults now db (.ok order)).2.orders =
      db.orders ++ [orderRow now created.ID order] ∧
    ∃ ids : List Int, ids.length = order.Items.length ∧
      GetOrderByID healthy (CreateOrder faults now db (.ok order)).2 path =
        .json 200
          { ID := created.ID, UserID := order.UserID,
            TotalAmount := numeric_10_2 order.TotalAmount, Status := order.Status,
            PaymentMethod := order.PaymentMethod,
            ShippingAddress := order.ShippingAddress, CreatedAt := now,
            UpdatedAt := now,
            Items := List.zipWith (storedItem created.ID) ids order.Items } := by
  rcases CreateOrder_shape faults now db order with
    ⟨id, ids, h1, h2, h3, hlen, hfresh, _⟩ | ⟨e, h1, _⟩
  · rw [h1] at hcreated
    have hc : created = { order with ID := id, CreatedAt := now, UpdatedAt := now } := by
      simpa using hcreated.symm
    have hid : created.ID = id := by rw [hc]
    rw [hid] at hpath ⊢
    refine ⟨hc, h2, ids, hlen, ?_⟩
    have hfind : (db.orders ++ [orderRow now id order]).find? (fun r => r.id == id) =
        some (orderRow now id order) := by
      rw [List.find?_append]
      have hnone : db.orders.find? (fun r => r.id == id) = none := by
        rw [List.find?_eq_none]
        intro x hx
        simpa using hfresh x hx
      simp [hnone, orderRow]
    have hk : ∀ k, healthy k = none := fun _ => rfl
    have hitems : ((CreateOrder faults now db (.ok order)).2.order_items.filter
        (fun r => r.order_id == some id)) = List.zipWith (itemRow now id) ids order.Items := by
      rw [h3, List.filter_append, filter_old_items db id hfk hfresh, filter_itemRows]
      simp
    simp only [GetOrderByID, Postgres.selectOrderByID, hk, hpath, h2, hfind]
    simp only [scanOrder, orderRow, Postgres.selectOrderItems, hitems,
      appendScannedItems_eq, filterMap_scan_itemRows, List.nil_append]
  · rw [h1] at hcreated
    cases hcreated

theorem map_storedItems (orderID : Int) :
    ∀ (ids : List Int) (items : List OrderItem), ids.length = items.length →
      (List.zipWith (storedItem orderID) ids items).map
          (fun i => (i.ProductID, i.Quantity, i.Price)) =
        items.map (fun i => (i.ProductID, i.Quantity, numeric_10_2 i.Price)) := by
  intro ids
  induction ids with
  | nil =>
    intro items hlen
    cases items with
    | nil => rfl
    | cons item more => simp at hlen
  | cons i rest ih =>
    intro items hlen
    cases items with
    | nil => simp at hlen
    | cons item more =>
      simp only [List.length_cons, add_left_inj] at hlen
      simp [List.zipWith, ih more hlen, storedItem]

/-- C2, as amended. When `CreateOrder` answers 201 for a request with items L (on a
store whose item rows reference stored orders), the answer carries the id of the new
order row, and `GetOrderByID` on a path segment that reads as that id answers 200
with that id, the user, status, payment method, shipping address and timestamps of
the creation, the total rounded to two fractional digits, and exactly `len(L)` items
of that order which match L one to one on product id, quantity and the price rounded
to two fractional digits. -/
theorem CreateOrder_then_GetOrderByID (faults : Faults) (now : Time) (db : Postgres)
    (order created : Order) (path : String)
    (hfk : db.itemsReferenceOrders = true)
    (hcreated : (CreateOrder faults now db (.ok order)).1 = .json 201 created)
    (hpath : int4in path = some created.ID) :
    (CreateOrder faults now db (.ok order)).1.status = 201 ∧
    (CreateOrder faults now db (.ok order)).2.orders =
      db.orders ++ [orderRow now created.ID order] ∧
    ∃ got : Order,
      GetOrderByID healthy (CreateOrder faults now db (.ok order)).2 path = .json 200 got ∧
      got.ID = created.ID ∧ got.UserID = order.UserID ∧ got.Status = order.Status ∧
      got.PaymentMethod = order.PaymentMethod ∧
      got.ShippingAddress = order.ShippingAddress ∧
      got.CreatedAt = created.CreatedAt ∧ got.UpdatedAt = created.UpdatedAt ∧
      got.TotalAmount = numeric_10_2 order.TotalAmount ∧
      got.Items.length = order.Items.length ∧
      (∀ item ∈ got.Items, item.OrderID = created.ID) ∧
      got.Items.map (fun i => (i.ProductID, i.Quantity, i.Price)) =
        order.Items.map (fun i => (i.ProductID, i.Quantity, numeric_10_2 i.Price)) := by
  obtain ⟨hc, horders, ids, hlen, hget⟩ :=
    GetOrderByID_created faults now db order created path hfk hcreated hpath
  refine ⟨by rw [hcreated]; rfl, horders, _, hget, rfl, rfl, rfl, rfl, rfl, ?_, ?_, rfl,
    ?_, ?_, ?_⟩
  · rw [hc]
  · rw [hc]
  · simp [hlen]
  · intro item hitem
    simp only at hitem
    rw [List.mem_iff_get] at hitem
    obtain ⟨n, hn⟩ := hitem
    rw [← hn]
    simp [storedItem]
  · exact map_storedItems created.ID ids order.Items hlen

/-- On the store with user 1, an order for that user is created under id 1. -/
theorem CreateOrder_example_created (order : Order) (huser : order.UserID = 1) :
    (CreateOrder healthy 7 shopWithUser (.ok order)).1 =
      .json 201 { order with ID := 1, CreatedAt := 7, UpdatedAt := 7 } := by
  have h := CreateOrder_created 7 shopWithUser order
    (by rw [huser]; decide) (by simp [shopWithUser, Postgres.empty])
    (by simp [shopWithUser, Postgres.empty])
  simpa [shopWithUser, Postgres.empty] using h

/-- The example scenario of C2: the order with one item `prod1`, quantity 2, price
29.99 is created with id 1 and read back with that item and the total 59.98. -/
theorem CreateOrder_then_GetOrderByID_witness :
    (shopWithUser.itemsReferenceOrders = true ∧
      (CreateOrder healthy 7 shopWithUser (.ok exampleOrder)).1 =
        .json 201 { exampleOrder with ID := 1, CreatedAt := 7, UpdatedAt := 7 } ∧
      int4in "1" = some 1) ∧
    ∃ got : Order,
      GetOrderByID healthy (CreateOrder healthy 7 shopWithUser (.ok exampleOrder)).2 "1" =
        .json 200 got ∧
      got.ID = 1 ∧ got.TotalAmount = 5998 / 100 ∧
      got.Items.map (fun i => (i.ProductID, i.Quantity, i.Price)) =
        [("prod1", 2, 2999 / 100)] := by
  have hfk : shopWithUser.itemsReferenceOrders = true := by decide
  have hcreated := CreateOrder_example_created exampleOrder rfl
  have hpath : int4in "1" = some 1 := by decide
  obtain ⟨_, _, got, hget, hid, _, _, _, _, _, _, htotal, _, _, hitems⟩ :=
    CreateOrder_then_GetOrderByID healthy 7 shopWithUser exampleOrder _ "1" hfk hcreated
      hpath
  refine ⟨⟨hfk, hcreated, hpath⟩, got, hget, hid, ?_, ?_⟩
  · rw [htotal]
    have h := numeric_10_2_cents 5998
    push_cast at h
    exact h
  · rw [hitems]
    have h := numeric_10_2_cents 2999
    push_cast at h
    simp only [exampleOrder, List.map_cons, List.map_nil, h]

/-- C2, as stated, fails on prices with more than two fractional digits: an order with
one item priced 29.999 is created (201), and `GetOrderByID` returns the item with
price 30. -/
theorem CreateOrder_then_GetOrderByID_rounds_price :
    (CreateOrder healthy 7 shopWithUser (.ok finePriceOrder)).1 =
      .json 201 { finePriceOrder with ID := 1, CreatedAt := 7, UpdatedAt := 7 } ∧
    ∃ got : Order,
      GetOrderByID healthy (CreateOrder healthy 7 shopWithUser (.ok finePriceOrder)).2 "1" =
        .json 200 got ∧
      got.Items.map (fun i => (i.ProductID, i.Quantity, i.Price)) = [("prod1", 2, 30)] ∧
      finePriceOrder.Items.map (fun i => (i.ProductID, i.Quantity, i.Price)) =
        [("prod1", 2, 29999 / 1000)] ∧
      got.Items.map (fun i => (i.ProductID, i.Quantity, i.Price)) ≠
        finePriceOrder.Items.map (fun i => (i.ProductID, i.Quantity, i.Price)) := by
  have hfk : shopWithUser.itemsReferenceOrders = true := by decide
  have hcreated := CreateOrder_example_created finePriceOrder rfl
  have hpath : int4in "1" = some 1 := by decide
  obtain ⟨_, _, ids, hlen, hget⟩ :=
    GetOrderByID_created healthy 7 shopWithUser finePriceOrder _ "1" hfk hcreated hpath
  have hround : numeric_10_2 (29999 / 1000) = 30 := by
    rw [numeric_10_2_eq (29999 / 1000) 3000 (by norm_num) (by norm_num) (by norm_num)]
    norm_num
  have hitems := map_storedItems 1 ids finePriceOrder.Items hlen
  have hgot : (List.zipWith (storedItem 1) ids finePriceOrder.Items).map
      (fun i => (i.ProductID, i.Quantity, i.Price)) = [("prod1", 2, 30)] := by
    rw [hitems]
    simp only [finePriceOrder, List.map_cons, List.map_nil, hround]
  refine ⟨hcreated, _, hget, hgot, rfl, ?_⟩
  simp only at hgot ⊢
  rw [hgot]
  simp only [finePriceOrder, List.map_cons, List.map_nil]
  norm_num

/-! ## Cart add -/

theorem any_id_fresh {α : Type} (rows : List α) (id : α → Int) (seq : Int)
    (hfresh : ∀ r ∈ rows, id r ≤ seq) :
    rows.any (fun r => id r == seq + 1) = false := by
  rw [List.any_eq_false]
  intro r hr
  have := hfresh r hr
  simp only [beq_iff_eq]
  omega

/-- Without a unique constraint on the pair, `AddToCart` stores one new row whatever
the upsert reports, provided the plain insert is not refused. -/
theorem AddToCart_without_key (userID : String) (c : CartCall) (db : Postgres)
    (hkey : db.cart_user_product_key = false)
    (huser : db.hasUser (Atoi userID).1 = true)
    (hfresh : ∀ r ∈ db.cart, r.id ≤ db.cart_id_seq)
    (hplain : c.faults 1 = none) :
    AddToCart c.faults c.now db userID (.ok c.body) =
      (cartCreated (Atoi userID).1 (db.cart_id_seq + 1) c,
        { db with cart_id_seq := db.cart_id_seq + 1,
                  cart := db.cart ++ [cartRow (Atoi userID).1 (db.cart_id_seq + 1) c] }) := by
  have hid := any_id_fresh db.cart (fun r => r.id) db.cart_id_seq hfresh
  have hupsert : ∀ u p q, ∃ e, db.upsertCart (c.faults 0) c.now u p q = (.error e, db) := by
    intro u p q
    unfold Postgres.upsertCart
    cases c.faults 0 with
    | some e => exact ⟨e, rfl⟩
    | none => simp [hkey]
  obtain ⟨e, he⟩ := hupsert (Atoi userID).1 c.body.ProductID c.body.Quantity
  simp [AddToCart, he, Postgres.insertCart, hplain, hid, hkey, huser, cartCreated, cartRow]

theorem serialFrom_ge (n : Nat) : ∀ (start : Int), ∀ x ∈ serialFrom start n, start ≤ x := by
  induction n with
  | zero => intro start x hx; simp [serialFrom] at hx
  | succ n ih =>
    intro start x hx
    simp only [serialFrom, List.mem_cons] at hx
    rcases hx with hx | hx
    · omega
    · have := ih (start + 1) x hx
      omega

theorem serialFrom_nodup (n : Nat) : ∀ (start : Int), (serialFrom start n).Nodup := by
  induction n with
  | zero => intro start; simp [serialFrom]
  | succ n ih =>
    intro start
    simp only [serialFrom, List.nodup_cons]
    refine ⟨?_, ih (start + 1)⟩
    intro hmem
    have := serialFrom_ge n (start + 1) start hmem
    omega

theorem serialFrom_length (n : Nat) : ∀ (start : Int), (serialFrom start n).length = n := by
  induction n with
  | zero => intro start; rfl
  | succ n ih => intro start; simp [serialFrom, ih]

/-- Without a unique constraint, a sequence of requests stores one row per request,
under consecutive ids. -/
theorem AddToCartAll_without_key (userID : String) :
    ∀ (calls : List CartCall) (db : Postgres),
      db.cart_user_product_key = false →
      db.hasUser (Atoi userID).1 = true →
      (∀ r ∈ db.cart, r.id ≤ db.cart_id_seq) →
      (∀ c ∈ calls, c.faults 1 = none) →
      (AddToCartAll userID calls db).1 =
        List.zipWith (cartCreated (Atoi userID).1)
          (serialFrom (db.cart_id_seq + 1) calls.length) calls ∧
      (AddToCartAll userID calls db).2.cart =
        db.cart ++ List.zipWith (cartRow (Atoi userID).1)
          (serialFrom (db.cart_id_seq + 1) calls.length) calls := by
  intro calls
  induction calls with
  | nil => intro db _ _ _ _; simp [AddToCartAll, serialFrom]
  | cons c rest ih =>
    intro db hkey huser hfresh hplain
    have hstep := AddToCart_without_key userID c db hkey huser hfresh
      (hplain c (List.mem_cons_self c rest))
    have hrest := ih
      { db with cart_id_seq := db.cart_id_seq + 1,
                cart := db.cart ++ [cartRow (Atoi userID).1 (db.cart_id_seq + 1) c] }
      hkey huser
      (by
        intro r hr
        simp only [List.mem_append, List.mem_singleton] at hr
        rcases hr with hr | hr
        · have := hfresh r hr
          simp only
          omega
        · subst hr
          simp [cartRow])
      (fun x hx => hplain x (List.mem_cons_of_mem c hx))
    simp only [AddToCartAll, hstep, List.length_cons, serialFrom, List.zipWith]
    simp only at hrest
    refine ⟨by rw [hrest.1], ?_⟩
    rw [hrest.2]
    simp

/-- C3, as amended. When the cart has no unique constraint on (user_id, product_id),
for a user that is stored in `users`, on a store whose cart sequence is ahead of the
stored ids and whose plain insert is not refused for outside reasons: every
`AddToCart` call for the pair answers 201 whatever the upsert reported, and after k
calls with quantities q1..qk the cart holds, after its old rows, k new rows with
pairwise different ids, different from the old ids, for that pair, holding q1..qk. -/
theorem AddToCart_without_key_separate_rows (userID : String) (productID : String)
    (calls : List CartCall) (db : Postgres)
    (hkey : db.cart_user_product_key = false)
    (huser : db.hasUser (Atoi userID).1 = true)
    (hfresh : ∀ r ∈ db.cart, r.id ≤ db.cart_id_seq)
    (hplain : ∀ c ∈ calls, c.faults 1 = none)
    (hproduct : ∀ c ∈ calls, c.body.ProductID = productID) :
    (AddToCartAll userID calls db).1.length = calls.length ∧
    (∀ r ∈ (AddToCartAll userID calls db).1, r.status = 201) ∧
    ∃ rows : List CartRow,
      (AddToCartAll userID calls db).2.cart = db.cart ++ rows ∧
      rows.map (fun r => (r.user_id, r.product_id, r.quantity)) =
        calls.map (fun c => (some (Atoi userID).1, productID, c.body.Quantity)) ∧
      (rows.map (fun r => r.id)).Nodup ∧
      ∀ r ∈ rows, ∀ old ∈ db.cart, r.id ≠ old.id := by
  obtain ⟨hresp, hcart⟩ := AddToCartAll_without_key userID calls db hkey huser hfresh hplain
  have hlen := serialFrom_length calls.length (db.cart_id_seq + 1)
  have hids : (List.zipWith (cartRow (Atoi userID).1)
      (serialFrom (db.cart_id_seq + 1) calls.length) calls).map (fun r => r.id) =
      serialFrom (db.cart_id_seq + 1) calls.length := by
    rw [List.map_zipWith]
    apply List.ext_getElem
    · simp [hlen]
    · intro n h1 h2
      simp [cartRow]
  refine ⟨by rw [hresp]; simp [hlen], ?_, _, hcart, ?_, ?_, ?_⟩
  · intro r hr
    rw [hresp, List.mem_iff_getElem] at hr
    obtain ⟨n, hn, rfl⟩ := hr
    simp [cartCreated, Response.status]
  · apply List.ext_getElem
    · simp [hlen]
    · intro n h1 h2
      simp only [List.getElem_map, List.getElem_zipWith, cartRow, Prod.mk.injEq, true_and,
        and_true]
      exact hproduct _ (List.getElem_mem _)
  · rw [hids]
    exact serialFrom_nodup _ _
  · intro r hr old hold
    have hmem : r.id ∈ serialFrom (db.cart_id_seq + 1) calls.length := by
      rw [← hids]
      exact List.mem_map_of_mem _ hr
    have h1 := serialFrom_ge _ _ _ hmem
    have h2 := hfresh old hold
    omega

/-- An instance of C3: two requests for user 1 and `prod1` with quantities 2 and 5 leave
two rows. -/
theorem AddToCart_without_key_separate_rows_witness :
    (shopWithUser.cart_user_product_key = false ∧
      shopWithUser.hasUser (Atoi "1").1 = true ∧
      (∀ r ∈ shopWithUser.cart, r.id ≤ shopWithUser.cart_id_seq) ∧
      (∀ c ∈ twoCartCalls, c.faults 1 = none) ∧
      (∀ c ∈ twoCartCalls, c.body.ProductID = "prod1")) ∧
    (AddToCartAll "1" twoCartCalls shopWithUser).1.length = 2 ∧
    (∀ r ∈ (AddToCartAll "1" twoCartCalls shopWithUser).1, r.status = 201) ∧
    ∃ rows : List CartRow,
      (AddToCartAll "1" twoCartCalls shopWithUser).2.cart = shopWithUser.cart ++ rows ∧
      rows.map (fun r => (r.user_id, r.product_id, r.quantity)) =
        [(some 1, "prod1", 2), (some 1, "prod1", 5)] ∧
      (rows.map (fun r => r.id)).Nodup :=
  have hkey : shopWithUser.cart_user_product_key = false := by decide
  have huser : shopWithUser.hasUser (Atoi "1").1 = true := by decide
  have hfresh : ∀ r ∈ shopWithUser.cart, r.id ≤ shopWithUser.cart_id_seq := by decide
  have hplain : ∀ c ∈ twoCartCalls, c.faults 1 = none := by decide
  have hproduct : ∀ c ∈ twoCartCalls, c.body.ProductID = "prod1" := by decide
  have h := AddToCart_without_key_separate_rows "1" "prod1" twoCartCalls shopWithUser
    hkey huser hfresh hplain hproduct
  ⟨⟨hkey, huser, hfresh, hplain, hproduct⟩, h.1, h.2.1,
    h.2.2.imp (fun _ hrows => ⟨hrows.1, hrows.2.1, hrows.2.2.1⟩)⟩

/-- C3, as stated, fails for a user id that `users` does not hold: the upsert fails
for want of a constraint, the plain insert is refused by the reference to `users`,
and the request ends in 500 with no row added. -/
theorem AddToCart_without_key_unknown_user :
    Postgres.empty.cart_user_product_key = false ∧
    AddToCart healthy 3 Postgres.empty "7" (.ok (cartBody "prod1" 2)) =
      (.error 500 (pqForeignKey "cart"), { Postgres.empty with cart_id_seq := 1 }) := by
  decide

theorem updateFirst_append_last {α : Type} (p : α → Bool) (f : α → α) (row : α) :
    ∀ base : List α, (∀ r ∈ base, p r = false) → p row = true →
      updateFirst p f (base ++ [row]) = base ++ [f row] := by
  intro base
  induction base with
  | nil => intro _ hrow; simp [updateFirst, hrow]
  | cons b rest ih =>
    intro hbase hrow
    have hb : p b = false := hbase b (List.mem_cons_self b rest)
    simp [updateFirst, hb, ih (fun r hr => hbase r (List.mem_cons_of_mem b hr)) hrow]

theorem find?_append_last {α : Type} (p : α → Bool) (row : α) (base : List α)
    (hbase : ∀ r ∈ base, p r = false) (hrow : p row = true) :
    (base ++ [row]).find? p = some row := by
  have hnone : base.find? p = none := by
    rw [List.find?_eq_none]
    intro r hr
    simp [hbase r hr]
  simp [List.find?_append, hnone, hrow]

/-- With the unique constraint and the row of the pair in place, the upsert adds the
quantity to that row and returns its id. -/
theorem upsertCart_existing (now : Time) (userID : Int) (productID : String)
    (quantity : Int) (db : Postgres) (base : List CartRow) (row : CartRow) (created : Time)
    (hkey : db.cart_user_product_key = true)
    (hcart : db.cart = base ++ [row])
    (hbase : ∀ r ∈ base, (r.user_id == some userID && r.product_id == productID) = false)
    (huser : row.user_id = some userID) (hproduct : row.product_id = productID)
    (hcreated : row.created_at = some created) :
    db.upsertCart none now userID productID quantity =
      (.ok (row.id, created, now),
        { db with cart_id_seq := db.cart_id_seq + 1,
                  cart := base ++ [{ row with quantity := row.quantity + quantity,
                                              updated_at := some now }] }) := by
  have hrow : (row.user_id == some userID && row.product_id == productID) = true := by
    simp [huser, hproduct]
  have hfind := find?_append_last
    (fun r : CartRow => r.user_id == some userID && r.product_id == productID) row base
    hbase hrow
  have hupd := updateFirst_append_last
    (fun r : CartRow => r.user_id == some userID && r.product_id == productID)
    (fun _ => { row with quantity := row.quantity + quantity, updated_at := some now })
    row base hbase hrow
  rw [hcreated] at hupd
  simp only [Postgres.upsertCart, hkey, hcart, hfind, scanCartReturning, hcreated]
  simp [hupd]

/-- With the unique constraint and no row of the pair, the upsert inserts one. -/
theorem upsertCart_new (now : Time) (userID : Int) (productID : String)
    (quantity : Int) (db : Postgres)
    (hkey : db.cart_user_product_key = true)
    (hnone : ∀ r ∈ db.cart, (r.user_id == some userID && r.product_id == productID) = false)
    (huser : db.hasUser userID = true)
    (hfresh : ∀ r ∈ db.cart, r.id ≤ db.cart_id_seq) :
    db.upsertCart none now userID productID quantity =
      (.ok (db.cart_id_seq + 1, now, now),
        { db with cart_id_seq := db.cart_id_seq + 1,
                  cart := db.cart ++ [{ id := db.cart_id_seq + 1, user_id := some userID,
                                        product_id := productID, quantity := quantity,
                                        created_at := some now, updated_at := some now }] }) := by
  have hid := any_id_fresh db.cart (fun r => r.id) db.cart_id_seq hfresh
  have hfind : db.cart.find?
      (fun r : CartRow => r.user_id == some userID && r.product_id == productID) = none := by
    rw [List.find?_eq_none]
    intro r hr
    simp [hnone r hr]
  simp [Postgres.upsertCart, hkey, hfind, hid, huser]

theorem AddToCart_existing (userID : String) (c : CartCall) (db : Postgres)
    (base : List CartRow) (row : CartRow) (created : Time)
    (hkey : db.cart_user_product_key = true)
    (hcart : db.cart = base ++ [row])
    (hbase : ∀ r ∈ base,
      (r.user_id == some (Atoi userID).1 && r.product_id == c.body.ProductID) = false)
    (huser : row.user_id = some (Atoi userID).1)
    (hproduct : row.product_id = c.body.ProductID)
    (hcreated : row.created_at = some created)
    (hfault : c.faults 0 = none) :
    AddToCart c.faults c.now db userID (.ok c.body) =
      (.json 201 { c.body with ID := row.id, UserID := (Atoi userID).1,
                               CreatedAt := created, UpdatedAt := c.now },
        { db with cart_id_seq := db.cart_id_seq + 1,
                  cart := base ++ [{ row with quantity := row.quantity + c.body.Quantity,
                                              updated_at := some c.now }] }) := by
  have h := upsertCart_existing c.now (Atoi userID).1 c.body.ProductID c.body.Quantity db
    base row created hkey hcart hbase huser hproduct hcreated
  simp [AddToCart, hfault, h]

theorem AddToCartAll_existing (userID : String) (productID : String) :
    ∀ (calls : List CartCall) (db : Postgres) (base : List CartRow) (row : CartRow)
      (created : Time),
      db.cart_user_product_key = true →
      db.cart = base ++ [row] →
      (∀ r ∈ base, (r.user_id == some (Atoi userID).1 && r.product_id == productID) = false) →
      row.user_id = some (Atoi userID).1 →
      row.product_id = productID →
      row.created_at = some created →
      (∀ c ∈ calls, c.faults 0 = none) →
      (∀ c ∈ calls, c.body.ProductID = productID) →
      (∀ r ∈ (AddToCartAll userID calls db).1,
        ∃ item : CartItem, r = .json 201 item ∧ item.ID = row.id) ∧
      ∃ merged : CartRow,
        (AddToCartAll userID calls db).2.cart = base ++ [merged] ∧
        merged.id = row.id ∧ merged.user_id = some (Atoi userID).1 ∧
        merged.product_id = productID ∧
        merged.quantity = row.quantity + (calls.map (fun c => c.body.Quantity)).sum := by
  intro calls
  induction calls with
  | nil =>
    intro db base row created _ hcart _ huser hproduct _ _ _
    simp only [AddToCartAll, List.not_mem_nil, false_implies, implies_true, true_and]
    exact ⟨row, hcart, rfl, huser, hproduct, by simp⟩
  | cons c rest ih =>
    intro db base row created hkey hcart hbase huser hproduct hcreated hfault hprod
    have hc := hprod c (List.mem_cons_self c rest)
    have hstep := AddToCart_existing userID c db base row created hkey hcart
      (by rw [hc]; exact hbase) huser (by rw [hc]; exact hproduct) hcreated
      (hfault c (List.mem_cons_self c rest))
    obtain ⟨hresp, merged, hm1, hm2, hm3, hm4, hm5⟩ := ih
      { db with cart_id_seq := db.cart_id_seq + 1,
                cart := base ++ [{ row with quantity := row.quantity + c.body.Quantity,
                                            updated_at := some c.now }] }
      base { row with quantity := row.quantity + c.body.Quantity, updated_at := some c.now }
      created hkey rfl hbase huser hproduct hcreated
      (fun x hx => hfault x (List.mem_cons_of_mem c hx))
      (fun x hx => hprod x (List.mem_cons_of_mem c hx))
    simp only [AddToCartAll, hstep]
    constructor
    · intro r hr
      simp only [List.mem_cons] at hr
      rcases hr with hr | hr
      · exact ⟨_, hr, rfl⟩
      · exact hresp r hr
    · refine ⟨merged, hm1, hm2, hm3, hm4, ?_⟩
      rw [hm5]
      simp only [List.map_cons, List.sum_cons]
      ring

/-- C4, as amended. When the cart has a unique constraint on (user_id, product_id),
for a user that is stored in `users`, starting from no row for the pair, on a store
whose cart sequence is ahead of the stored ids and whose upsert is not refused for
outside reasons: after k >= 1 `AddToCart` calls on the pair with quantities q1..qk
the cart holds its old rows and exactly one row for the pair, whose quantity is
q1 + ... + qk, and every call answers 201 with that row's id. -/
theorem AddToCart_with_key_merges (userID : String) (productID : String)
    (calls : List CartCall) (db : Postgres)
    (hcalls : calls ≠ [])
    (hkey : db.cart_user_product_key = true)
    (huser : db.hasUser (Atoi userID).1 = true)
    (hfresh : ∀ r ∈ db.cart, r.id ≤ db.cart_id_seq)
    (hnone : ∀ r ∈ db.cart,
      (r.user_id == some (Atoi userID).1 && r.product_id == productID) = false)
    (hfault : ∀ c ∈ calls, c.faults 0 = none)
    (hproduct : ∀ c ∈ calls, c.body.ProductID = productID) :
    ∃ merged : CartRow,
      (AddToCartAll userID calls db).2.cart = db.cart ++ [merged] ∧
      (AddToCartAll userID calls db).2.cart.filter
        (fun r => r.user_id == some (Atoi userID).1 && r.product_id == productID) =
        [merged] ∧
      merged.quantity = (calls.map (fun c => c.body.Quantity)).sum ∧
      (AddToCartAll userID calls db).1.length = calls.length ∧
      ∀ r ∈ (AddToCartAll userID calls db).1,
        ∃ item : CartItem, r = .json 201 item ∧ item.ID = merged.id := by
  cases calls with
  | nil => exact absurd rfl hcalls
  | cons c rest =>
    have hc := hproduct c (List.mem_cons_self c rest)
    have hup := upsertCart_new c.now (Atoi userID).1 c.body.ProductID c.body.Quantity db
      hkey (by rw [hc]; exact hnone) huser hfresh
    have hstep : AddToCart c.faults c.now db userID (.ok c.body) =
        (.json 201 { c.body with ID := db.cart_id_seq + 1, UserID := (Atoi userID).1,
                                 CreatedAt := c.now, UpdatedAt := c.now },
          { db with cart_id_seq := db.cart_id_seq + 1,
                    cart := db.cart ++ [cartRow (Atoi userID).1 (db.cart_id_seq + 1) c] }) := by
      simp [AddToCart, hfault c (List.mem_cons_self c rest), hup, cartRow]
    obtain ⟨hresp, merged, hm1, hm2, hm3, hm4, hm5⟩ := AddToCartAll_existing userID
      productID rest
      { db with cart_id_seq := db.cart_id_seq + 1,
                cart := db.cart ++ [cartRow (Atoi userID).1 (db.cart_id_seq + 1) c] }
      db.cart _ c.now hkey rfl hnone rfl hc rfl
      (fun x hx => hfault x (List.mem_cons_of_mem c hx))
      (fun x hx => hproduct x (List.mem_cons_of_mem c hx))
    have hlen : ∀ (cs : List CartCall) (d : Postgres),
        (AddToCartAll userID cs d).1.length = cs.length := by
      intro cs
      induction cs with
      | nil => intro d; rfl
      | cons x xs ihx => intro d; simp [AddToCartAll, ihx]
    simp only [AddToCartAll, hstep]
    refine ⟨merged, hm1, ?_, ?_, by simp [hlen], ?_⟩
    · rw [hm1, List.filter_append]
      have hold : db.cart.filter
          (fun r => r.user_id == some (Atoi userID).1 && r.product_id == productID) = [] := by
        rw [List.filter_eq_nil_iff]
        intro r hr
        simp [hnone r hr]
      simp [hold, hm3, hm4]
    · rw [hm5]
      simp [cartRow]
    · intro r hr
      simp only [List.mem_cons] at hr
      rcases hr with hr | hr
      · exact ⟨_, hr, by simp [hm2, cartRow]⟩
      · obtain ⟨item, h1, h2⟩ := hresp r hr
        exact ⟨item, h1, by rw [h2, hm2]⟩

/-- An instance of C4: two requests for user 1 and `prod1` with quantities 2 and 5 leave
one row holding 7. -/
theorem AddToCart_with_key_merges_witness :
    (twoCartCalls ≠ [] ∧ keyedShop.cart_user_product_key = true ∧
      keyedShop.hasUser (Atoi "1").1 = true ∧
      (∀ r ∈ keyedShop.cart, r.id ≤ keyedShop.cart_id_seq) ∧
      (∀ r ∈ keyedShop.cart,
        (r.user_id == some (Atoi "1").1 && r.product_id == "prod1") = false) ∧
      (∀ c ∈ twoCartCalls, c.faults 0 = none) ∧
      (∀ c ∈ twoCartCalls, c.body.ProductID = "prod1")) ∧
    ∃ merged : CartRow,
      (AddToCartAll "1" twoCartCalls keyedShop).2.cart = keyedShop.cart ++ [merged] ∧
      merged.quantity = 7 ∧
      ∀ r ∈ (AddToCartAll "1" twoCartCalls keyedShop).1,
        ∃ item : CartItem, r = .json 201 item ∧ item.ID = merged.id :=
  have hcalls : twoCartCalls ≠ [] := List.cons_ne_nil _ _
  have hkey : keyedShop.cart_user_product_key = true := by decide
  have huser : keyedShop.hasUser (Atoi "1").1 = true := by decide
  have hfresh : ∀ r ∈ keyedShop.cart, r.id ≤ keyedShop.cart_id_seq := by decide
  have hnone : ∀ r ∈ keyedShop.cart,
      (r.user_id == some (Atoi "1").1 && r.product_id == "prod1") = false := by decide
  have hfault : ∀ c ∈ twoCartCalls, c.faults 0 = none := by decide
  have hproduct : ∀ c ∈ twoCartCalls, c.body.ProductID = "prod1" := by decide
  have h := AddToCart_with_key_merges "1" "prod1" twoCartCalls keyedShop hcalls hkey huser
    hfresh hnone hfault hproduct
  ⟨⟨hcalls, hkey, huser, hfresh, hnone, hfault, hproduct⟩,
    h.imp (fun _ hm => ⟨hm.1, hm.2.2.1, hm.2.2.2.2⟩)⟩

/-- C4, as stated, fails for a user id that `users` does not hold: with the unique
constraint in place, the upsert and then the plain insert are refused by the
reference to `users`, the request ends in 500, and no row for the pair is stored. -/
theorem AddToCart_with_key_unknown_user :
    keyedEmptyShop.cart_user_product_key = true ∧
    (∀ r ∈ keyedEmptyShop.cart,
      (r.user_id == some (Atoi "7").1 && r.product_id == "prod1") = false) ∧
    AddToCartAll "7" [{ faults := healthy, now := 3, body := cartBody "prod1" 2 }]
        keyedEmptyShop =
      ([.error 500 (pqForeignKey "cart")], { keyedEmptyShop with cart_id_seq := 2 }) := by
  decide

/-! ## Inventory -/

/-- When the update changes a row of the product, `UpdateInventory` answers with the
success message, the rows of the product take the new values, and nothing is
inserted. -/
theorem UpdateInventory_present_changed (now : Time) (db : MySQL) (productID : String)
    (item : Inventory)
    (hchanged : ∃ r ∈ db.inventory, r.product_id = productID ∧
      r.setStock now item.Quantity item.WarehouseLocation ≠ r) :
    UpdateInventory healthy now db productID (.ok item) =
      (.json 200 ⟨"Inventory updated successfully"⟩,
        { db with inventory := db.inventory.map (fun r =>
            if r.product_id == productID then
              r.setStock now item.Quantity item.WarehouseLocation
            else r) }) := by
  obtain ⟨r, hr, hp, hne⟩ := hchanged
  have hk : ∀ k, healthy k = none := fun _ => rfl
  have hpos : (db.inventory.filter (fun r => r.product_id == productID &&
      InventoryRow.setStock now item.Quantity item.WarehouseLocation r != r)).length ≠ 0 := by
    intro h0
    rw [List.length_eq_zero, List.filter_eq_nil_iff] at h0
    apply h0 r hr
    simp [hp, hne]
  have hint : ((db.inventory.filter (fun r => r.product_id == productID &&
      InventoryRow.setStock now item.Quantity item.WarehouseLocation r != r)).length : Int)
      ≠ 0 := by
    exact_mod_cast hpos
  simp only [UpdateInventory, MySQL.update, hk, if_neg hint]

/-- C7, at the failing input. The store holds the row of `prod1` (quantity 5, location
`A1`, written at second 100). The same values are put again within that second: the
update changes nothing, `RowsAffected()` is 0, the insert is tried although the row
exists, and the request ends in 500 with the duplicate-entry error. -/
theorem UpdateInventory_same_values_same_second :
    stockedStore.inventory.any (fun r => r.product_id == "prod1") = true ∧
    UpdateInventory healthy 100 stockedStore "prod1" (.ok (stockBody 5 "A1")) =
      (.error 500 mysqlDuplicateEntry,
        { stockedStore with inventory_auto_increment := 3 }) := by
  decide

/-- When the update changes a row of the product, `RestockInventory` answers with the
success message and the rows of the product get the increment. -/
theorem RestockInventory_present_changed (now : Time) (db : MySQL) (productID : String)
    (data : List (String × Int))
    (hchanged : ∃ r ∈ db.inventory, r.product_id = productID ∧
      r.addStock now ((data.lookup "quantity").getD 0) ≠ r) :
    RestockInventory healthy now db productID (.ok data) =
      (.json 200 ⟨"Inventory restocked successfully"⟩,
        { db with inventory := db.inventory.map (fun r =>
            if r.product_id == productID then
              r.addStock now ((data.lookup "quantity").getD 0)
            else r) }) := by
  obtain ⟨r, hr, hp, hne⟩ := hchanged
  have hk : ∀ k, healthy k = none := fun _ => rfl
  have hpos : (db.inventory.filter (fun r => r.product_id == productID &&
      InventoryRow.addStock now ((data.lookup "quantity").getD 0) r != r)).length ≠ 0 := by
    intro h0
    rw [List.length_eq_zero, List.filter_eq_nil_iff] at h0
    apply h0 r hr
    simp [hp, hne]
  have hint : ((db.inventory.filter (fun r => r.product_id == productID &&
      InventoryRow.addStock now ((data.lookup "quantity").getD 0) r != r)).length : Int)
      ≠ 0 := by
    exact_mod_cast hpos
  simp only [RestockInventory, MySQL.update, hk, if_neg hint]

/-- C8, at the failing input. The store holds the row of `prod1`, written at second
100. A restock by 0 within that second changes nothing, `RowsAffected()` is 0, and the
request ends in 404 `Inventory not found` although the row exists. -/
theorem RestockInventory_zero_same_second :
    stockedStore.inventory.any (fun r => r.product_id == "prod1") = true ∧
    RestockInventory healthy 100 stockedStore "prod1" (.ok [("quantity", 0)]) =
      (.error 404 "Inventory not found", stockedStore) := by
  decide

theorem appendScannedInventory_eq (rows : List InventoryRow) :
    ∀ inventory : List Inventory,
      appendScannedInventory rows inventory = inventory ++ rows.filterMap scanInventory := by
  induction rows with
  | nil => intro inventory; simp [appendScannedInventory]
  | cons r rest ih =>
    intro inventory
    cases h : scanInventory r with
    | none => simp [appendScannedInventory, h, ih]
    | some item => simp [appendScannedInventory, h, ih]

/-- C9, as amended. For every content of the inventory table, `GetLowStockItems`
answers 200 with, in table order and each once, the rows with
quantity <= low_stock_threshold that can be read into the record; a low-stock row
with NULL in a column that is read into a plain field is left out. When every row
can be read, the answer has as many entries as there are low-stock rows. -/
theorem GetLowStockItems_readable_low_stock (db : MySQL) :
    GetLowStockItems healthy db =
      .json 200 ((db.inventory.filter InventoryRow.lowStock).filterMap scanInventory) ∧
    (∀ item : Inventory,
      item ∈ (db.inventory.filter InventoryRow.lowStock).filterMap scanInventory ↔
        ∃ r ∈ db.inventory, r.lowStock = true ∧ scanInventory r = some item) ∧
    ((∀ r ∈ db.inventory, (scanInventory r).isSome = true) →
      ((db.inventory.filter InventoryRow.lowStock).filterMap scanInventory).length =
        (db.inventory.filter InventoryRow.lowStock).length) := by
  have hk : ∀ k, healthy k = none := fun _ => rfl
  have hsel : db.selectLowStock none = .ok (db.inventory.filter InventoryRow.lowStock) := by
    simp only [MySQL.selectLowStock]
    congr 2
  refine ⟨?_, ?_, ?_⟩
  · simp [GetLowStockItems, hk, hsel, appendScannedInventory_eq]
  · intro item
    simp only [List.mem_filterMap, List.mem_filter]
    constructor
    · rintro ⟨r, ⟨hr, hlow⟩, hscan⟩
      exact ⟨r, hr, hlow, hscan⟩
    · rintro ⟨r, hr, hlow, hscan⟩
      exact ⟨r, ⟨hr, hlow⟩, hscan⟩
  · intro hall
    have hsub : ∀ rows : List InventoryRow, (∀ r ∈ rows, (scanInventory r).isSome = true) →
        (rows.filterMap scanInventory).length = rows.length := by
      intro rows
      induction rows with
      | nil => intro _; rfl
      | cons r rest ih =>
        intro h
        have hr := h r (List.mem_cons_self r rest)
        obtain ⟨item, hitem⟩ := Option.isSome_iff_exists.mp hr
        simp [List.filterMap_cons, hitem, ih (fun x hx => h x (List.mem_cons_of_mem r hx))]
    apply hsub
    intro r hr
    exact hall r (List.mem_of_mem_filter hr)

/-- C9, as stated, fails on a table whose only row is low on stock and has no
warehouse location: the row satisfies quantity <= low_stock_threshold and the answer
is the empty list. -/
theorem GetLowStockItems_skips_unreadable_row :
    storeWithUnplacedStock.inventory.filter InventoryRow.lowStock =
      storeWithUnplacedStock.inventory ∧
    storeWithUnplacedStock.inventory.length = 1 ∧
    GetLowStockItems healthy storeWithUnplacedStock = .json 200 [] := by
  decide

/-! ## Routing -/

/-- C10, at the failing input. `GET /api/inventory/low-stock` is served by
`GetInventoryByProduct` with `product_id = low-stock`: the route with the variable is
registered before the route `/api/inventory/low-stock` and matches first. -/
theorem dispatch_low_stock :
    dispatch "GET" "/api/inventory/low-stock" =
      some (.GetInventoryByProduct, [("product_id", "low-stock")]) ∧
    dispatch "GET" "/api/inventory/low-stock" ≠ some (.GetLowStockItems, []) := by
  decide


/-- A template without variables matches only the path equal to it. -/
theorem matchSegments_literal :
    ∀ (template path : List (List Char)) (vars : List (String × String)),
      (∀ s ∈ template, variableName s = none) →
      matchSegments template path = some vars → path = template := by
  intro template
  induction template with
  | nil =>
    intro path vars _ h
    cases path with
    | nil => rfl
    | cons p ps => simp [matchSegments] at h
  | cons t ts ih =>
    intro path vars hlit h
    cases path with
    | nil => simp [matchSegments] at h
    | cons p ps =>
      have ht : variableName t = none := hlit t (List.mem_cons_self t ts)
      simp only [matchSegments, ht] at h
      split_ifs at h with heq
      rw [heq, ih ps vars (fun s hs => hlit s (List.mem_cons_of_mem t hs)) h]

/-- Every request that the route `/api/inventory/low-stock` matches is matched by the
route `/api/inventory/{product_id}` as well. -/
theorem low_stock_route_shadowed (method path : String) (vars : List (String × String))
    (h : Route.matches ⟨"/api/inventory/low-stock", .GetLowStockItems, "GET"⟩ method path =
      some vars) :
    Route.matches ⟨"/api/inventory/{product_id}", .GetInventoryByProduct, "GET"⟩ method
      path = some [("product_id", "low-stock")] := by
  unfold Route.matches at h ⊢
  simp only at h ⊢
  split_ifs at h ⊢ with hm
  have hpath := matchSegments_literal _ _ vars (by decide) h
  rw [hpath]
  decide

/-- No request is dispatched to `GetLowStockItems`: its route is registered after a
route that matches whatever it matches. -/
theorem dispatch_never_GetLowStockItems (method path : String)
    (vars : List (String × String)) :
    dispatch method path ≠ some (.GetLowStockItems, vars) := by
  intro h
  unfold dispatch at h
  rw [List.findSome?_eq_some_iff] at h
  obtain ⟨before, r, after, hsplit, hr, hnone⟩ := h
  cases hm : r.matches method path with
  | none => simp [hm] at hr
  | some v =>
    simp only [hm, Option.map_some', Option.some.injEq, Prod.mk.injEq] at hr
    obtain ⟨hh, hv⟩ := hr
    have hmem : r ∈ routes := by rw [hsplit]; simp
    have hr24 : r = ⟨"/api/inventory/low-stock", .GetLowStockItems, "GET"⟩ :=
      (by decide : ∀ x ∈ routes, x.handler = .GetLowStockItems →
        x = ⟨"/api/inventory/low-stock", .GetLowStockItems, "GET"⟩) r hmem hh
    have hget : routes[before.length]? = some r := by
      rw [hsplit, List.getElem?_append_right (le_refl _)]
      simp
    have hlen : before.length < 43 := by
      have : before.length < routes.length := by rw [hsplit]; simp
      simpa [routes] using this
    have hidx : before.length = 23 := by
      rw [hr24] at hget
      generalize before.length = k at hget hlen
      interval_cases k <;> first | rfl | (exfalso; revert hget; decide)
    have h20 : routes[20]? = before[20]? := by
      rw [hsplit, List.getElem?_append_left (by omega)]
    have h21 : (⟨"/api/inventory/{product_id}", .GetInventoryByProduct, "GET"⟩ : Route) ∈
        before := by
      have : before[20]? =
          some (⟨"/api/inventory/{product_id}", .GetInventoryByProduct, "GET"⟩ : Route) := by
        rw [← h20]
        decide
      exact List.getElem?_mem this
    have hshadow := low_stock_route_shadowed method path v (by rw [← hr24]; exact hm)
    have := hnone _ h21
    simp [hshadow] at this

/-- The product routes follow the note in `main`: the specific route is registered
first and `GET /api/products/search` reaches `SearchProducts`. -/
theorem dispatch_products_search :
    dispatch "GET" "/api/products/search" = some (.SearchProducts, []) := by
  decide

/-! ## List ceilings -/

theorem appendScanned_eq {ρ α : Type} (scan : ρ → Option α) (rows : List ρ) :
    ∀ records : List α, appendScanned scan rows records = records ++ rows.filterMap scan := by
  induction rows with
  | nil => intro records; simp [appendScanned]
  | cons r rest ih =>
    intro records
    cases h : scan r with
    | none => simp [appendScanned, h, ih]
    | some record => simp [appendScanned, h, ih]

theorem filterMap_length_le_take {ρ α : Type} (scan : ρ → Option α) (rows : List ρ)
    (n : Nat) : ((rows.take n).filterMap scan).length ≤ n :=
  le_trans (List.length_filterMap_le scan _) (by simp)

/-- A list all of whose rows are selected and scan is returned whole. -/
theorem filterMap_filter_length {ρ α : Type} (scan : ρ → Option α) (p : ρ → Bool)
    (rows : List ρ) (hp : ∀ r ∈ rows, p r = true) (hs : ∀ r ∈ rows, (scan r).isSome = true) :
    ((rows.filter p).filterMap scan).length = rows.length := by
  induction rows with
  | nil => rfl
  | cons r rest ih =>
    have hr := hp r (List.mem_cons_self r rest)
    obtain ⟨x, hx⟩ := Option.isSome_iff_exists.mp (hs r (List.mem_cons_self r rest))
    have := ih (fun y hy => hp y (List.mem_cons_of_mem r hy))
      (fun y hy => hs y (List.mem_cons_of_mem r hy))
    simp [List.filter_cons, hr, List.filterMap_cons, hx, this]

theorem GetCart_uncapped (n : Nat) :
    (GetCart healthy (shopWithCartRows n) "1").records.length = n := by
  have hpath : int4in "1" = some 1 := by decide
  have hk : healthy 0 = none := rfl
  have hlen := filterMap_filter_length scanCartItem (fun r : CartRow => r.user_id == some 1)
    ((List.range n).map cartRowOfUserOne)
    (by intro r hr; simp only [List.mem_map] at hr; obtain ⟨i, _, rfl⟩ := hr; rfl)
    (by intro r hr; simp only [List.mem_map] at hr; obtain ⟨i, _, rfl⟩ := hr; rfl)
  simp only [GetCart, Postgres.selectCart, hk, hpath, shopWithCartRows, Response.records,
    appendScanned_eq, List.nil_append]
  simpa using hlen

theorem GetUserOrders_uncapped (n : Nat) :
    (GetUserOrders healthy (shopWithOrders n) "1").records.length = n := by
  have hpath : int4in "1" = some 1 := by decide
  have hk : healthy 0 = none := rfl
  have hlen := filterMap_filter_length scanOrder (fun r : OrderRow => r.user_id == some 1)
    ((List.range n).map orderRowOfUserOne)
    (by intro r hr; simp only [List.mem_map] at hr; obtain ⟨i, _, rfl⟩ := hr; rfl)
    (by intro r hr; simp only [List.mem_map] at hr; obtain ⟨i, _, rfl⟩ := hr; rfl)
  simp only [GetUserOrders, Postgres.selectOrdersOfUser, hk, hpath, shopWithOrders,
    Response.records, appendScanned_eq, List.nil_append]
  simpa using hlen

theorem GetLowStockItems_uncapped (n : Nat) :
    (GetLowStockItems healthy (storeWithLowStock n)).records.length = n := by
  have hk : healthy 0 = none := rfl
  have hlen := filterMap_filter_length scanInventory
    (fun r : InventoryRow =>
      match r.low_stock_threshold with
      | some threshold => decide (r.quantity ≤ threshold)
      | none => false)
    ((List.range n).map lowStockRow)
    (by intro r hr; simp only [List.mem_map] at hr; obtain ⟨i, _, rfl⟩ := hr; rfl)
    (by intro r hr; simp only [List.mem_map] at hr; obtain ⟨i, _, rfl⟩ := hr; rfl)
  simp only [GetLowStockItems, MySQL.selectLowStock, hk, storeWithLowStock, Response.records,
    appendScannedInventory_eq, List.nil_append]
  simpa using hlen

/-- C11, as amended. Whatever the tables hold and whatever the store reports, the
lists of all users, all orders and all inventory return at most 100 records and the
sales list at most 1000. The lists of a user's orders, of a user's cart and of the
low-stock inventory carry no ceiling: for every n there is a store on which they
return n records. -/
theorem list_ceilings (faults : Faults) (pg : Postgres) (my : MySQL) (today : Date)
    (between : String → String → Date → Bool) (startDate endDate : String) :
    (GetAllUsers faults pg).records.length ≤ 100 ∧
    (GetAllOrders faults pg).records.length ≤ 100 ∧
    (GetAllInventory faults my).records.length ≤ 100 ∧
    (GetSalesAnalytics faults today between my startDate endDate).records.length ≤ 1000 ∧
    (∀ n : Nat, (GetUserOrders healthy (shopWithOrders n) "1").records.length = n) ∧
    (∀ n : Nat, (GetCart healthy (shopWithCartRows n) "1").records.length = n) ∧
    (∀ n : Nat, (GetLowStockItems healthy (storeWithLowStock n)).records.length = n) := by
  refine ⟨?_, ?_, ?_, ?_, GetUserOrders_uncapped, GetCart_uncapped,
    GetLowStockItems_uncapped⟩
  · unfold GetAllUsers Postgres.selectUsers
    cases faults 0 with
    | some e => simp [Response.records]
    | none =>
      simp only [Response.records, appendScanned_eq, List.nil_append]
      exact filterMap_length_le_take _ _ _
  · unfold GetAllOrders Postgres.selectOrders
    cases faults 0 with
    | some e => simp [Response.records]
    | none =>
      simp only [Response.records, appendScanned_eq, List.nil_append]
      exact filterMap_length_le_take _ _ _
  · unfold GetAllInventory MySQL.selectInventory
    cases faults 0 with
    | some e => simp [Response.records]
    | none =>
      simp only [Response.records, appendScannedInventory_eq, List.nil_append]
      exact filterMap_length_le_take _ _ _
  · unfold GetSalesAnalytics MySQL.selectSales
    cases faults 0 with
    | some e => simp [Response.records]
    | none =>
      simp only [Response.records, appendScanned_eq, List.nil_append]
      exact filterMap_length_le_take _ _ _

/-- C11, as stated, fails for the three lists whose queries carry no `LIMIT`: with 101
matching rows, a user's orders, a user's cart and the low-stock list each return 101
records. -/
theorem lists_without_ceiling :
    (GetUserOrders healthy (shopWithOrders 101) "1").records.length = 101 ∧
    (GetCart healthy (shopWithCartRows 101) "1").records.length = 101 ∧
    (GetLowStockItems healthy (storeWithLowStock 101)).records.length = 101 :=
  ⟨GetUserOrders_uncapped 101, GetCart_uncapped 101, GetLowStockItems_uncapped 101⟩

/-! ## Users -/

theorem deleteUser_tables (fault : Option String) (id : String) (db : Postgres) :
    (db.deleteUser fault id).2.orders = db.orders ∧
    (db.deleteUser fault id).2.order_items = db.order_items ∧
    (db.deleteUser fault id).2.cart = db.cart := by
  unfold Postgres.deleteUser
  cases fault with
  | some e => exact ⟨rfl, rfl, rfl⟩
  | none =>
    cases int4in id with
    | none => exact ⟨rfl, rfl, rfl⟩
    | some n =>
      simp only
      split_ifs <;> exact ⟨rfl, rfl, rfl⟩

/-- C13, as amended. For every state of the transactional store and every path
segment that reads as the integer id: `DeleteUser` answers 404 and leaves the store
unchanged when no user row has that id; when a user row has it and a row of orders or
cart references it, the store refuses the delete, the answer is 500 and the store is
unchanged; when a user row has it and no such row references it, the answer is the
success message, the rows of that id are gone, and a subsequent `GetUserByID` on that
id answers 404. -/
theorem DeleteUser_outcomes (db : Postgres) (path : String) (id : Int)
    (hpath : int4in path = some id) :
    ((∀ r ∈ db.users, r.id ≠ id) →
      DeleteUser healthy db path = (.error 404 "User not found", db)) ∧
    ((∃ r ∈ db.users, r.id = id) → db.userReferenced id = true →
      DeleteUser healthy db path = (.error 500 (pqStillReferenced "users"), db)) ∧
    ((∃ r ∈ db.users, r.id = id) → db.userReferenced id = false →
      DeleteUser healthy db path =
        (.json 200 ⟨"User deleted successfully"⟩,
          { db with users := db.users.filter (fun r => r.id != id) }) ∧
      GetUserByID healthy (DeleteUser healthy db path).2 path =
        .error 404 "User not found") := by
  have hk : healthy 0 = none := rfl
  refine ⟨?_, ?_, ?_⟩
  · intro habsent
    have hnone : db.users.filter (fun r => r.id == id) = [] := by
      rw [List.filter_eq_nil_iff]
      intro r hr
      simpa using habsent r hr
    simp [DeleteUser, Postgres.deleteUser, hk, hpath, hnone]
  · rintro ⟨r, hr, hid⟩ href
    have hsome : (db.users.filter (fun r => r.id == id)).isEmpty = false := by
      cases hf : db.users.filter (fun r => r.id == id) with
      | nil =>
        rw [List.filter_eq_nil_iff] at hf
        exact absurd (by simpa using hid) (hf r hr)
      | cons x xs => rfl
    unfold Postgres.userReferenced at href
    simp only [DeleteUser, Postgres.deleteUser, hk, hpath, hsome, href]
    rfl
  · rintro ⟨r, hr, hid⟩ href
    have hne : db.users.filter (fun r => r.id == id) ≠ [] := by
      intro hf
      rw [List.filter_eq_nil_iff] at hf
      exact absurd (by simpa using hid) (hf r hr)
    have hsome : (db.users.filter (fun r => r.id == id)).isEmpty = false := by
      cases hf : db.users.filter (fun r => r.id == id) with
      | nil => exact absurd hf hne
      | cons x xs => rfl
    have hlen : ((db.users.filter (fun r => r.id == id)).length : Int) ≠ 0 := by
      have : (db.users.filter (fun r => r.id == id)).length ≠ 0 := by
        rwa [Ne, List.length_eq_zero]
      exact_mod_cast this
    unfold Postgres.userReferenced at href
    have hdel : DeleteUser healthy db path =
        (.json 200 ⟨"User deleted successfully"⟩,
          { db with users := db.users.filter (fun r => r.id != id) }) := by
      simp only [DeleteUser, Postgres.deleteUser, hk, hpath, hsome, href, if_neg hlen]
      simp
      exact ⟨r, hr, hid⟩
    refine ⟨hdel, ?_⟩
    rw [hdel]
    have hgone : (db.users.filter (fun r => r.id != id)).find? (fun r => r.id == id) = none := by
      rw [List.find?_eq_none]
      intro x hx
      have := (List.mem_filter.mp hx).2
      simpa using this
    simp [GetUserByID, Postgres.selectUserByID, hk, hpath, hgone]

/-- An instance of C13: user 1 is stored and nothing references it. -/
theorem DeleteUser_outcomes_witness :
    int4in "1" = some 1 ∧
    DeleteUser healthy shopWithUser "1" =
      (.json 200 ⟨"User deleted successfully"⟩, { shopWithUser with users := [] }) ∧
    GetUserByID healthy (DeleteUser healthy shopWithUser "1").2 "1" =
      .error 404 "User not found" :=
  have hpath : int4in "1" = some 1 := by decide
  have h := (DeleteUser_outcomes shopWithUser "1" 1 hpath).2.2
    ⟨_, List.mem_cons_self _ _, rfl⟩ (by decide)
  ⟨hpath, h.1, h.2⟩

/-- C13, as stated, fails for a user that a cart row references: the store refuses the
delete, `DeleteUser` answers 500, and `GetUserByID` still finds the user. -/
theorem DeleteUser_referenced_user :
    shopWithShopperCart.users.any (fun r => r.id == 1) = true ∧
    DeleteUser healthy shopWithShopperCart "1" =
      (.error 500 (pqStillReferenced "users"), shopWithShopperCart) ∧
    GetUserByID healthy (DeleteUser healthy shopWithShopperCart "1").2 "1" =
      .json 200 { ID := 1, Name := "Ada", Email := "ada@example.com", Password := "",
                  Address := "1 Main St", Phone := "555-0100", CreatedAt := 0,
                  UpdatedAt := 0 } := by
  decide

/-- C19. For every state of the transactional store, every path segment and whatever
the store reports, `DeleteUser` leaves the tables orders, order_items and cart as they
are, whether it answers with success, 404 or 500. -/
theorem DeleteUser_keeps_orders_and_cart (faults : Faults) (db : Postgres) (path : String) :
    (DeleteUser faults db path).2.orders = db.orders ∧
    (DeleteUser faults db path).2.order_items = db.order_items ∧
    (DeleteUser faults db path).2.cart = db.cart := by
  have h := deleteUser_tables (faults 0) path db
  unfold DeleteUser
  rcases hres : db.deleteUser (faults 0) path with ⟨r, db1⟩
  rw [hres] at h
  cases r with
  | error e => exact h
  | ok rows =>
    simp only
    split_ifs <;> exact h

/-! ## Order status -/

theorem nibbleOf_isSome (c : Char) : (nibbleOf c).isSome = isHexChar c := by
  unfold nibbleOf isHexChar
  split_ifs with h1 h2 h3
  · simp [h1]
  · simp [h2]
  · simp [h3]
  · simp [h1, h2, h3]

theorem readNibbles_length :
    ∀ (cs : List Char) (ns : List (Fin 16)), readNibbles cs = some ns → ns.length = cs.length
  | [], ns, h => by
    simp only [readNibbles, Option.some.injEq] at h
    subst h
    rfl
  | c :: cs, ns, h => by
    simp only [readNibbles] at h
    rcases hn : nibbleOf c with _ | n
    · rw [hn] at h
      simp at h
    · rcases hr : readNibbles cs with _ | rest
      · rw [hn, hr] at h
        simp at h
      · rw [hn, hr] at h
        simp only [Option.some.injEq] at h
        subst h
        simp [readNibbles_length cs rest hr]

theorem readNibbles_isSome :
    ∀ cs : List Char, (readNibbles cs).isSome = cs.all isHexChar
  | [] => rfl
  | c :: cs => by
    have ih := readNibbles_isSome cs
    have hc := nibbleOf_isSome c
    simp only [readNibbles, List.all_cons]
    rcases hn : nibbleOf c with _ | n
    · rw [hn] at hc
      simp [← hc]
    · rw [hn] at hc
      rcases hr : readNibbles cs with _ | rest
      · rw [hr] at ih
        simp [← ih, ← hc]
      · rw [hr] at ih
        simp [← ih, ← hc]

theorem ObjectIDFromHex_isSome (s : String) : (ObjectIDFromHex s).isSome = isHex24 s := by
  unfold ObjectIDFromHex isHex24
  have hall := readNibbles_isSome s.data
  rcases hr : readNibbles s.data with _ | ns
  · rw [hr] at hall
    simp [← hall]
  · rw [hr] at hall
    have hlen := readNibbles_length s.data ns hr
    have hs : s.length = ns.length := by rw [hlen]; rfl
    simp only [← hall, Option.isSome_some, Bool.and_true, hs]
    by_cases h : ns.length = 24
    · simp [h]
    · simp [h]


/-- C16. A path identifier that is not exactly 24 hexadecimal characters is the one
that does not decode, and for it `DeleteReview` and `MarkReviewHelpful` answer 400
"Invalid review ID" whatever the store would report, with the store as it was (no
store call is made). For an identifier that decodes, the store call is made (its
error, if any, is the 500 answer), the status is never 400, and when no review has
that identifier the answer is 404 with the store unchanged. -/
theorem review_id_checked_before_store (faults : Faults) (db : Mongo) (id : String) :
    (ObjectIDFromHex id = none ↔ isHex24 id = false) ∧
    (isHex24 id = false →
      DeleteReview faults db id = (.error 400 "Invalid review ID", db) ∧
      MarkReviewHelpful faults db id = (.error 400 "Invalid review ID", db)) ∧
    (isHex24 id = true →
      (DeleteReview faults db id).1.status ≠ 400 ∧
      (MarkReviewHelpful faults db id).1.status ≠ 400 ∧
      (∀ e, faults 0 = some e →
        DeleteReview faults db id = (.error 500 e, db) ∧
        MarkReviewHelpful faults db id = (.error 500 e, db)) ∧
      (faults 0 = none →
        (∀ objectID, ObjectIDFromHex id = some objectID →
          db.reviews.all (fun d => d.lookup "_id" != some (.objectID objectID)) = true) →
        DeleteReview faults db id = (.error 404 "Review not found", db) ∧
        MarkReviewHelpful faults db id = (.error 404 "Review not found", db))) := by
  have hsome := ObjectIDFromHex_isSome id
  refine ⟨?_, ?_, ?_⟩
  · rcases h : ObjectIDFromHex id with _ | objectID
    · rw [h] at hsome
      simp [← hsome]
    · rw [h] at hsome
      simp [← hsome]
  · intro hbad
    rw [hbad] at hsome
    have hnone : ObjectIDFromHex id = none := by
      rcases h : ObjectIDFromHex id with _ | objectID
      · rfl
      · rw [h] at hsome
        simp at hsome
    simp [DeleteReview, MarkReviewHelpful, hnone]
  · intro hgood
    rw [hgood] at hsome
    obtain ⟨objectID, hid⟩ := Option.isSome_iff_exists.mp hsome
    refine ⟨?_, ?_, ?_, ?_⟩
    · simp only [DeleteReview, hid, deleteOne]
      rcases hf : faults 0 with _ | e
      · simp only []
        split_ifs <;> simp [Response.status]
      · simp [Response.status]
    · simp only [MarkReviewHelpful, hid, updateOneInc]
      rcases hf : faults 0 with _ | e
      · simp only []
        rcases hu : updateFirstDoc [("_id", Bson.objectID objectID)] (Doc.inc "helpful" 1)
            db.reviews with e | updated
        · simp [Response.status]
        · simp only []
          split_ifs <;> simp [Response.status]
      · simp [Response.status]
    · intro e hf
      simp [DeleteReview, MarkReviewHelpful, hid, deleteOne, updateOneInc, hf]
    · intro hf hnone
      have hall := hnone objectID hid
      have hany : db.reviews.any (Doc.satisfies [("_id", Bson.objectID objectID)]) = false := by
        rw [List.any_eq_false]
        intro d hd
        have := List.all_eq_true.mp hall d hd
        simpa [Doc.satisfies] using this
      have hupd : ∀ docs : List Doc,
          docs.any (Doc.satisfies [("_id", Bson.objectID objectID)]) = false →
          updateFirstDoc [("_id", Bson.objectID objectID)] (Doc.inc "helpful" 1) docs
            = .ok docs := by
        intro docs
        induction docs with
        | nil => intro _; rfl
        | cons d rest ih =>
          intro h
          simp only [List.any_cons, Bool.or_eq_false_iff] at h
          simp [updateFirstDoc, h.1, ih h.2]
      simp [DeleteReview, MarkReviewHelpful, hid, deleteOne, updateOneInc, hf, hany,
        hupd db.reviews hany]


theorem review_id_checked_before_store_witness :
    isHex24 "not-an-id" = false ∧
    MarkReviewHelpful healthy Mongo.empty "not-an-id"
      = (.error 400 "Invalid review ID", Mongo.empty) ∧
    isHex24 "0123456789abcdefABCDEF00" = true ∧
    DeleteReview healthy Mongo.empty "0123456789abcdefABCDEF00"
      = (.error 404 "Review not found", Mongo.empty) :=
  ⟨by decide,
   ((review_id_checked_before_store healthy Mongo.empty "not-an-id").2.1 (by decide)).2,
   by decide,
   (((review_id_checked_before_store healthy Mongo.empty "0123456789abcdefABCDEF00").2.2
      (by decide)).2.2.2 rfl (fun _ _ => rfl)).1⟩


/-! ## Reviews -/

theorem nibbleOf_hexDigit : ∀ n : Fin 16, nibbleOf (hexDigit n) = some n := by
  decide

theorem readNibbles_hexDigit :
    ∀ ns : List (Fin 16), readNibbles (ns.map hexDigit) = some ns
  | [] => rfl
  | n :: ns => by
    simp [readNibbles, nibbleOf_hexDigit n, readNibbles_hexDigit ns]

theorem ObjectIDFromHex_Hex (id : ObjectID) : ObjectIDFromHex id.Hex = some id := by
  rcases id with ⟨ns, h⟩
  simp [ObjectIDFromHex, ObjectID.Hex, readNibbles_hexDigit, h]

theorem updateFirstDoc_append_last (filter : Doc) (change : Doc → Except String Doc)
    (d d1 : Doc) (hd : filter.satisfies d = true) (hchange : change d = .ok d1) :
    ∀ pre : List Doc, pre.any filter.satisfies = false →
      updateFirstDoc filter change (pre ++ [d]) = .ok (pre ++ [d1])
  | [], _ => by simp [updateFirstDoc, hd, hchange]
  | p :: pre, h => by
    simp only [List.any_cons, Bool.or_eq_false_iff] at h
    simp [updateFirstDoc, h.1, updateFirstDoc_append_last filter change d d1 hd hchange pre h.2]

theorem Review_stored_inc (id : ObjectID) (r : Review) :
    Doc.inc "helpful" 1 (Review.stored id r)
      = .ok (Review.stored id { r with Helpful := r.Helpful + 1 }) := by
  simp [Doc.inc, Review.stored, Review.toDoc, List.lookup]

theorem Review_stored_satisfies (id : ObjectID) (r : Review) :
    Doc.satisfies [("_id", .objectID id)] (Review.stored id r) = true := by
  simp [Doc.satisfies, Review.stored, List.lookup]

theorem Review_stored_decode (id : ObjectID) (r : Review) :
    decodeReview (Review.stored id r) = .ok { r with ID := id.Hex } := by
  simp [decodeReview, Review.stored, Review.toDoc, List.lookup, decodeString, decodeInt,
    decodeTime]


theorem any_satisfies_id (id : ObjectID) (docs : List Doc) :
    docs.any (Doc.satisfies [("_id", .objectID id)])
      = docs.any (fun d => d.lookup "_id" == some (Bson.objectID id)) := by
  congr 1
  funext d
  simp [Doc.satisfies]

theorem CreateReview_created (faults : Faults) (now : Time) (newID : ObjectID)
    (db db1 : Mongo) (body : Except String Review) (created : Review)
    (hcreate : CreateReview faults now newID db body = (some (.json 201 created), db1)) :
    ∃ decoded, body = .ok decoded ∧
      created = { decoded with ID := newID.Hex, CreatedAt := now, Helpful := 0 } ∧
      db.reviews.any (fun d => d.lookup "_id" == some (Bson.objectID newID)) = false ∧
      db1 = { db with reviews := db.reviews ++ [Review.stored newID created] } := by
  rcases body with e | decoded
  · simp [CreateReview] at hcreate
  · refine ⟨decoded, rfl, ?_⟩
    simp only [CreateReview, insertOne] at hcreate
    rcases hf : faults 0 with _ | e
    · rw [hf] at hcreate
      by_cases hid : decoded.ID = ""
      · by_cases hdup : db.reviews.any
            (fun d => d.lookup "_id" == some (Bson.objectID newID)) = true
        · simp [Review.toDoc, hid, List.lookup, hdup] at hcreate
        · simp only [Bool.not_eq_true] at hdup
          simp [Review.toDoc, hid, List.lookup, hdup] at hcreate
          obtain ⟨h1, h2⟩ := hcreate
          subst h1
          subst h2
          refine ⟨rfl, by simpa using hdup, ?_⟩
          simp [Review.stored, Review.toDoc]
      · by_cases hdup : db.reviews.any
            (fun d => d.lookup "_id" == some (Bson.str decoded.ID)) = true
        · simp [Review.toDoc, hid, List.lookup, hdup] at hcreate
        · simp only [Bool.not_eq_true] at hdup
          simp [Review.toDoc, hid, List.lookup, hdup] at hcreate
    · rw [hf] at hcreate
      simp at hcreate


theorem MarkReviewHelpful_stored (faults : Faults) (db : Mongo) (pre : List Doc)
    (newID : ObjectID) (r : Review)
    (hpre : pre.any (fun d => d.lookup "_id" == some (Bson.objectID newID)) = false)
    (hdb : db.reviews = pre ++ [Review.stored newID r]) :
    MarkReviewHelpful faults db newID.Hex =
      match faults 0 with
      | some e => (.error 500 e, db)
      | none =>
        (.json 200 ⟨"Review marked as helpful"⟩,
         { db with
             reviews := pre ++ [Review.stored newID { r with Helpful := r.Helpful + 1 }] }) := by
  have hpre1 := hpre
  rw [← any_satisfies_id] at hpre1
  rcases hf : faults 0 with _ | e
  · have hupd := updateFirstDoc_append_last [("_id", .objectID newID)] (Doc.inc "helpful" 1)
      (Review.stored newID r) _ (Review_stored_satisfies newID r) (Review_stored_inc newID r)
      pre hpre1
    simp [MarkReviewHelpful, ObjectIDFromHex_Hex, updateOneInc, hf, hdb, hupd,
      Review_stored_satisfies]
  · simp [MarkReviewHelpful, ObjectIDFromHex_Hex, updateOneInc, hf]

theorem MarkReviewHelpful_each_stored (newID : ObjectID) (pre : List Doc)
    (hpre : pre.any (fun d => d.lookup "_id" == some (Bson.objectID newID)) = false) :
    ∀ (calls : List Faults) (db : Mongo) (r : Review),
      db.reviews = pre ++ [Review.stored newID r] →
      (MarkReviewHelpful_each calls db newID.Hex).2 =
        { db with
            reviews := pre ++ [Review.stored newID
              { r with
                  Helpful := r.Helpful
                    + successes (MarkReviewHelpful_each calls db newID.Hex).1 }] } ∧
      ((∀ faults ∈ calls, faults 0 = none) →
        (MarkReviewHelpful_each calls db newID.Hex).1
          = List.replicate calls.length (.json 200 ⟨"Review marked as helpful"⟩))
  | [], db, r, hdb => by
    refine ⟨?_, fun _ => rfl⟩
    simp [MarkReviewHelpful_each, successes, ← hdb]
  | faults :: later, db, r, hdb => by
    have hstep := MarkReviewHelpful_stored faults db pre newID r hpre hdb
    rcases hf : faults 0 with _ | e
    · rw [hf] at hstep
      simp only [] at hstep
      have ih := MarkReviewHelpful_each_stored newID pre hpre later
        { db with
            reviews := pre ++ [Review.stored newID { r with Helpful := r.Helpful + 1 }] }
        { r with Helpful := r.Helpful + 1 } rfl
      simp only [MarkReviewHelpful_each, hstep]
      refine ⟨?_, ?_⟩
      · rw [ih.1]
        simp [successes, List.countP_cons, Response.status, add_assoc, add_comm (1 : Int)]
      · intro hall
        rw [ih.2 (fun f hfm => hall f (List.mem_cons_of_mem _ hfm))]
        simp [List.replicate_succ]
    · rw [hf] at hstep
      simp only [] at hstep
      have ih := MarkReviewHelpful_each_stored newID pre hpre later db r hdb
      simp only [MarkReviewHelpful_each, hstep]
      refine ⟨?_, ?_⟩
      · rw [ih.1]
        simp [successes, List.countP_cons, Response.status]
      · intro hall
        have := hall faults (List.mem_cons_self _ _)
        rw [hf] at this
        simp at this


/-- C15. When `CreateReview` answers 201 with the review `created` (for any body,
whatever `helpful` it carries), the review is stored with `helpful` 0; after any
series of `MarkReviewHelpful` requests on the created id the store differs from the one
before the creation by that one document only, and the document differs from the
created one only in `helpful`, which is the number of requests that answered 200;
it decodes to the created review with that counter. Requests that meet no store error
all answer 200, so every count is reached. -/
theorem helpful_counts_successful_calls (faults : Faults) (now : Time) (newID : ObjectID)
    (db db1 : Mongo) (body : Except String Review) (created : Review) (calls : List Faults)
    (hcreate : CreateReview faults now newID db body = (some (.json 201 created), db1)) :
    created.Helpful = 0 ∧
    db1 = { db with reviews := db.reviews ++ [Review.stored newID created] } ∧
    (MarkReviewHelpful_each calls db1 created.ID).2 =
      { db with
          reviews := db.reviews ++ [Review.stored newID
            { created with
                Helpful := successes (MarkReviewHelpful_each calls db1 created.ID).1 }] } ∧
    (∀ k : Int, decodeReview (Review.stored newID { created with Helpful := k })
      = .ok { created with Helpful := k }) ∧
    ((∀ f ∈ calls, f 0 = none) →
      (MarkReviewHelpful_each calls db1 created.ID).1
        = List.replicate calls.length (.json 200 ⟨"Review marked as helpful"⟩)) := by
  obtain ⟨decoded, _, hcreated, hfresh, hdb1⟩ :=
    CreateReview_created faults now newID db db1 body created hcreate
  have hid : created.ID = newID.Hex := by rw [hcreated]
  have hzero : created.Helpful = 0 := by rw [hcreated]
  have hreviews : db1.reviews = db.reviews ++ [Review.stored newID created] := by rw [hdb1]
  have hrun := MarkReviewHelpful_each_stored newID db.reviews hfresh calls db1 created hreviews
  rw [← hid] at hrun
  refine ⟨hzero, hdb1, ?_, ?_, hrun.2⟩
  · rw [hrun.1, hzero, hdb1]
    simp
  · intro k
    rw [Review_stored_decode, ← hid]

theorem helpful_counts_successful_calls_witness :
    CreateReview healthy 5 (ObjectID.ofDigit 10) Mongo.empty (.ok reviewBody)
      = (some (.json 201 createdReview),
         { Mongo.empty with reviews := [Review.stored (ObjectID.ofDigit 10) createdReview] }) ∧
    MarkReviewHelpful_each [healthy, healthy]
        { Mongo.empty with reviews := [Review.stored (ObjectID.ofDigit 10) createdReview] }
        createdReview.ID
      = ([.json 200 ⟨"Review marked as helpful"⟩, .json 200 ⟨"Review marked as helpful"⟩],
         { Mongo.empty with
             reviews := [Review.stored (ObjectID.ofDigit 10)
               { createdReview with Helpful := 2 }] }) := by
  have hcreate : CreateReview healthy 5 (ObjectID.ofDigit 10) Mongo.empty (.ok reviewBody)
      = (some (.json 201 createdReview),
         { Mongo.empty with
             reviews := [Review.stored (ObjectID.ofDigit 10) createdReview] }) := by
    decide
  have h := helpful_counts_successful_calls healthy 5 (ObjectID.ofDigit 10) Mongo.empty _
    (.ok reviewBody) createdReview [healthy, healthy] hcreate
  have hall := h.2.2.2.2 (fun f hf => by
    simp only [List.mem_cons, List.mem_singleton, List.not_mem_nil, or_false, or_self] at hf
    rw [hf]
    rfl)
  have hstore := h.2.2.1
  rw [hall] at hstore
  refine ⟨hcreate, Prod.ext hall ?_⟩
  rw [hstore]
  rfl



/-! ## Wishlist -/

theorem Wishlist_stored_decode (id : ObjectID) (w : Wishlist) :
    decodeWishlist (Wishlist.stored id w) = .ok { w with ID := id.Hex } := by
  simp [decodeWishlist, Wishlist.stored, Wishlist.toDoc, List.lookup, decodeString, decodeInt,
    decodeTime]

theorem Wishlist_stored_user (id : ObjectID) (w : Wishlist) (user : Int) :
    Doc.satisfies [("user_id", .int user)] (Wishlist.stored id w) = (w.UserID == user) := by
  simp [Doc.satisfies, Wishlist.stored, Wishlist.toDoc, List.lookup]

theorem Wishlist_stored_pair (id : ObjectID) (w : Wishlist) (user : Int) (product : String) :
    Doc.satisfies [("user_id", .int user), ("product_id", .str product)] (Wishlist.stored id w)
      = (w.UserID == user && w.ProductID == product) := by
  rw [Bool.eq_iff_iff]
  simp [Doc.satisfies, Wishlist.stored, Wishlist.toDoc, List.lookup]

theorem decodeAll_stored :
    ∀ items : List (ObjectID × Wishlist),
      decodeAll decodeWishlist (items.map (fun iw => Wishlist.stored iw.1 iw.2))
        = .ok (items.map (fun iw => { iw.2 with ID := iw.1.Hex }))
  | [] => rfl
  | iw :: items => by
    simp [decodeAll, Wishlist_stored_decode, decodeAll_stored items]

theorem AddToWishlist_stored (a : WishlistAdd) (db : Mongo)
    (h : ∃ items : List (ObjectID × Wishlist),
      db.wishlist = items.map (fun iw => Wishlist.stored iw.1 iw.2)) :
    ∃ items : List (ObjectID × Wishlist),
      (AddToWishlist a.faults a.now a.newID db a.userID a.body).2.wishlist
        = items.map (fun iw => Wishlist.stored iw.1 iw.2) := by
  obtain ⟨items, hitems⟩ := h
  rcases hb : a.body with e | data
  · exact ⟨items, by simp [AddToWishlist, hitems]⟩
  · rcases hf : a.faults 0 with _ | e
    · by_cases hdup : db.wishlist.any
          (fun d => d.lookup "_id" == some (Bson.objectID a.newID)) = true
      · refine ⟨items, ?_⟩
        simp [AddToWishlist, insertOne, hf, Wishlist.toDoc, List.lookup, hdup]
        exact hitems
      · simp only [Bool.not_eq_true] at hdup
        refine ⟨items ++ [(a.newID,
          { ID := "", UserID := (Atoi a.userID).1,
            ProductID := (data.lookup "product_id").getD "", AddedAt := a.now })], ?_⟩
        simp [AddToWishlist, insertOne, hf, Wishlist.toDoc, List.lookup, hdup,
          Wishlist.stored]
        exact hitems
    · exact ⟨items, by simp [AddToWishlist, insertOne, hf, hitems]⟩

theorem AddToWishlist_each_stored :
    ∀ (adds : List WishlistAdd) (db : Mongo),
      (∃ items : List (ObjectID × Wishlist),
        db.wishlist = items.map (fun iw => Wishlist.stored iw.1 iw.2)) →
      ∃ items : List (ObjectID × Wishlist),
        (AddToWishlist_each adds db).wishlist = items.map (fun iw => Wishlist.stored iw.1 iw.2)
  | [], _, h => h
  | a :: later, db, h =>
    AddToWishlist_each_stored later _ (AddToWishlist_stored a db h)


theorem any_map_comp {α β : Type} (f : α → β) (p : β → Bool) :
    ∀ l : List α, (l.map f).any p = l.any (p ∘ f)
  | [] => rfl
  | a :: l => by simp [any_map_comp f p l]

theorem GetWishlist_stored (db : Mongo) (userID : String) (items : List (ObjectID × Wishlist))
    (hitems : db.wishlist = items.map (fun iw => Wishlist.stored iw.1 iw.2)) :
    GetWishlist healthy db userID
      = .json 200 ((items.filter (fun iw => iw.2.UserID == (Atoi userID).1)).map
          (fun iw => { iw.2 with ID := iw.1.Hex })) := by
  have hfilter : (items.map (fun iw => Wishlist.stored iw.1 iw.2)).filter
      (Doc.satisfies [("user_id", .int (Atoi userID).1)])
      = (items.filter (fun iw => iw.2.UserID == (Atoi userID).1)).map
          (fun iw => Wishlist.stored iw.1 iw.2) := by
    rw [List.filter_map]
    congr 2
    funext iw
    exact Wishlist_stored_user iw.1 iw.2 _
  simp only [GetWishlist, find, healthy, hitems, hfilter, decodeAll_stored]

theorem RemoveFromWishlist_stored (db : Mongo) (userID productID : String)
    (items : List (ObjectID × Wishlist))
    (hitems : db.wishlist = items.map (fun iw => Wishlist.stored iw.1 iw.2)) :
    RemoveFromWishlist healthy db userID productID
      = if items.any (fun iw => iw.2.UserID == (Atoi userID).1 && iw.2.ProductID == productID)
        then (.json 200 ⟨"Item removed from wishlist"⟩,
              { db with
                  wishlist := (items.eraseP (fun iw =>
                    iw.2.UserID == (Atoi userID).1 && iw.2.ProductID == productID)).map
                    (fun iw => Wishlist.stored iw.1 iw.2) })
        else (.error 404 "Wishlist item not found", db) := by
  have hpair : (Doc.satisfies [("user_id", .int (Atoi userID).1),
        ("product_id", .str productID)]) ∘ (fun iw : ObjectID × Wishlist =>
          Wishlist.stored iw.1 iw.2)
      = fun iw => iw.2.UserID == (Atoi userID).1 && iw.2.ProductID == productID := by
    funext iw
    exact Wishlist_stored_pair iw.1 iw.2 _ _
  have hany : (items.map (fun iw => Wishlist.stored iw.1 iw.2)).any
      (Doc.satisfies [("user_id", .int (Atoi userID).1), ("product_id", .str productID)])
      = items.any (fun iw => iw.2.UserID == (Atoi userID).1 && iw.2.ProductID == productID) := by
    rw [any_map_comp, hpair]
  have herase : (items.map (fun iw => Wishlist.stored iw.1 iw.2)).eraseP
      (Doc.satisfies [("user_id", .int (Atoi userID).1), ("product_id", .str productID)])
      = (items.eraseP (fun iw =>
          iw.2.UserID == (Atoi userID).1 && iw.2.ProductID == productID)).map
          (fun iw => Wishlist.stored iw.1 iw.2) := by
    rw [List.eraseP_map, hpair]
  simp only [RemoveFromWishlist, deleteOne, healthy, hitems, hany, herase]
  split_ifs with h
  · simp
  · simp [← hitems]

theorem countP_eraseP_add_one {α : Type} (p : α → Bool) :
    ∀ l : List α, l.any p = true → (l.eraseP p).countP p + 1 = l.countP p
  | [], h => by simp at h
  | a :: l, h => by
    by_cases ha : p a = true
    · simp [ha, List.countP_cons]
    · have ha1 : p a = false := by simpa using ha
      simp only [List.any_cons, ha1, Bool.false_or] at h
      simp [ha1, List.countP_cons, countP_eraseP_add_one p l h]


/-- C14, as amended. On every wishlist state that `AddToWishlist` requests build from the empty
store, `GetWishlist` answers 200; `RemoveFromWishlist` answers 404 and changes nothing
when the user's list has no item with the product, and otherwise answers the success
message and removes exactly one document: the following `GetWishlist` gives the earlier
list without its first item of that product, so with one item of that product fewer
(none when the pair had been added once). -/
theorem RemoveFromWishlist_removes_one (adds : List WishlistAdd) (userID productID : String) :
    let db := AddToWishlist_each adds Mongo.empty
    let before := (GetWishlist healthy db userID).records
    let wanted := fun (w : Wishlist) => w.ProductID == productID
    let after := (RemoveFromWishlist healthy db userID productID).2
    GetWishlist healthy db userID = .json 200 before ∧
    (before.any wanted = false →
      RemoveFromWishlist healthy db userID productID
        = (.error 404 "Wishlist item not found", db)) ∧
    (before.any wanted = true →
      (RemoveFromWishlist healthy db userID productID).1
        = .json 200 ⟨"Item removed from wishlist"⟩ ∧
      GetWishlist healthy after userID = .json 200 (before.eraseP wanted) ∧
      (before.eraseP wanted).countP wanted + 1 = before.countP wanted ∧
      (before.countP wanted = 1 → (before.eraseP wanted).any wanted = false)) := by
  intro db before wanted after
  obtain ⟨items, hitems⟩ := AddToWishlist_each_stored adds Mongo.empty ⟨[], rfl⟩
  have hget := GetWishlist_stored db userID items hitems
  have hremove := RemoveFromWishlist_stored db userID productID items hitems
  have hbefore : before = (items.filter (fun iw => iw.2.UserID == (Atoi userID).1)).map
      (fun iw => { iw.2 with ID := iw.1.Hex }) := by
    show (GetWishlist healthy db userID).records = _
    rw [hget]
    rfl
  have hany : before.any wanted
      = items.any (fun iw => iw.2.UserID == (Atoi userID).1 && iw.2.ProductID == productID) := by
    rw [hbefore, any_map_comp, List.any_filter]
    congr 1
  refine ⟨by rw [hget, hbefore], ?_, ?_⟩
  · intro hnone
    rw [hany] at hnone
    rw [hremove, hnone]
    simp
  · intro hsome
    have hcount := countP_eraseP_add_one wanted before hsome
    rw [hany] at hsome
    have hafter : after.wishlist = (items.eraseP (fun iw =>
        iw.2.UserID == (Atoi userID).1 && iw.2.ProductID == productID)).map
        (fun iw => Wishlist.stored iw.1 iw.2) := by
      show (RemoveFromWishlist healthy db userID productID).2.wishlist = _
      rw [hremove, hsome]
      simp
    refine ⟨by rw [hremove, hsome]; simp, ?_, hcount, ?_⟩
    · rw [GetWishlist_stored after userID _ hafter, hbefore, List.eraseP_map,
        List.eraseP_filter]
      have hpred : (fun x : ObjectID × Wishlist =>
            (wanted ∘ fun iw : ObjectID × Wishlist => { iw.2 with ID := iw.1.Hex }) x
              && x.2.UserID == (Atoi userID).1)
          = fun iw => iw.2.UserID == (Atoi userID).1 && iw.2.ProductID == productID := by
        funext iw
        exact Bool.and_comm _ _
      rw [hpred]
    · intro hone
      rw [hone] at hcount
      have hzero : (before.eraseP wanted).countP wanted = 0 := by omega
      rw [List.countP_eq_zero] at hzero
      rw [List.any_eq_false]
      intro w hw
      exact hzero w hw

theorem RemoveFromWishlist_removes_one_witness :
    (GetWishlist healthy (AddToWishlist_each [wishProdOne (ObjectID.ofDigit 1)] Mongo.empty)
      "1").records.any (fun w => w.ProductID == "prod1") = true ∧
    GetWishlist healthy
      (RemoveFromWishlist healthy
        (AddToWishlist_each [wishProdOne (ObjectID.ofDigit 1)] Mongo.empty) "1" "prod1").2 "1"
      = .json 200
          ((GetWishlist healthy
            (AddToWishlist_each [wishProdOne (ObjectID.ofDigit 1)] Mongo.empty)
            "1").records.eraseP (fun w => w.ProductID == "prod1")) :=
  ⟨by decide,
   ((RemoveFromWishlist_removes_one [wishProdOne (ObjectID.ofDigit 1)] "1" "prod1").2.2
      (by decide)).2.1⟩

/-- C14, as stated, fails when a pair was added more than once: the pair (user 1,
`prod1`) is added twice, one `RemoveFromWishlist` answers the success message, and the
following `GetWishlist` still has an item with `prod1`. -/
theorem RemoveFromWishlist_leaves_duplicate :
    (RemoveFromWishlist healthy
        (AddToWishlist_each [wishProdOne (ObjectID.ofDigit 1), wishProdOne (ObjectID.ofDigit 2)]
          Mongo.empty) "1" "prod1").1
      = .json 200 ⟨"Item removed from wishlist"⟩ ∧
    GetWishlist healthy
        (RemoveFromWishlist healthy
          (AddToWishlist_each
            [wishProdOne (ObjectID.ofDigit 1), wishProdOne (ObjectID.ofDigit 2)]
            Mongo.empty) "1" "prod1").2 "1"
      = .json 200
          [{ ID := "222222222222222222222222", UserID := 1, ProductID := "prod1",
             AddedAt := 0 }] := by
  decide


/-! ## The default range of the sales list -/

theorem daysIn_bounds (year month : Nat) : 28 ≤ daysIn year month ∧ daysIn year month ≤ 31 := by
  unfold daysIn
  split <;> try split_ifs
  all_goals omega

theorem iterate_next_within (year month : Nat) :
    ∀ k : Nat, 1 + k ≤ daysIn year month →
      Nat.iterate Date.next k { year := year, month := month, day := 1 }
        = { year := year, month := month, day := 1 + k }
  | 0, _ => rfl
  | k + 1, h => by
    rw [Function.iterate_succ_apply', iterate_next_within year month k (by omega)]
    have hlt : 1 + k < daysIn year month := by omega
    simp only [Date.next, hlt, if_true]
    rfl

theorem goDate_within (year month day : Nat) (hm : 1 ≤ month) (hd : 1 ≤ day)
    (h : day ≤ daysIn year month) :
    goDate year month day = { year := year, month := month, day := day } := by
  have hne : month ≠ 0 := by omega
  simp only [goDate, hne, if_false]
  rw [iterate_next_within year month (day - 1) (by omega)]
  have : 1 + (day - 1) = day := by omega
  rw [this]


theorem goDate_beyond (year month day : Nat) (hm : 1 ≤ month) (hm12 : month < 12)
    (hd : daysIn year month < day) (hd31 : day ≤ 31) :
    goDate year month day
      = { year := year, month := month + 1, day := day - daysIn year month } := by
  have hne : month ≠ 0 := by omega
  have hb := daysIn_bounds year month
  have hb1 := daysIn_bounds year (month + 1)
  have hsplit : day - 1 = (day - daysIn year month - 1) + 1 + (daysIn year month - 1) := by
    omega
  simp only [goDate, hne, if_false]
  rw [hsplit, Function.iterate_add_apply, Function.iterate_add_apply,
    iterate_next_within year month (daysIn year month - 1) (by omega)]
  have hlast : 1 + (daysIn year month - 1) = daysIn year month := by omega
  rw [hlast]
  have hnext : Nat.iterate Date.next 1
      { year := year, month := month, day := daysIn year month }
      = { year := year, month := month + 1, day := 1 } := by
    simp [Date.next, hm12]
  rw [hnext, iterate_next_within year (month + 1) (day - daysIn year month - 1) (by omega)]
  have : 1 + (day - daysIn year month - 1) = day - daysIn year month := by omega
  rw [this]

theorem monthEarlier_eq (d : Date) (hvalid : d.valid = true) :
    d.monthEarlier =
      if d.day ≤ daysIn d.monthBefore.1 d.monthBefore.2 then
        { year := d.monthBefore.1, month := d.monthBefore.2, day := d.day }
      else
        { year := d.year, month := d.month,
          day := d.day - daysIn d.monthBefore.1 d.monthBefore.2 } := by
  simp only [Date.valid, decide_eq_true_eq] at hvalid
  obtain ⟨hy, _, hm, hm12, hd, hdm⟩ := hvalid
  have hb := daysIn_bounds d.year d.month
  by_cases h1 : d.month = 1
  · have hdec : daysIn (d.year - 1) 12 = 31 := rfl
    have hfirst : d.day ≤ daysIn (d.year - 1) 12 := by omega
    simp only [Date.monthBefore, h1, if_true, hfirst]
    simp only [Date.monthEarlier, goDate, h1, Nat.sub_self, if_true]
    rw [iterate_next_within (d.year - 1) 12 (d.day - 1) (by omega)]
    have : 1 + (d.day - 1) = d.day := by omega
    rw [this]
  · simp only [Date.monthBefore, h1, if_false]
    by_cases hfit : d.day ≤ daysIn d.year (d.month - 1)
    · simp only [hfit, if_true]
      exact goDate_within d.year (d.month - 1) d.day (by omega) hd hfit
    · simp only [hfit, if_false]
      have := goDate_beyond d.year (d.month - 1) d.day (by omega) (by omega) (by omega)
        (by omega)
      rw [Date.monthEarlier, this]
      have hmonth : d.month - 1 + 1 = d.month := by omega
      rw [hmonth]


theorem zeroPadded_length (width n : Nat) (hw : 0 < width) (h : n < 10 ^ width) :
    (zeroPadded width n).length = width := by
  have hlen : (toString n).length ≤ width := Nat.repr_length n width hw h
  simp only [zeroPadded, String.length_append, String.length_mk, List.length_replicate]
  omega

theorem format_length (d : Date) (hy : d.year ≤ 9999) (hm : d.month ≤ 12) (hd : d.day ≤ 31) :
    d.format.length = 10 := by
  have h1 := zeroPadded_length 4 d.year (by omega) (by norm_num; omega)
  have h2 := zeroPadded_length 2 d.month (by omega) (by norm_num; omega)
  have h3 := zeroPadded_length 2 d.day (by omega) (by norm_num; omega)
  have hdash : "-".length = 1 := rfl
  simp only [Date.format, String.length_append, h1, h2, h3, hdash]

/-- C17, as amended. For every calendar day `today`, a bound that is supplied goes to the query
as it is and only an omitted one is replaced; the omitted end bound is today's date; the
omitted start bound is the day with today's number in the preceding calendar month when
that month has such a day, and otherwise the day of the current month that many days
past the end of the preceding month; both are ten characters `YYYY-MM-DD`; and the
handler answers as if the replaced bounds had been supplied. -/
theorem salesRange_defaults (today : Date) (startDate endDate : String)
    (hvalid : today.valid = true) :
    let range := salesRange today startDate endDate
    let before := today.monthBefore
    let start : Date :=
      if today.day ≤ daysIn before.1 before.2 then
        { year := before.1, month := before.2, day := today.day }
      else
        { year := today.year, month := today.month,
          day := today.day - daysIn before.1 before.2 }
    (startDate ≠ "" → range.1 = startDate) ∧
    (endDate ≠ "" → range.2 = endDate) ∧
    (startDate = "" → range.1 = start.format) ∧
    (endDate = "" → range.2 = today.format) ∧
    start.format.length = 10 ∧ today.format.length = 10 ∧
    (∀ (faults : Faults) (between : String → String → Date → Bool) (db : MySQL),
      GetSalesAnalytics faults today between db startDate endDate
        = GetSalesAnalytics faults today between db range.1 range.2) := by
  intro range before start
  have hearlier : today.monthEarlier = start := monthEarlier_eq today hvalid
  have hv := hvalid
  simp only [Date.valid, decide_eq_true_eq] at hv
  obtain ⟨hy, hy9, hm, hm12, hd, hdm⟩ := hv
  have hb := daysIn_bounds today.year today.month
  have htoday : today.format.length = 10 := format_length today hy9 hm12 (by omega)
  have hstart : start.format.length = 10 := by
    apply format_length
    · show (if _ then _ else _ : Date).year ≤ 9999
      split_ifs
      · show today.monthBefore.1 ≤ 9999
        unfold Date.monthBefore
        split_ifs <;> simp <;> omega
      · exact hy9
    · show (if _ then _ else _ : Date).month ≤ 12
      split_ifs
      · show today.monthBefore.2 ≤ 12
        unfold Date.monthBefore
        split_ifs
        · simp
        · simp
          omega
      · exact hm12
    · show (if _ then _ else _ : Date).day ≤ 31
      split_ifs
      · show today.day ≤ 31
        omega
      · show today.day - _ ≤ 31
        omega
  have hne : ∀ d : Date, d.format.length = 10 → d.format ≠ "" := by
    intro d hlen hempty
    rw [hempty] at hlen
    exact absurd hlen (by decide)
  have hfst : range.1 = if startDate = "" then start.format else startDate := by
    show (salesRange today startDate endDate).1 = _
    simp only [salesRange, hearlier]
  have hsnd : range.2 = if endDate = "" then today.format else endDate := by
    show (salesRange today startDate endDate).2 = _
    simp only [salesRange]
  refine ⟨?_, ?_, ?_, ?_, hstart, htoday, ?_⟩
  · intro h
    rw [hfst, if_neg h]
  · intro h
    rw [hsnd, if_neg h]
  · intro h
    rw [hfst, if_pos h]
  · intro h
    rw [hsnd, if_pos h]
  · intro faults between db
    have h1 : range.1 ≠ "" := by
      rw [hfst]
      split_ifs with h
      · exact hne start hstart
      · exact h
    have h2 : range.2 ≠ "" := by
      rw [hsnd]
      split_ifs with h
      · exact hne today htoday
      · exact h
    simp only [GetSalesAnalytics]
    have hagain : salesRange today range.1 range.2 = salesRange today startDate endDate := by
      show salesRange today range.1 range.2 = range
      simp only [salesRange, h1, h2, if_false]
    rw [hagain]


theorem salesRange_defaults_witness :
    (Date.mk 2024 5 15).valid = true ∧
    (salesRange (Date.mk 2024 5 15) "" "2024-05-10").1 = "2024-04-15" ∧
    (salesRange (Date.mk 2024 5 15) "" "2024-05-10").2 = "2024-05-10" :=
  ⟨by decide,
   ((salesRange_defaults ⟨2024, 5, 15⟩ "" "2024-05-10" (by decide)).2.2.1 rfl).trans
     (by decide),
   (salesRange_defaults ⟨2024, 5, 15⟩ "" "2024-05-10" (by decide)).2.1 (by decide)⟩

/-- C17, as stated, fails on a day number that the preceding month lacks: on 31 March
2024 the default start bound is 2 March 2024, a day of the current month, because
February has no day 31. -/
theorem salesRange_end_of_march :
    (Date.mk 2024 3 31).valid = true ∧
    salesRange (Date.mk 2024 3 31) "" "" = ("2024-03-02", "2024-03-31") ∧
    (Date.mk 2024 3 31).monthEarlier = { year := 2024, month := 3, day := 2 } := by
  refine ⟨by decide, ?_, ?_⟩
  · have h := monthEarlier_eq (Date.mk 2024 3 31) (by decide)
    simp only [salesRange, h]
    decide
  · rw [monthEarlier_eq (Date.mk 2024 3 31) (by decide)]
    decide


/-! ## Records that cannot be read -/

theorem unreadable_id_refused (faults : Faults) (now : Time) (db : Postgres) (path : String)
    (hfault : faults 0 = none) (hpath : int4in path = none) :
    DeleteUser faults db path
      = (.error 500 "pq: invalid input syntax for type integer", db) ∧
    CancelOrder faults now db path
      = (.error 500 "pq: invalid input syntax for type integer", db) := by
  simp [DeleteUser, Postgres.deleteUser, CancelOrder, Postgres.setOrderStatus, hfault, hpath]


/-! ## Bodies that do not decode -/

/-- C21. For each of the nine handlers that read a request body and every body whose
decoding fails with error `e`: the answer is 400 with the decoder's text and the store
of the handler is returned as it was, whatever the stores would report to a call, so
no store call is made. -/
theorem undecodable_body_bad_request (faults : Faults) (now : Time) (newID : ObjectID)
    (pg : Postgres) (my : MySQL) (mongo : Mongo) (path e : String) :
    CreateUser faults now pg (.error e) = (.error 400 e, pg) ∧
    UpdateUser faults now pg path (.error e) = (.error 400 e, pg) ∧
    CreateOrder faults now pg (.error e) = (.error 400 e, pg) ∧
    UpdateOrderStatus faults now pg path (.error e) = (.error 400 e, pg) ∧
    AddToCart faults now pg path (.error e) = (.error 400 e, pg) ∧
    UpdateInventory faults now my path (.error e) = (.error 400 e, my) ∧
    RestockInventory faults now my path (.error e) = (.error 400 e, my) ∧
    CreateReview faults now newID mongo (.error e) = (some (.error 400 e), mongo) ∧
    AddToWishlist faults now newID mongo path (.error e) = (some (.error 400 e), mongo) :=
  ⟨rfl, rfl, rfl, rfl, rfl, rfl, rfl, rfl, rfl⟩


/-! ## The cart under the bootstrapped schema -/

theorem upsertCart_without_key (fault : Option String) (now : Time) (userID : Int)
    (productID : String) (quantity : Int) (db : Postgres)
    (hkey : db.cart_user_product_key = false) :
    ∃ e, db.upsertCart fault now userID productID quantity = (.error e, db) := by
  unfold Postgres.upsertCart
  cases fault with
  | some e => exact ⟨e, rfl⟩
  | none => simp [hkey]

theorem insertCart_cart (fault : Option String) (now : Time) (userID : Int)
    (productID : String) (quantity : Int) (db : Postgres) :
    ((db.insertCart fault now userID productID quantity).1.toOption.isSome = true ∧
      (db.insertCart fault now userID productID quantity).2.cart
        = db.cart ++ [{ id := db.cart_id_seq + 1, user_id := some userID,
                        product_id := productID, quantity := quantity,
                        created_at := some now, updated_at := some now }]) ∨
    ((db.insertCart fault now userID productID quantity).1.toOption.isSome = false ∧
      (db.insertCart fault now userID productID quantity).2.cart = db.cart) := by
  unfold Postgres.insertCart
  cases fault with
  | some e => right; exact ⟨rfl, rfl⟩
  | none =>
    simp only []
    split_ifs
    · right; exact ⟨rfl, rfl⟩
    · right; exact ⟨rfl, rfl⟩
    · right; exact ⟨rfl, rfl⟩
    · left; exact ⟨rfl, rfl⟩


theorem AddToCart_eq_plainInsert (faults : Faults) (now : Time) (db : Postgres)
    (userID : String) (body : Except String CartItem)
    (hkey : db.cart_user_product_key = false) :
    AddToCart faults now db userID body
      = AddToCart_plainInsert (faults 1) now db userID body := by
  rcases body with e | decoded
  · rfl
  · obtain ⟨e, he⟩ := upsertCart_without_key (faults 0) now (Atoi userID).1
      decoded.ProductID decoded.Quantity db hkey
    simp only [AddToCart, AddToCart_plainInsert, he]

/-- C22, as amended. Under the bootstrapped schema (no unique constraint on the cart)
the upsert of `AddToCart` is refused for every request, and `AddToCart` answers and
leaves the store exactly as the plain insert alone does. The cart afterwards is the old
cart, row for row, followed by one new row when the answer is 201 and by nothing
otherwise, so no stored quantity is ever raised. The answer is 201 when the user is a
row of `users` (and the insert meets no outside error, the sequence being ahead of the
stored ids); for a user that `users` does not hold the insert is refused, the answer is
500 and no row is added. -/
theorem AddToCart_is_plain_insert (faults : Faults) (now : Time) (db : Postgres)
    (userID : String) (body : Except String CartItem)
    (hkey : db.cart_user_product_key = false) :
    (∀ u p q, ∃ e, db.upsertCart (faults 0) now u p q = (.error e, db)) ∧
    AddToCart faults now db userID body
      = AddToCart_plainInsert (faults 1) now db userID body ∧
    (((AddToCart faults now db userID body).1.status = 201 ∧
        ∃ item, body = .ok item ∧
          (AddToCart faults now db userID body).2.cart
            = db.cart ++ [{ id := db.cart_id_seq + 1, user_id := some (Atoi userID).1,
                            product_id := item.ProductID, quantity := item.Quantity,
                            created_at := some now, updated_at := some now }]) ∨
      ((AddToCart faults now db userID body).1.status ≠ 201 ∧
        (AddToCart faults now db userID body).2.cart = db.cart)) ∧
    (∀ item, body = .ok item → faults 1 = none → (∀ r ∈ db.cart, r.id ≤ db.cart_id_seq) →
      (db.hasUser (Atoi userID).1 = true →
        (AddToCart faults now db userID body).1.status = 201) ∧
      (db.hasUser (Atoi userID).1 = false →
        AddToCart faults now db userID body
          = (.error 500 (pqForeignKey "cart"),
             { db with cart_id_seq := db.cart_id_seq + 1 }))) := by
  have heq := AddToCart_eq_plainInsert faults now db userID body hkey
  refine ⟨fun u p q => upsertCart_without_key (faults 0) now u p q db hkey, heq, ?_, ?_⟩
  · rw [heq]
    rcases body with e | item
    · right
      exact ⟨by simp [AddToCart_plainInsert, Response.status], rfl⟩
    · have hcart := insertCart_cart (faults 1) now (Atoi userID).1 item.ProductID
        item.Quantity db
      simp only [AddToCart_plainInsert]
      rcases hins : db.insertCart (faults 1) now (Atoi userID).1 item.ProductID
        item.Quantity with ⟨r, db1⟩
      rw [hins] at hcart
      rcases r with e1 | ⟨id, created, updated⟩
      · right
        rcases hcart with ⟨h1, _⟩ | ⟨_, h2⟩
        · simp [Except.toOption] at h1
        · exact ⟨by simp [Response.status], h2⟩
      · left
        rcases hcart with ⟨_, h2⟩ | ⟨h1, _⟩
        · exact ⟨by simp [Response.status], item, rfl, h2⟩
        · simp [Except.toOption] at h1
  · intro item hbody hplain hfresh
    have hid := any_id_fresh db.cart (fun r => r.id) db.cart_id_seq hfresh
    rw [heq, hbody]
    refine ⟨fun huser => ?_, fun huser => ?_⟩
    · simp [AddToCart_plainInsert, Postgres.insertCart, hplain, hid, hkey, huser,
        Response.status]
    · simp [AddToCart_plainInsert, Postgres.insertCart, hplain, hid, hkey, huser]

theorem AddToCart_is_plain_insert_witness :
    shopWithUser.cart_user_product_key = false ∧
    AddToCart healthy 3 shopWithUser "1" (.ok (cartBody "prod1" 2))
      = AddToCart_plainInsert none 3 shopWithUser "1" (.ok (cartBody "prod1" 2)) ∧
    (AddToCart healthy 3 shopWithUser "1" (.ok (cartBody "prod1" 2))).1.status = 201 :=
  ⟨rfl,
   (AddToCart_is_plain_insert healthy 3 shopWithUser "1" (.ok (cartBody "prod1" 2)) rfl).2.1,
   ((AddToCart_is_plain_insert healthy 3 shopWithUser "1" (.ok (cartBody "prod1" 2))
      rfl).2.2.2 (cartBody "prod1" 2) rfl rfl (by decide)).1 (by decide)⟩

/-- C22, as stated, fails for a request whose user is not a row of `users`: on the
bootstrapped schema with user 1 only, `AddToCart` for user 2 is refused by the
reference to `users`, answers 500, and the cart has no new row. -/
theorem AddToCart_plain_insert_refused :
    shopWithUser.cart_user_product_key = false ∧
    AddToCart healthy 3 shopWithUser "2" (.ok (cartBody "prod1" 2))
      = (.error 500 (pqForeignKey "cart"), { shopWithUser with cart_id_seq := 1 }) ∧
    (AddToCart healthy 3 shopWithUser "2" (.ok (cartBody "prod1" 2))).2.cart = [] := by
  decide


/-! ## User ids that are not numbers -/

theorem readDigits_isSome :
    ∀ (ds : List Char) (acc : Nat), (readDigits ds acc).isSome = ds.all isDecimalDigit
  | [], _ => rfl
  | c :: ds, acc => by
    simp only [readDigits, digitValue, List.all_cons, isDecimalDigit]
    split_ifs with h
    · simp [h, readDigits_isSome ds]
    · simp [h]

theorem isSome_bind_some {α β : Type} (o : Option α) (f : α → β) :
    (o.bind fun a => some (f a)).isSome = o.isSome := by
  cases o <;> rfl

theorem readSigned_isSome (s : String) : (readSigned s.data).isSome = isDecimalInteger s := by
  unfold readSigned isDecimalInteger
  split
  · rfl
  · rename_i ds _
    cases ds with
    | nil => rfl
    | cons c cs => simp [isSome_bind_some, readDigits_isSome]
  · rename_i ds _
    cases ds with
    | nil => rfl
    | cons c cs => simp [isSome_bind_some, readDigits_isSome]
  · simp [isSome_bind_some, readDigits_isSome]

theorem Atoi_not_integer (s : String) (h : isDecimalInteger s = false) :
    Atoi s = (0, some "strconv.Atoi: invalid syntax") := by
  have hsome := readSigned_isSome s
  rw [h] at hsome
  rcases hr : readSigned s.data with _ | n
  · simp [Atoi, hr]
  · rw [hr] at hsome
    simp at hsome


/-- C23. For every `user_id` path segment that is not a decimal integer, `strconv.Atoi`
gives 0 and an error, which the handlers drop: `GetWishlist`, `AddToWishlist`,
`RemoveFromWishlist` and `AddToCart` answer and leave the stores exactly as for the
segment `0`, and none of them answers 400 (for a body that decodes). `AddToWishlist`,
when the store reports no error and the generated identifier is new, answers 201 with
an item whose `user_id` is 0 and stores that document. -/
theorem nonnumeric_user_id_runs_as_zero (faults : Faults) (now : Time) (newID : ObjectID)
    (mongo : Mongo) (pg : Postgres) (path productID : String)
    (wish : Except String (List (String × String))) (item : Except String CartItem)
    (hpath : isDecimalInteger path = false) :
    Atoi path = (0, some "strconv.Atoi: invalid syntax") ∧
    GetWishlist faults mongo path = GetWishlist faults mongo "0" ∧
    AddToWishlist faults now newID mongo path wish
      = AddToWishlist faults now newID mongo "0" wish ∧
    RemoveFromWishlist faults mongo path productID
      = RemoveFromWishlist faults mongo "0" productID ∧
    AddToCart faults now pg path item = AddToCart faults now pg "0" item ∧
    (GetWishlist faults mongo path).status ≠ 400 ∧
    (RemoveFromWishlist faults mongo path productID).1.status ≠ 400 ∧
    (∀ data r, wish = .ok data →
      (AddToWishlist faults now newID mongo path wish).1 = some r → r.status ≠ 400) ∧
    (∀ decoded, item = .ok decoded →
      (AddToCart faults now pg path item).1.status ≠ 400) ∧
    (∀ data, wish = .ok data → faults 0 = none →
      mongo.wishlist.any (fun d => d.lookup "_id" == some (Bson.objectID newID)) = false →
      AddToWishlist faults now newID mongo path wish =
        (some (.json 201
          { ID := newID.Hex, UserID := 0, ProductID := (data.lookup "product_id").getD "",
            AddedAt := now }),
         { mongo with
             wishlist := mongo.wishlist ++ [Wishlist.stored newID
               { ID := "", UserID := 0, ProductID := (data.lookup "product_id").getD "",
                 AddedAt := now }] })) := by
  have hatoi := Atoi_not_integer path hpath
  have hzero : (Atoi path).1 = 0 := by rw [hatoi]
  have hnought : (Atoi "0").1 = 0 := by decide
  refine ⟨hatoi, ?_, ?_, ?_, ?_, ?_, ?_, ?_, ?_, ?_⟩
  · simp only [GetWishlist, hzero, hnought]
  · simp only [AddToWishlist, hzero, hnought]
  · simp only [RemoveFromWishlist, hzero, hnought]
  · simp only [AddToCart, hzero, hnought]
  · simp only [GetWishlist, find]
    rcases faults 0 with _ | e
    · simp only []
      rcases faults 1 with _ | e1
      · simp only []
        rcases decodeAll decodeWishlist
          (mongo.wishlist.filter (Doc.satisfies [("user_id", .int (Atoi path).1)])) with
          e2 | records
        · simp [Response.status]
        · simp [Response.status]
      · simp [Response.status]
    · simp [Response.status]
  · simp only [RemoveFromWishlist, deleteOne]
    rcases faults 0 with _ | e
    · simp only []
      split_ifs <;> simp [Response.status]
    · simp [Response.status]
  · intro data r hwish hanswer
    rw [hwish] at hanswer
    simp only [AddToWishlist] at hanswer
    rcases hins : insertOne (faults 0) newID
        ({ ID := "", UserID := (Atoi path).1, ProductID := (data.lookup "product_id").getD "",
           AddedAt := now } : Wishlist).toDoc mongo.wishlist with ⟨res, docs⟩
    rw [hins] at hanswer
    rcases res with e | id
    · simp only [Option.some.injEq] at hanswer
      rw [← hanswer]
      simp [Response.status]
    · cases id with
      | objectID oid =>
        simp only [Option.some.injEq] at hanswer
        rw [← hanswer]
        simp [Response.status]
      | int n => simp at hanswer
      | str s => simp at hanswer
      | time t => simp at hanswer
  · intro decoded hitem
    rw [hitem]
    simp only [AddToCart]
    rcases db1 : pg.upsertCart (faults 0) now (Atoi path).1 decoded.ProductID
        decoded.Quantity with ⟨res, pg1⟩
    rcases res with e | ⟨id, created, updated⟩
    · simp only []
      rcases db2 : pg1.insertCart (faults 1) now (Atoi path).1 decoded.ProductID
          decoded.Quantity with ⟨res2, pg2⟩
      rcases res2 with e2 | ⟨id2, created2, updated2⟩
      · simp [Response.status]
      · simp [Response.status]
    · simp [Response.status]
  · intro data hwish hfault hfresh
    rw [hwish]
    simp [AddToWishlist, insertOne, hfault, hzero, Wishlist.toDoc, List.lookup, hfresh,
      Wishlist.stored]

theorem nonnumeric_user_id_runs_as_zero_witness :
    isDecimalInteger "abc" = false ∧
    AddToWishlist healthy 8 (ObjectID.ofDigit 1) Mongo.empty "abc"
        (.ok [("product_id", "prod1")]) =
      (some (.json 201
        { ID := (ObjectID.ofDigit 1).Hex, UserID := 0, ProductID := "prod1", AddedAt := 8 }),
       { Mongo.empty with
           wishlist := [Wishlist.stored (ObjectID.ofDigit 1)
             { ID := "", UserID := 0, ProductID := "prod1", AddedAt := 8 }] }) :=
  ⟨by decide,
   (nonnumeric_user_id_runs_as_zero healthy 8 (ObjectID.ofDigit 1) Mongo.empty
      Postgres.empty "abc" "prod1" (.ok [("product_id", "prod1")])
      (.ok (cartBody "prod1" 1)) (by decide)).2.2.2.2.2.2.2.2.2
      [("product_id", "prod1")] rfl rfl rfl⟩

/-- A numeral beyond 64 bits is a decimal integer; its conversion error is dropped as
well, and the handlers run with the nearest bound, not with 0. -/
theorem Atoi_beyond_int64 :
    isDecimalInteger "99999999999999999999" = true ∧
    Atoi "99999999999999999999"
      = (9223372036854775807, some "strconv.Atoi: value out of range") := by
  decide

/-! ## Order status from the body -/

/-- C25. For every environment, key and default value: `getEnv` returns the value of
the variable when it is set and not empty, and the default when the variable is not set
or is set to the empty string; hence with a default that is not empty the result is
never empty, as for the password of `initPostgres` and the database name of
`GetMongoDatabase`. -/
theorem getEnv_value_or_default (env : Environ) (key defaultValue : String) :
    (∀ value, env key = some value → value ≠ "" → getEnv env key defaultValue = value) ∧
    (env key = none → getEnv env key defaultValue = defaultValue) ∧
    (env key = some "" → getEnv env key defaultValue = defaultValue) ∧
    (defaultValue ≠ "" → getEnv env key defaultValue ≠ "") ∧
    initPostgres.postgresPass env ≠ "" ∧
    GetMongoDatabase.dbName env ≠ "" := by
  have hnonempty : ∀ (k d : String), d ≠ "" → getEnv env k d ≠ "" := by
    intro k d hd
    unfold getEnv
    simp only []
    split_ifs with h
    · exact h
    · exact hd
  refine ⟨?_, ?_, ?_, hnonempty key defaultValue, hnonempty _ _ (by decide),
    hnonempty _ _ (by decide)⟩
  · intro value hset hvalue
    simp [getEnv, Getenv, hset, hvalue]
  · intro hunset
    simp [getEnv, Getenv, hunset]
  · intro hempty
    simp [getEnv, Getenv, hempty]

theorem getEnv_value_or_default_witness :
    emptyPasswordEnv "POSTGRES_PASSWORD" = some "" ∧
    getEnv emptyPasswordEnv "POSTGRES_PASSWORD" "postgres" = "postgres" ∧
    emptyPasswordEnv "POSTGRES_HOST" = some "db.internal" ∧
    getEnv emptyPasswordEnv "POSTGRES_HOST" "localhost" = "db.internal" :=
  ⟨rfl,
   (getEnv_value_or_default emptyPasswordEnv "POSTGRES_PASSWORD" "postgres").2.2.1 rfl,
   rfl,
   (getEnv_value_or_default emptyPasswordEnv "POSTGRES_HOST" "localhost").1 "db.internal"
     rfl (by decide)⟩

end Shop
